import Mathlib

/-!
# goboy: the SM83 interpreter core

A shallow embedding of `cpu/instructions.go` (address modes, flag helpers and the
opcode entries of the 8-bit and 16-bit arithmetic groups, the rotates on A and the CB
prefix) and of `bus/bus.go`, together with theorems about the arithmetic and flag
behaviour of the instructions.

Machine integers are natural numbers; every Go `uint8` / `uint16` operation is
followed by an explicit reduction modulo `2^8` / `2^16`.
-/

namespace Goboy

/-! ## Machine arithmetic -/

/-- Truncation to a Go `uint8`. -/
def u8 (n : Nat) : Nat := n % 256

/-- Truncation to a Go `uint16`. -/
def u16 (n : Nat) : Nat := n % 65536

/-- Go `uint8` addition `a + b` (wraps modulo 2^8). -/
def add8 (a b : Nat) : Nat := (a + b) % 256

/-- Go `uint8` subtraction `a - b` (wraps modulo 2^8). -/
def sub8 (a b : Nat) : Nat := (a + (256 - b % 256)) % 256

/-- Go `uint16` addition `a + b` (wraps modulo 2^16). -/
def add16 (a b : Nat) : Nat := (a + b) % 65536

/-- Go `uint16` subtraction `a - b` (wraps modulo 2^16). -/
def sub16 (a b : Nat) : Nat := (a + (65536 - b % 65536)) % 65536

/-- Go conversion `int8(b)` of a byte: the two's complement reading. -/
def toInt8 (b : Nat) : Int :=
  if b % 256 < 128 then (b % 256 : Nat) else ((b % 256 : Nat) : Int) - 256

/-- Go conversion `uint16(i)` of a signed value: reduction modulo 2^16. -/
def int8ToU16 (i : Int) : Nat := (i % 65536).toNat

/-! ## Register file -/

/-- Modelled from the spec: the flag masks of the `registers` source file, which is
not part of the sources at hand. Zero is bit 7 of F. -/
def ZERO_FLAG : Nat := 0x80

/-- Modelled from the spec: Subtract is bit 6 of F. -/
def SUBTRACTION_FLAG : Nat := 0x40

/-- Modelled from the spec: Half-carry is bit 5 of F. -/
def HALF_CARRY_FLAG : Nat := 0x20

/-- Modelled from the spec: Carry is bit 4 of F. -/
def CARRY_FLAG : Nat := 0x10

/-- Modelled from the spec: the register file (its declaration is not part of the
sources at hand; the fields are the ones `instructions.go` accesses). Eight
8-bit registers and the 16-bit SP and PC. -/
structure Registers where
  A : Nat
  F : Nat
  B : Nat
  C : Nat
  D : Nat
  E : Nat
  H : Nat
  L : Nat
  SP : Nat
  PC : Nat
deriving DecidableEq, Repr

namespace Registers

/-- Modelled from the spec: the flag write accessor. The selected bit of F is set or
cleared by a bit operation on the byte, and the low nibble is cleared on every
write. -/
def SetFlag (r : Registers) (flag : Nat) (value : Bool) : Registers :=
  { r with F := (if value then r.F ||| flag else r.F &&& (0xFF ^^^ flag)) &&& 0xF0 }

/-- Modelled from the spec: the flag read accessor, a bit test on F. -/
def GetFlag (r : Registers) (flag : Nat) : Bool :=
  r.F &&& flag != 0

/-- Modelled from the spec: the pair HL, big-endian within the pair. -/
def GetHL (r : Registers) : Nat :=
  (r.H <<< 8) ||| r.L

/-- Modelled from the spec: the pair BC, big-endian within the pair. -/
def GetBC (r : Registers) : Nat :=
  (r.B <<< 8) ||| r.C

/-- Modelled from the spec: the pair DE, big-endian within the pair. -/
def GetDE (r : Registers) : Nat :=
  (r.D <<< 8) ||| r.E

/-- Modelled from the spec: write the pair BC, high byte to B and low byte to C. -/
def SetBC (r : Registers) (v : Nat) : Registers :=
  { r with B := (v >>> 8) % 256, C := v % 256 }

/-- Modelled from the spec: write the pair DE, high byte to D and low byte to E. -/
def SetDE (r : Registers) (v : Nat) : Registers :=
  { r with D := (v >>> 8) % 256, E := v % 256 }

/-- Modelled from the spec: write the pair HL, high byte to H and low byte to L. -/
def SetHL (r : Registers) (v : Nat) : Registers :=
  { r with H := (v >>> 8) % 256, L := v % 256 }

/-- Every register holds a value of its machine width. -/
def WF (r : Registers) : Prop :=
  r.A < 256 ∧ r.F < 256 ∧ r.B < 256 ∧ r.C < 256 ∧ r.D < 256 ∧ r.E < 256 ∧
  r.H < 256 ∧ r.L < 256 ∧ r.SP < 65536 ∧ r.PC < 65536

instance (r : Registers) : Decidable r.WF := by
  unfold WF; infer_instance

end Registers

/-! ## Cartridge and bus -/

/-- The cartridge image, `type Cart []byte`. -/
abbrev Cart := List Nat

/-- The source's `Cart.Read`: `(*c)[address]`; indexing past the end of the slice is a
run-time panic, modelled by `none`. -/
def Cart.Read (c : Cart) (address : Nat) : Option Nat :=
  c.get? address

/-- The source's `Cart.Write`: `(*c)[address] = value`; `none` past the end of the slice. -/
def Cart.Write (c : Cart) (address : Nat) (value : Nat) : Option Cart :=
  if address < c.length then some (c.set address value) else none

/-- Modelled from the spec: the RAM bank of the `ram` package, which is not part of the
sources at hand. WRAM is 8 KiB at 0xC000-0xDFFF and HRAM is 127 bytes at 0xFF80-0xFFFE. -/
structure RAM where
  wram : Nat → Nat
  hram : Nat → Nat

/-- Modelled from the spec: `ram.Read`, `wram[addr-0xC000]` for a WRAM address and
`hram[addr-0xFF80]` for an HRAM address; external RAM is a placeholder whose reads
yield 0. -/
def RAM.Read (r : RAM) (address : Nat) : Nat :=
  if 0xC000 ≤ address ∧ address < 0xE000 then r.wram (address - 0xC000)
  else if 0xFF80 ≤ address ∧ address < 0xFFFF then r.hram (address - 0xFF80)
  else 0

/-- Modelled from the spec: `ram.Write`, the store counterpart of `ram.Read`; a write
outside WRAM and HRAM is dropped. -/
def RAM.Write (r : RAM) (address : Nat) (value : Nat) : RAM :=
  if 0xC000 ≤ address ∧ address < 0xE000 then
    { r with wram := fun i => if i = address - 0xC000 then value else r.wram i }
  else if 0xFF80 ≤ address ∧ address < 0xFFFF then
    { r with hram := fun i => if i = address - 0xFF80 then value else r.hram i }
  else r

/-- Modelled from the spec: the I/O register file of the `io` package (not part of the
sources at hand), 128 bytes of opaque storage at 0xFF00-0xFF7F. -/
structure IORegs where
  data : Nat → Nat

/-- Modelled from the spec: `io.Read`, the stored byte of the register. -/
def IORegs.Read (r : IORegs) (address : Nat) : Nat :=
  r.data (address - 0xFF00)

/-- Modelled from the spec: `io.Write`; writes are retained. -/
def IORegs.Write (r : IORegs) (address : Nat) (value : Nat) : IORegs :=
  { data := fun i => if i = address - 0xFF00 then value else r.data i }

/-- Modelled from the spec: `util.Exit` (the `util` package is not part of the sources
at hand); an illegal read returns 0 after logging. -/
def utilExit : Nat := 0

/-- The bus of `bus/bus.go`: an optional cartridge, the RAM bank, the I/O bank and IE. -/
structure Bus where
  cart : Option Cart
  ram : RAM
  io : IORegs
  IE : Nat

/-- The source's `Bus.Read`. `none` is the run-time panic of an out-of-range cartridge
index. -/
def Bus.Read (b : Bus) (address : Nat) : Option Nat :=
  if address < 0x8000 then
    match b.cart with
    | some c => c.Read address
    | none => some utilExit
  else if address < 0xA000 then some utilExit
  else if address < 0xE000 then some (b.ram.Read address)
  else if address < 0xFE00 then some utilExit
  else if address < 0xFEA0 then some utilExit
  else if address < 0xFF00 then some utilExit
  else if address < 0xFF80 then
    if address ≥ 0xFF00 ∧ address ≤ 0xFF7F then some (b.io.Read address)
    else some utilExit
  else if address < 0xFFFF then some (b.ram.Read address)
  else if address = 0xFFFF then some b.IE
  else some utilExit

/-- The source's `Bus.Write`. `none` is the run-time panic of an out-of-range cartridge
index. -/
def Bus.Write (b : Bus) (address : Nat) (value : Nat) : Option Bus :=
  if address < 0x8000 then
    match b.cart with
    | some c => (c.Write address value).map (fun c1 => { b with cart := some c1 })
    | none => some b
  else if address < 0xA000 then some b
  else if address < 0xE000 then some { b with ram := b.ram.Write address value }
  else if address < 0xFE00 then some b
  else if address < 0xFEA0 then some b
  else if address < 0xFF00 then some b
  else if address < 0xFF80 then
    if address ≥ 0xFF00 ∧ address ≤ 0xFF7F then some { b with io := b.io.Write address value }
    else some b
  else if address < 0xFFFF then some { b with ram := b.ram.Write address value }
  else if address = 0xFFFF then some { b with IE := value }
  else some b

/-- The callee `Bus.Read` and `Bus.Write` hand an access to: the cartridge, the RAM bank, the
I/O bank, the IE byte, or the nil-register path (`util.ReadNilRegister` /
`util.WriteNilRegister`) of an illegal access. -/
inductive BusCallee where
  | cart | ram | io | ie | nilRegister
deriving DecidableEq, Repr

/-- The branch of the source's `Bus.Read` an address takes, as the callee it returns from. -/
def Bus.readCallee (b : Bus) (address : Nat) : BusCallee :=
  if address < 0x8000 then
    match b.cart with
    | some _ => .cart
    | none => .nilRegister
  else if address < 0xA000 then .nilRegister
  else if address < 0xE000 then .ram
  else if address < 0xFE00 then .nilRegister
  else if address < 0xFEA0 then .nilRegister
  else if address < 0xFF00 then .nilRegister
  else if address < 0xFF80 then
    if address ≥ 0xFF00 ∧ address ≤ 0xFF7F then .io
    else .nilRegister
  else if address < 0xFFFF then .ram
  else if address = 0xFFFF then .ie
  else .nilRegister

/-- The branch of the source's `Bus.Write` an address takes, as the callee it hands the
value to; an address above 0xFFFF matches no branch and is reported as `nilRegister`. -/
def Bus.writeCallee (b : Bus) (address : Nat) : BusCallee :=
  if address < 0x8000 then
    match b.cart with
    | some _ => .cart
    | none => .nilRegister
  else if address < 0xA000 then .nilRegister
  else if address < 0xE000 then .ram
  else if address < 0xFE00 then .nilRegister
  else if address < 0xFEA0 then .nilRegister
  else if address < 0xFF00 then .nilRegister
  else if address < 0xFF80 then
    if address ≥ 0xFF00 ∧ address ≤ 0xFF7F then .io
    else .nilRegister
  else if address < 0xFFFF then .ram
  else if address = 0xFFFF then .ie
  else .nilRegister

/-! ## The cartridge header (`cart/cart.go`) and its checks in `LoadCart` (`main.go`) -/

/-- The source's `Types`, a `[0x23]string` array literal: the keyed elements, every other
element being the empty string. -/
def Types : List String :=
  ["ROM ONLY", "MBC1", "MBC1+RAM",
   "MBC1+RAM+BATTERY", "", "MBC2",
   "MBC2+BATTERY", "", "",
   "", "", "MMM01",
   "MMM01+RAM", "MMM01+RAM+BATTERY", "",
   "MBC3+TIMER+BATTERY", "MBC3+TIMER+RAM+BATTERY 10", "MBC3",
   "MBC3+RAM 10", "MBC3+RAM+BATTERY 10", "",
   "", "", "",
   "", "MBC5", "MBC5+RAM",
   "MBC5+RAM+BATTERY", "MBC5+RUMBLE", "MBC5+RUMBLE+RAM",
   "MBC5+RUMBLE+RAM+BATTERY", "", "MBC6",
   "", "MBC7+SENSOR+RUMBLE+RAM+BATTERY"]

/-- The source's `RAMSizes`, a `[0x06]string` array literal: the keyed elements, every
other element being the empty string. -/
def RAMSizes : List String :=
  ["0", "", "8 KB", "32 KB", "128 KB", "64 KB"]

/-- The source's `DestCodes`, a `[0x02]string` array literal. -/
def DestCodes : List String :=
  ["Japan", "Not Japan"]

/-- The source's `Logo`, a `[0x30]byte` array literal. -/
def Logo : List Nat :=
  [0xCE, 0xED, 0x66, 0x66, 0xCC, 0x0D, 0x00, 0x0B, 0x03, 0x73, 0x00, 0x83, 0x00, 0x0C, 0x00, 0x0D,
   0x00, 0x08, 0x11, 0x1F, 0x88, 0x89, 0x00, 0x0E, 0xDC, 0xCC, 0x6E, 0xE6, 0xDD, 0xDD, 0xD9, 0x99,
   0xBB, 0xBB, 0x67, 0x63, 0x6E, 0x0E, 0xEC, 0xCC, 0xDD, 0xDC, 0x99, 0x9F, 0xBB, 0xB9, 0x33, 0x3E]

/-- The source's `CartHeader`; the byte arrays are lists and the field `Type` is named
`CartType` here. -/
structure CartHeader where
  Entry : List Nat
  Logo : List Nat
  Title : List Nat
  NewLicCode : List Nat
  SGBFlag : Nat
  CartType : Nat
  ROMSize : Nat
  RAMSize : Nat
  DestCode : Nat
  OldLicCode : Nat
  Version : Nat
  HeaderChecksum : Nat
  GlobalChecksum : Nat
deriving DecidableEq, Repr

/-- The source's `GetCartTypeName`: `c.Type < uint8(len(Types)) && Types[c.Type] != ""`
guards `return Types[c.Type]`; `none` is the run-time panic of an index out of range. -/
def CartHeader.GetCartTypeName (c : CartHeader) : Option String :=
  if c.CartType < u8 Types.length then
    (Types.get? c.CartType).bind fun s =>
      if s != "" then Types.get? c.CartType else some "UNKNOWN TYPE"
  else some "UNKNOWN TYPE"

/-- The source's `GetRAMSize`; `none` is the run-time panic of an index out of range. -/
def CartHeader.GetRAMSize (c : CartHeader) : Option String :=
  if c.RAMSize < u8 RAMSizes.length then
    (RAMSizes.get? c.RAMSize).bind fun s =>
      if s != "" then RAMSizes.get? c.RAMSize else some "UNKNOWN RAM SIZE"
  else some "UNKNOWN RAM SIZE"

/-- The source's `GetDestCode`; `none` is the run-time panic of an index out of range. -/
def CartHeader.GetDestCode (c : CartHeader) : Option String :=
  if c.DestCode < u8 DestCodes.length then
    (DestCodes.get? c.DestCode).bind fun s =>
      if s != "" then DestCodes.get? c.DestCode else some "UNKNOWN DEST CODE"
  else some "UNKNOWN DEST CODE"

/-- The loop of `VerifyLogoDump`, `for i := range 0x30`, with `n` iterations left at
index `i`: a byte of the image that differs from `Logo[i]` returns false at once. -/
def Cart.verifyLogoLoop (c : Cart) : Nat → Nat → Option Bool
  | 0, _ => some true
  | n + 1, i =>
    (c.Read (i + 0x0104)).bind fun b =>
      (Logo.get? i).bind fun l =>
        if b != l then some false else Cart.verifyLogoLoop c n (i + 1)

/-- The source's `VerifyLogoDump`; `none` is the run-time panic of an index out of
range. -/
def Cart.VerifyLogoDump (c : Cart) : Option Bool :=
  c.verifyLogoLoop 0x30 0

/-- Go's `binary.Read(reader, binary.LittleEndian, &cartHeader)` for the struct
`CartHeader`: the struct occupies 4 + 48 + 16 + 2 + 9 = 79 bytes, all of its fields being
bytes or byte arrays, and they are filled in declaration order from the first 79 bytes of
the reader; fewer than 79 bytes is an error (`none`) and later bytes are not consumed. -/
def binaryReadCartHeader (data : List Nat) : Option CartHeader :=
  if data.length < 79 then none
  else some {
    Entry := data.take 0x04
    Logo := (data.drop 0x04).take 0x30
    Title := (data.drop 0x34).take 0x10
    NewLicCode := (data.drop 0x44).take 0x02
    SGBFlag := data.getD 0x46 0
    CartType := data.getD 0x47 0
    ROMSize := data.getD 0x48 0
    RAMSize := data.getD 0x49 0
    DestCode := data.getD 0x4A 0
    OldLicCode := data.getD 0x4B 0
    Version := data.getD 0x4C 0
    HeaderChecksum := data.getD 0x4D 0
    GlobalChecksum := data.getD 0x4E 0 }

/-- The header parse of `LoadCart`: `binary.Read` on the slice `(*g.cart)[0x0100:0x0150]`;
`none` is the run-time panic of the slice expression on an image shorter than 0x0150
bytes, or the exit on a read error. -/
def LoadCart_cartHeader (cart : Cart) : Option CartHeader :=
  if 0x0150 ≤ cart.length then binaryReadCartHeader ((cart.drop 0x0100).take 0x50)
  else none

/-- The checksum loop of `LoadCart`, `for address := 0x0134; address <= 0x014C; address++`,
with `n` iterations left: `checksum = checksum - (*g.cart)[address] - 1` on `uint8`. -/
def LoadCart_checksumLoop (cart : Cart) : Nat → Nat → Nat → Option Nat
  | 0, _, checksum => some checksum
  | n + 1, address, checksum =>
    (cart.Read address).bind fun b =>
      LoadCart_checksumLoop cart n (address + 1) (sub8 (sub8 checksum b) 1)

/-- The header checksum `LoadCart` recomputes, starting from `checksum = 0`. -/
def LoadCart_checksum (cart : Cart) : Option Nat :=
  LoadCart_checksumLoop cart (0x014C + 1 - 0x0134) 0x0134 0

/-- Modelled from the spec: `util.If` (the `util` package is not part of the sources at
hand), the selection of one of two values by a condition. -/
def utilIf {α : Type} (cond : Bool) (a b : α) : α :=
  if cond then a else b

/-- The checksum report of `LoadCart`:
`util.If(cartHeader.HeaderChecksum == (checksum&0x00FF), "PASSED", "FAILED")`. -/
def LoadCart_checksumPassed (cart : Cart) : Option String :=
  (LoadCart_cartHeader cart).bind fun cartHeader =>
    (LoadCart_checksum cart).bind fun checksum =>
      some (utilIf (cartHeader.HeaderChecksum == (checksum &&& 0x00FF)) "PASSED" "FAILED")

/-- Refinement target, from the spec's words "parsing then re-serializing the header": the
fields of a parsed header written out in declaration order, one byte per `uint8`. -/
def CartHeader.serialize (h : CartHeader) : List Nat :=
  h.Entry ++ h.Logo ++ h.Title ++ h.NewLicCode ++
    [h.SGBFlag, h.CartType, h.ROMSize, h.RAMSize, h.DestCode, h.OldLicCode, h.Version,
      h.HeaderChecksum, h.GlobalChecksum]

/-! ## CPU state -/

/-- Modelled from the spec: the CPU record (its declaration is not part of the sources
at hand; the fields are the ones `instructions.go` accesses). -/
structure CPU where
  registers : Registers
  bus : Bus
  fetched : Nat
  relAddr : Int
  ticks : Nat
  halted : Bool

/-- The loop of `cpuCycles`: `n` increments of the tick counter. -/
def tickLoop : Nat → Nat → Nat
  | 0, t => t
  | n + 1, t => tickLoop n (t + 1)

/-- The source's `cpuCycles`: `cycles * 4` single increments of `ticks`. -/
def CPU.cpuCycles (c : CPU) (cycles : Nat) : CPU :=
  { c with ticks := tickLoop (cycles * 4) c.ticks }

/-! ## Carry helpers (`instructions.go`, lines 83-137) -/

/-- The source's `HalfCarrySub`: `((a&0x0f)-(b&0x0f))&0x10 == 0x10` on `uint8`. -/
def HalfCarrySub (a b : Nat) : Bool :=
  sub8 (a &&& 0x0f) (b &&& 0x0f) &&& 0x10 == 0x10

/-- The source's `FullCarrySub`: `a-b > a || a-b > b` on `uint8`. -/
def FullCarrySub (a b : Nat) : Bool :=
  decide (sub8 a b > a) || decide (sub8 a b > b)

/-- The source's `HalfCarrySbc`: `((a&0x0f)-(b&0x0f)-(c&0x0f))&0x10 == 0x10` on `uint8`. -/
def HalfCarrySbc (a b c : Nat) : Bool :=
  sub8 (sub8 (a &&& 0x0f) (b &&& 0x0f)) (c &&& 0x0f) &&& 0x10 == 0x10

/-- The source's `FullCarrySbc`: `b+c > a` on `uint8`. -/
def FullCarrySbc (a b c : Nat) : Bool :=
  decide (add8 b c > a)

/-- The source's `HalfCarryAdd`: `((a&0x0f)+(b&0x0f))&0x10 == 0x10` on `uint8`. -/
def HalfCarryAdd (a b : Nat) : Bool :=
  add8 (a &&& 0x0f) (b &&& 0x0f) &&& 0x10 == 0x10

/-- The source's `FullCarryAdd`: `a+b < a || a+b < b` on `uint8`. -/
def FullCarryAdd (a b : Nat) : Bool :=
  decide (add8 a b < a) || decide (add8 a b < b)

/-- The source's `HalfCarryAdc`: `((a&0x0f)+(b&0x0f)+(c&0x0f))&0x10 == 0x10` on `uint8`. -/
def HalfCarryAdc (a b c : Nat) : Bool :=
  add8 (add8 (a &&& 0x0f) (b &&& 0x0f)) (c &&& 0x0f) &&& 0x10 == 0x10

/-- The source's `FullCarryAdc`: `a+b+c < a || a+b+c < b || a+b+c < c` on `uint8`. -/
def FullCarryAdc (a b c : Nat) : Bool :=
  decide (add8 (add8 a b) c < a) || decide (add8 (add8 a b) c < b) ||
    decide (add8 (add8 a b) c < c)

/-- The source's `HalfCarryAdd16`: `((a&0x0FFF)+(b&0x0FFF))&0x1000 == 0x1000` on `uint16`. -/
def HalfCarryAdd16 (a b : Nat) : Bool :=
  add16 (a &&& 0x0FFF) (b &&& 0x0FFF) &&& 0x1000 == 0x1000

/-- The source's `FullCarryAdd16`: `a+b < a || a+b < b` on `uint16`. -/
def FullCarryAdd16 (a b : Nat) : Bool :=
  decide (add16 a b < a) || decide (add16 a b < b)

/-- The loop of `SetBitFlags` and `SetBit`: `bitValue *= 2` on `uint8`, `n` times. -/
def bitValueLoop : Nat → Nat → Nat
  | 0, bitValue => bitValue
  | n + 1, bitValue => bitValueLoop n ((bitValue * 2) % 256)

/-! ## Flag setters (`instructions.go`, lines 139-380) -/

namespace CPU

/-- Apply a change to the register file of a CPU. -/
def withRegs (c : CPU) (f : Registers → Registers) : CPU :=
  { c with registers := f c.registers }

/-- The source's `SetDecRegFlags`. -/
def SetDecRegFlags (c : CPU) (register : Nat) : CPU :=
  let c := c.withRegs (·.SetFlag SUBTRACTION_FLAG true)
  let c := c.withRegs (·.SetFlag ZERO_FLAG (sub8 register 1 == 0))
  c.withRegs (·.SetFlag HALF_CARRY_FLAG (register &&& 0x000F == 0x0000))

/-- The source's `SetIncRegFlags`. -/
def SetIncRegFlags (c : CPU) (register : Nat) : CPU :=
  let c := c.withRegs (·.SetFlag SUBTRACTION_FLAG false)
  let c := c.withRegs (·.SetFlag ZERO_FLAG (add8 register 1 == 0))
  c.withRegs (·.SetFlag HALF_CARRY_FLAG (register &&& 0x000F == 0x000F))

/-- The source's `SetAddFlags`. -/
def SetAddFlags (c : CPU) (a b : Nat) : CPU :=
  let c := c.withRegs (·.SetFlag ZERO_FLAG (add8 a b == 0))
  let c := c.withRegs (·.SetFlag SUBTRACTION_FLAG false)
  let c := c.withRegs (·.SetFlag HALF_CARRY_FLAG (HalfCarryAdd a b))
  c.withRegs (·.SetFlag CARRY_FLAG (FullCarryAdd a b))

/-- The source's `SetSubFlags`. -/
def SetSubFlags (c : CPU) (a b : Nat) : CPU :=
  let c := c.withRegs (·.SetFlag ZERO_FLAG (sub8 a b == 0))
  let c := c.withRegs (·.SetFlag SUBTRACTION_FLAG true)
  let c := c.withRegs (·.SetFlag HALF_CARRY_FLAG (HalfCarrySub a b))
  c.withRegs (·.SetFlag CARRY_FLAG (FullCarrySub a b))

/-- The source's `SetCpFlags`. -/
def SetCpFlags (c : CPU) (a b : Nat) : CPU :=
  let c := c.withRegs (·.SetFlag ZERO_FLAG (sub8 a b == 0))
  let c := c.withRegs (·.SetFlag SUBTRACTION_FLAG true)
  let c := c.withRegs (·.SetFlag HALF_CARRY_FLAG (HalfCarrySub a b))
  c.withRegs (·.SetFlag CARRY_FLAG (decide (b > a)))

/-- The source's `SetAdcFlags`: returns the updated CPU and the carry-in it read. -/
def SetAdcFlags (c : CPU) (a b : Nat) : CPU × Nat :=
  let carryFlag : Nat := if c.registers.GetFlag CARRY_FLAG then 1 else 0
  let c := c.withRegs (·.SetFlag ZERO_FLAG (add8 (add8 a b) carryFlag == 0))
  let c := c.withRegs (·.SetFlag SUBTRACTION_FLAG false)
  let c := c.withRegs (·.SetFlag HALF_CARRY_FLAG (HalfCarryAdc a b carryFlag))
  let c := c.withRegs (·.SetFlag CARRY_FLAG (FullCarryAdc a b carryFlag))
  (c, carryFlag)

/-- The source's `SetSbcFlags`: returns the updated CPU and the carry-in it read. -/
def SetSbcFlags (c : CPU) (a b : Nat) : CPU × Nat :=
  let carryFlag : Nat := if c.registers.GetFlag CARRY_FLAG then 1 else 0
  let c := c.withRegs (·.SetFlag ZERO_FLAG (sub8 (sub8 a b) carryFlag == 0))
  let c := c.withRegs (·.SetFlag SUBTRACTION_FLAG true)
  let c := c.withRegs (·.SetFlag HALF_CARRY_FLAG (HalfCarrySbc a b carryFlag))
  let c := c.withRegs (·.SetFlag CARRY_FLAG (FullCarrySbc a b carryFlag))
  (c, carryFlag)

/-- The source's `SetDecFlags`. -/
def SetDecFlags (c : CPU) (value : Nat) : CPU :=
  let c := c.withRegs (·.SetFlag SUBTRACTION_FLAG true)
  let c := c.withRegs (·.SetFlag ZERO_FLAG (sub8 value 1 == 0))
  c.withRegs (·.SetFlag HALF_CARRY_FLAG (value &&& 0x000F == 0x0000))

/-- The source's `SetIncFlags`. -/
def SetIncFlags (c : CPU) (value : Nat) : CPU :=
  let c := c.withRegs (·.SetFlag SUBTRACTION_FLAG false)
  let c := c.withRegs (·.SetFlag ZERO_FLAG (add8 value 1 == 0))
  c.withRegs (·.SetFlag HALF_CARRY_FLAG (value &&& 0x000F == 0x000F))

/-- The carry update shared by the rotate and shift helpers:
`if carryBit == 0 { SetFlag(CARRY_FLAG, false) } else if carryBit == 1 { SetFlag(CARRY_FLAG, true) }`. -/
def setCarryFromBit (c : CPU) (carryBit : Nat) : CPU :=
  if carryBit = 0 then c.withRegs (·.SetFlag CARRY_FLAG false)
  else if carryBit = 1 then c.withRegs (·.SetFlag CARRY_FLAG true)
  else c

/-- The source's `SetRotateFlags`: Z, N and H are cleared, and the carry is bit 7 of the
value for "L" and bit 0 for "R". -/
def SetRotateFlags (c : CPU) (registerVal : Nat) (leftOrRight : String) : CPU :=
  let c := c.withRegs (·.SetFlag ZERO_FLAG false)
  let c := c.withRegs (·.SetFlag SUBTRACTION_FLAG false)
  let c := c.withRegs (·.SetFlag HALF_CARRY_FLAG false)
  match leftOrRight with
  | "L" => c.setCarryFromBit (registerVal >>> 7)
  | "R" => c.setCarryFromBit (registerVal &&& 0x0001)
  | _ => c

/-- The source's `SetCBRotateFlags`: returns the updated CPU and the rotated value. -/
def SetCBRotateFlags (c : CPU) (registerVal : Nat) (leftOrRight : String)
    (throughCarry : Bool) : CPU × Nat :=
  let c := c.withRegs (·.SetFlag SUBTRACTION_FLAG false)
  let c := c.withRegs (·.SetFlag HALF_CARRY_FLAG false)
  let oldCarry : Nat := if c.registers.GetFlag CARRY_FLAG then 1 else 0
  let (c, registerVal) :=
    match leftOrRight with
    | "L" =>
      let c := c.setCarryFromBit (registerVal >>> 7)
      if throughCarry then (c, ((registerVal <<< 1) % 256) ||| oldCarry)
      else (c, ((registerVal <<< 1) % 256) ||| (registerVal >>> 7))
    | "R" =>
      let c := c.setCarryFromBit (registerVal &&& 0x0001)
      if throughCarry then (c, (registerVal >>> 1) ||| ((oldCarry <<< 7) % 256))
      else (c, (registerVal >>> 1) ||| ((registerVal <<< 7) % 256))
    | _ => (c, registerVal)
  let c := c.withRegs (·.SetFlag ZERO_FLAG (registerVal == 0))
  (c, registerVal)

/-- The source's `SetShiftFlags`: returns the updated CPU and the shifted value. -/
def SetShiftFlags (c : CPU) (registerVal : Nat) (leftOrRight : String)
    (logically : Bool) : CPU × Nat :=
  let c := c.withRegs (·.SetFlag SUBTRACTION_FLAG false)
  let c := c.withRegs (·.SetFlag HALF_CARRY_FLAG false)
  let (c, registerVal) :=
    match leftOrRight with
    | "L" =>
      let c := c.setCarryFromBit (registerVal >>> 7)
      (c, (registerVal <<< 1) % 256)
    | "R" =>
      let c := c.setCarryFromBit (registerVal &&& 0x0001)
      if logically then (c, registerVal >>> 1)
      else (c, (registerVal >>> 1) ||| (registerVal &&& 0x80))
    | _ => (c, registerVal)
  let c := c.withRegs (·.SetFlag ZERO_FLAG (registerVal == 0))
  (c, registerVal)

/-- The source's `SetSwapFlags`: N, H and C are cleared and the value with its nibbles
exchanged is returned; the zero flag is not written. -/
def SetSwapFlags (c : CPU) (registerVal : Nat) : CPU × Nat :=
  let c := c.withRegs (·.SetFlag SUBTRACTION_FLAG false)
  let c := c.withRegs (·.SetFlag HALF_CARRY_FLAG false)
  let c := c.withRegs (·.SetFlag CARRY_FLAG false)
  let highNibble := (registerVal >>> 4) &&& 0x000F
  let lowNibble := registerVal &&& 0x000F
  (c, ((lowNibble <<< 4) % 256) ||| highNibble)

/-- The source's `SetBitFlags`: N cleared, H set, Z set iff `registerVal & bitValue == 0`
with `bitValue` doubled `bit` times from 1. -/
def SetBitFlags (c : CPU) (registerVal : Nat) (bit : Nat) : CPU :=
  let c := c.withRegs (·.SetFlag SUBTRACTION_FLAG false)
  let c := c.withRegs (·.SetFlag HALF_CARRY_FLAG true)
  let bitValue := bitValueLoop bit 1
  c.withRegs (·.SetFlag ZERO_FLAG (registerVal &&& bitValue == 0))

/-- The source's `SetBit`: for `set`, `registerVal &= bitValue` when the bit is clear; for
reset, `registerVal ^= bitValue` when the bit is set. The CPU is not changed. -/
def SetBit (_c : CPU) (registerVal : Nat) (bit : Nat) (set : Bool) : Nat :=
  let bitValue := bitValueLoop bit 1
  if set then
    if registerVal &&& bitValue == 0 then registerVal &&& bitValue else registerVal
  else
    if registerVal &&& bitValue != 0 then registerVal ^^^ bitValue else registerVal

/-- The source's `SetAddFlags16`: N cleared, H and C from the 16-bit helpers; Z is not
written. -/
def SetAddFlags16 (c : CPU) (a b : Nat) : CPU :=
  let c := c.withRegs (·.SetFlag SUBTRACTION_FLAG false)
  let c := c.withRegs (·.SetFlag HALF_CARRY_FLAG (HalfCarryAdd16 a b))
  c.withRegs (·.SetFlag CARRY_FLAG (FullCarryAdd16 a b))

/-- The source's `SetAndFlags`. -/
def SetAndFlags (c : CPU) (a : Nat) : CPU :=
  let c := c.withRegs (·.SetFlag ZERO_FLAG (a == 0))
  let c := c.withRegs (·.SetFlag SUBTRACTION_FLAG false)
  let c := c.withRegs (·.SetFlag HALF_CARRY_FLAG true)
  c.withRegs (·.SetFlag CARRY_FLAG false)

/-- The source's `SetXorFlags`. -/
def SetXorFlags (c : CPU) (a : Nat) : CPU :=
  let c := c.withRegs (·.SetFlag ZERO_FLAG (a == 0))
  let c := c.withRegs (·.SetFlag SUBTRACTION_FLAG false)
  let c := c.withRegs (·.SetFlag HALF_CARRY_FLAG false)
  c.withRegs (·.SetFlag CARRY_FLAG false)

/-- Modelled from the spec: `StackPush16` (the stack helpers are not part of the sources at
hand). Push16: SP -= 1; mem[SP] = hi; SP -= 1; mem[SP] = lo; each memory access is charged
one machine cycle. -/
def StackPush16 (c : CPU) (value : Nat) : Option CPU :=
  let c := c.withRegs (fun r => { r with SP := sub16 r.SP 1 })
  (c.bus.Write c.registers.SP ((value >>> 8) % 256)).bind fun b =>
    let c := { c with bus := b }
    let c := c.cpuCycles 1
    let c := c.withRegs (fun r => { r with SP := sub16 r.SP 1 })
    (c.bus.Write c.registers.SP (value % 256)).bind fun b =>
      let c := { c with bus := b }
      some (c.cpuCycles 1)

/-- Modelled from the spec: `StackPop16` (the stack helpers are not part of the sources at
hand). Pop16: lo = mem[SP]; SP += 1; hi = mem[SP]; SP += 1; the result is `(hi << 8) | lo`
and each memory access is charged one machine cycle. -/
def StackPop16 (c : CPU) : Option (CPU × Nat) :=
  (c.bus.Read c.registers.SP).bind fun lo =>
    let c := c.cpuCycles 1
    let c := c.withRegs (fun r => { r with SP := add16 r.SP 1 })
    (c.bus.Read c.registers.SP).bind fun hi =>
      let c := c.cpuCycles 1
      let c := c.withRegs (fun r => { r with SP := add16 r.SP 1 })
      some (c, ((hi <<< 8) % 65536) ||| lo)

end CPU

/-! ## Instruction descriptors and the opcode entries -/

/-- The source's `Operation`, `func(c *CPU) uint8`: the new state and the returned
discriminant; `none` is a run-time panic of a bus access. -/
abbrev Operation := CPU → Option (CPU × Nat)

/-- The source's `AddrMode`, `func(c *CPU)`; `none` is a run-time panic of a bus access. -/
abbrev AddrMode := CPU → Option CPU

/-- The source's `Instruction` descriptor. -/
structure Instruction where
  Mnemonic : String
  Size : Nat
  Ticks : List Nat
  AddrMode : Goboy.AddrMode
  Operation : Goboy.Operation

/-- The source's address mode `NONE`: no fetch. -/
def NONE : AddrMode := fun c => some c

/-- The source's address mode `R_A16`: the low byte is read at PC and the high byte at
PC+1, each read followed by one machine cycle; PC advances by 2 and `fetched` is
`(hi << 8) | lo`. -/
def R_A16 : AddrMode := fun c =>
  (c.bus.Read c.registers.PC).bind fun lo =>
    let c := c.cpuCycles 1
    (c.bus.Read (add16 c.registers.PC 1)).bind fun hi =>
      let c := c.cpuCycles 1
      let c := c.withRegs (fun r => { r with PC := add16 r.PC 2 })
      some { c with fetched := ((hi <<< 8) % 65536) ||| lo }

/-- The source's `R_N16`, declared as `R_A16`. -/
def R_N16 : AddrMode := R_A16

/-- The source's `A16_R`, declared as `R_A16`. -/
def A16_R : AddrMode := R_A16

/-- The source's address mode `E8`: `relAddr = int8(read(PC) & 0x00FF)`, PC advances by 1,
one machine cycle. -/
def E8 : AddrMode := fun c =>
  (c.bus.Read c.registers.PC).bind fun b =>
    let c := { c with relAddr := toInt8 (b &&& 0x00FF) }
    let c := c.withRegs (fun r => { r with PC := add16 r.PC 1 })
    some (c.cpuCycles 1)

/-- The source's address mode `R_N8`: one byte is read at PC, one machine cycle, PC
advances by 1 and `fetched` is the byte. -/
def R_N8 : AddrMode := fun c =>
  (c.bus.Read c.registers.PC).bind fun lo =>
    let c := c.cpuCycles 1
    let c := c.withRegs (fun r => { r with PC := add16 r.PC 1 })
    some { c with fetched := lo }

/-- The source's address mode `A8_A`: `fetched = uint16(read(PC)) + 0xFF00`, one machine
cycle, PC advances by 1. -/
def A8_A : AddrMode := fun c =>
  (c.bus.Read c.registers.PC).bind fun b =>
    let lo := add16 b 0xFF00
    let c := c.cpuCycles 1
    let c := c.withRegs (fun r => { r with PC := add16 r.PC 1 })
    some { c with fetched := lo }

/-- The source's `A_A8`, declared as `A8_A`. -/
def A_A8 : AddrMode := A8_A

/-! ## The 8-bit INC/DEC group and the ADD, ADC, SUB, SBC rows -/

/-- Opcode 0x04, `INC_B`: `c.SetIncRegFlags(c.registers.A); c.registers.A++`. -/
def INC_B : Operation := fun c =>
  let c := c.SetIncRegFlags c.registers.A
  let c := c.withRegs (fun r => { r with A := add8 r.A 1 })
  some (c, 0)

/-- Opcode 0x05, `DEC_B`: `c.SetDecRegFlags(c.registers.B); c.registers.B--`. -/
def DEC_B : Operation := fun c =>
  let c := c.SetDecRegFlags c.registers.B
  let c := c.withRegs (fun r => { r with B := sub8 r.B 1 })
  some (c, 0)

/-- Opcode 0x0C, `INC_C`: `c.SetIncRegFlags(c.registers.C); c.registers.C++`. -/
def INC_C : Operation := fun c =>
  let c := c.SetIncRegFlags c.registers.C
  let c := c.withRegs (fun r => { r with C := add8 r.C 1 })
  some (c, 0)

/-- Opcode 0x0D, `DEC_C`: `c.SetDecRegFlags(c.registers.C); c.registers.C--`. -/
def DEC_C : Operation := fun c =>
  let c := c.SetDecRegFlags c.registers.C
  let c := c.withRegs (fun r => { r with C := sub8 r.C 1 })
  some (c, 0)

/-- Opcode 0x14, `INC_D`: `c.SetIncRegFlags(c.registers.D); c.registers.D++`. -/
def INC_D : Operation := fun c =>
  let c := c.SetIncRegFlags c.registers.D
  let c := c.withRegs (fun r => { r with D := add8 r.D 1 })
  some (c, 0)

/-- Opcode 0x15, `DEC_D`: `c.SetDecRegFlags(c.registers.D); c.registers.D--`. -/
def DEC_D : Operation := fun c =>
  let c := c.SetDecRegFlags c.registers.D
  let c := c.withRegs (fun r => { r with D := sub8 r.D 1 })
  some (c, 0)

/-- Opcode 0x1C, `INC_E`: `c.SetIncRegFlags(c.registers.E); c.registers.E++`. -/
def INC_E : Operation := fun c =>
  let c := c.SetIncRegFlags c.registers.E
  let c := c.withRegs (fun r => { r with E := add8 r.E 1 })
  some (c, 0)

/-- Opcode 0x1D, `DEC_E`: `c.SetDecRegFlags(c.registers.E); c.registers.E--`. -/
def DEC_E : Operation := fun c =>
  let c := c.SetDecRegFlags c.registers.E
  let c := c.withRegs (fun r => { r with E := sub8 r.E 1 })
  some (c, 0)

/-- Opcode 0x24, `INC_H`: `c.SetIncRegFlags(c.registers.H); c.registers.H++`. -/
def INC_H : Operation := fun c =>
  let c := c.SetIncRegFlags c.registers.H
  let c := c.withRegs (fun r => { r with H := add8 r.H 1 })
  some (c, 0)

/-- Opcode 0x25, `DEC_H`: `c.SetDecRegFlags(c.registers.H); c.registers.H--`. -/
def DEC_H : Operation := fun c =>
  let c := c.SetDecRegFlags c.registers.H
  let c := c.withRegs (fun r => { r with H := sub8 r.H 1 })
  some (c, 0)

/-- Opcode 0x2C, `INC_L`: `c.SetIncRegFlags(c.registers.L); c.registers.L++`. -/
def INC_L : Operation := fun c =>
  let c := c.SetIncRegFlags c.registers.L
  let c := c.withRegs (fun r => { r with L := add8 r.L 1 })
  some (c, 0)

/-- Opcode 0x2D, `DEC_L`: `c.SetDecRegFlags(c.registers.L); c.registers.L--`. -/
def DEC_L : Operation := fun c =>
  let c := c.SetDecRegFlags c.registers.L
  let c := c.withRegs (fun r => { r with L := sub8 r.L 1 })
  some (c, 0)

/-- Opcode 0x3C, `INC_A`: `c.SetIncRegFlags(c.registers.A); c.registers.A++`. -/
def INC_A : Operation := fun c =>
  let c := c.SetIncRegFlags c.registers.A
  let c := c.withRegs (fun r => { r with A := add8 r.A 1 })
  some (c, 0)

/-- Opcode 0x3D, `DEC_A`: `c.SetDecRegFlags(c.registers.A); c.registers.A--`. -/
def DEC_A : Operation := fun c =>
  let c := c.SetDecRegFlags c.registers.A
  let c := c.withRegs (fun r => { r with A := sub8 r.A 1 })
  some (c, 0)

/-- Opcode 0x80, `ADD_A_B`. -/
def ADD_A_B : Operation := fun c =>
  let a := c.registers.A
  let c := c.SetAddFlags a c.registers.B
  let c := c.withRegs (fun r => { r with A := add8 r.A r.B })
  some (c, 0)

/-- Opcode 0x81, `ADD_A_C`. -/
def ADD_A_C : Operation := fun c =>
  let a := c.registers.A
  let c := c.SetAddFlags a c.registers.C
  let c := c.withRegs (fun r => { r with A := add8 r.A r.C })
  some (c, 0)

/-- Opcode 0x82, `ADD_A_D`. -/
def ADD_A_D : Operation := fun c =>
  let a := c.registers.A
  let c := c.SetAddFlags a c.registers.D
  let c := c.withRegs (fun r => { r with A := add8 r.A r.D })
  some (c, 0)

/-- Opcode 0x83, `ADD_A_E`. -/
def ADD_A_E : Operation := fun c =>
  let a := c.registers.A
  let c := c.SetAddFlags a c.registers.E
  let c := c.withRegs (fun r => { r with A := add8 r.A r.E })
  some (c, 0)

/-- Opcode 0x84, `ADD_A_H`. -/
def ADD_A_H : Operation := fun c =>
  let a := c.registers.A
  let c := c.SetAddFlags a c.registers.H
  let c := c.withRegs (fun r => { r with A := add8 r.A r.H })
  some (c, 0)

/-- Opcode 0x85, `ADD_A_L`. -/
def ADD_A_L : Operation := fun c =>
  let a := c.registers.A
  let c := c.SetAddFlags a c.registers.L
  let c := c.withRegs (fun r => { r with A := add8 r.A r.L })
  some (c, 0)

/-- Opcode 0x88, `ADC_A_B`: `c.registers.A += (c.registers.B) + carryFlag`. -/
def ADC_A_B : Operation := fun c =>
  let a := c.registers.A
  let (c, carryFlag) := c.SetAdcFlags a c.registers.B
  let c := c.withRegs (fun r => { r with A := add8 r.A (add8 r.B carryFlag) })
  some (c, 0)

/-- Opcode 0x89, `ADC_A_C`: `c.registers.A += (c.registers.C) + carryFlag`. -/
def ADC_A_C : Operation := fun c =>
  let a := c.registers.A
  let (c, carryFlag) := c.SetAdcFlags a c.registers.C
  let c := c.withRegs (fun r => { r with A := add8 r.A (add8 r.C carryFlag) })
  some (c, 0)

/-- Opcode 0x8A, `ADC_A_D`: `c.registers.A += (c.registers.D) + carryFlag`. -/
def ADC_A_D : Operation := fun c =>
  let a := c.registers.A
  let (c, carryFlag) := c.SetAdcFlags a c.registers.D
  let c := c.withRegs (fun r => { r with A := add8 r.A (add8 r.D carryFlag) })
  some (c, 0)

/-- Opcode 0x8B, `ADC_A_E`: `c.registers.A += (c.registers.E) + carryFlag`. -/
def ADC_A_E : Operation := fun c =>
  let a := c.registers.A
  let (c, carryFlag) := c.SetAdcFlags a c.registers.E
  let c := c.withRegs (fun r => { r with A := add8 r.A (add8 r.E carryFlag) })
  some (c, 0)

/-- Opcode 0x8C, `ADC_A_H`: `c.registers.A += (c.registers.H) + carryFlag`. -/
def ADC_A_H : Operation := fun c =>
  let a := c.registers.A
  let (c, carryFlag) := c.SetAdcFlags a c.registers.H
  let c := c.withRegs (fun r => { r with A := add8 r.A (add8 r.H carryFlag) })
  some (c, 0)

/-- Opcode 0x8D, `ADC_A_L`: `c.registers.A += (c.registers.L) + carryFlag`. -/
def ADC_A_L : Operation := fun c =>
  let a := c.registers.A
  let (c, carryFlag) := c.SetAdcFlags a c.registers.L
  let c := c.withRegs (fun r => { r with A := add8 r.A (add8 r.L carryFlag) })
  some (c, 0)

/-- Opcode 0x90, `SUB_A_B`. -/
def SUB_A_B : Operation := fun c =>
  let a := c.registers.A
  let c := c.SetSubFlags a c.registers.B
  let c := c.withRegs (fun r => { r with A := sub8 r.A r.B })
  some (c, 0)

/-- Opcode 0x91, `SUB_A_C`. -/
def SUB_A_C : Operation := fun c =>
  let a := c.registers.A
  let c := c.SetSubFlags a c.registers.C
  let c := c.withRegs (fun r => { r with A := sub8 r.A r.C })
  some (c, 0)

/-- Opcode 0x92, `SUB_A_D`. -/
def SUB_A_D : Operation := fun c =>
  let a := c.registers.A
  let c := c.SetSubFlags a c.registers.D
  let c := c.withRegs (fun r => { r with A := sub8 r.A r.D })
  some (c, 0)

/-- Opcode 0x93, `SUB_A_E`. -/
def SUB_A_E : Operation := fun c =>
  let a := c.registers.A
  let c := c.SetSubFlags a c.registers.E
  let c := c.withRegs (fun r => { r with A := sub8 r.A r.E })
  some (c, 0)

/-- Opcode 0x94, `SUB_A_H`. -/
def SUB_A_H : Operation := fun c =>
  let a := c.registers.A
  let c := c.SetSubFlags a c.registers.H
  let c := c.withRegs (fun r => { r with A := sub8 r.A r.H })
  some (c, 0)

/-- Opcode 0x95, `SUB_A_L`. -/
def SUB_A_L : Operation := fun c =>
  let a := c.registers.A
  let c := c.SetSubFlags a c.registers.L
  let c := c.withRegs (fun r => { r with A := sub8 r.A r.L })
  some (c, 0)

/-- Opcode 0x96, `SUB_A_[HL]`: the value is read from the bus at HL, one machine cycle
is charged, and the entry ends with `c.registers.A -= a - val`. -/
def SUB_A_atHL : Operation := fun c =>
  (c.bus.Read c.registers.GetHL).bind fun val =>
    let c := c.cpuCycles 1
    let a := c.registers.A
    let c := c.SetSubFlags a val
    let c := c.withRegs (fun r => { r with A := sub8 r.A (sub8 a val) })
    some (c, 0)

/-- Opcode 0x98, `SBC_A_B`: `c.registers.A -= c.registers.B - carryFlag`. -/
def SBC_A_B : Operation := fun c =>
  let a := c.registers.A
  let (c, carryFlag) := c.SetSbcFlags a c.registers.B
  let c := c.withRegs (fun r => { r with A := sub8 r.A (sub8 r.B carryFlag) })
  some (c, 0)

/-- Opcode 0x99, `SBC_A_C`: `c.registers.A -= c.registers.C - carryFlag`. -/
def SBC_A_C : Operation := fun c =>
  let a := c.registers.A
  let (c, carryFlag) := c.SetSbcFlags a c.registers.C
  let c := c.withRegs (fun r => { r with A := sub8 r.A (sub8 r.C carryFlag) })
  some (c, 0)

/-- Opcode 0x9A, `SBC_A_D`: `c.registers.A -= c.registers.D - carryFlag`. -/
def SBC_A_D : Operation := fun c =>
  let a := c.registers.A
  let (c, carryFlag) := c.SetSbcFlags a c.registers.D
  let c := c.withRegs (fun r => { r with A := sub8 r.A (sub8 r.D carryFlag) })
  some (c, 0)

/-- Opcode 0x9B, `SBC_A_E`: `c.registers.A -= c.registers.E - carryFlag`. -/
def SBC_A_E : Operation := fun c =>
  let a := c.registers.A
  let (c, carryFlag) := c.SetSbcFlags a c.registers.E
  let c := c.withRegs (fun r => { r with A := sub8 r.A (sub8 r.E carryFlag) })
  some (c, 0)

/-- Opcode 0x9C, `SBC_A_H`: `c.registers.A -= c.registers.H - carryFlag`. -/
def SBC_A_H : Operation := fun c =>
  let a := c.registers.A
  let (c, carryFlag) := c.SetSbcFlags a c.registers.H
  let c := c.withRegs (fun r => { r with A := sub8 r.A (sub8 r.H carryFlag) })
  some (c, 0)

/-- Opcode 0x9D, `SBC_A_L`: `c.registers.A -= c.registers.L - carryFlag`. -/
def SBC_A_L : Operation := fun c =>
  let a := c.registers.A
  let (c, carryFlag) := c.SetSbcFlags a c.registers.L
  let c := c.withRegs (fun r => { r with A := sub8 r.A (sub8 r.L carryFlag) })
  some (c, 0)

/-- Opcode 0x9E, `SBC_A_[HL]`: `c.registers.A -= (val + carryFlag)`. -/
def SBC_A_atHL : Operation := fun c =>
  (c.bus.Read c.registers.GetHL).bind fun val =>
    let c := c.cpuCycles 1
    let a := c.registers.A
    let (c, carryFlag) := c.SetSbcFlags a val
    let c := c.withRegs (fun r => { r with A := sub8 r.A (add8 val carryFlag) })
    some (c, 0)

/-- Opcode 0x9F, `SBC_A_A`: `c.registers.A -= (a - carryFlag)`, then
`c.registers.SetFlag(SUBTRACTION_FLAG, oldCarryFlag)`. -/
def SBC_A_A : Operation := fun c =>
  let a := c.registers.A
  let oldCarryFlag := c.registers.GetFlag CARRY_FLAG
  let (c, carryFlag) := c.SetSbcFlags a a
  let c := c.withRegs (fun r => { r with A := sub8 r.A (sub8 a carryFlag) })
  let c := c.withRegs (·.SetFlag SUBTRACTION_FLAG oldCarryFlag)
  some (c, 0)

/-! ## 16-bit INC/DEC and ADD HL,rr -/

/-- Opcode 0x03, `INC_BC`: `c.registers.SetBC(c.registers.GetBC() + 1)`, one machine cycle. -/
def INC_BC : Operation := fun c =>
  let c := c.withRegs (fun r => r.SetBC (add16 r.GetBC 1))
  let c := c.cpuCycles 1
  some (c, 0)

/-- Opcode 0x0B, `DEC_BC`: `c.registers.SetBC(c.registers.GetBC() - 1)`, one machine cycle.
The entry's address mode is `R_A16`. -/
def DEC_BC : Operation := fun c =>
  let c := c.withRegs (fun r => r.SetBC (sub16 r.GetBC 1))
  let c := c.cpuCycles 1
  some (c, 0)

/-- Opcode 0x13, `INC_DE`: `c.registers.SetDE(c.registers.GetDE() + 1)`, one machine cycle. -/
def INC_DE : Operation := fun c =>
  let c := c.withRegs (fun r => r.SetDE (add16 r.GetDE 1))
  let c := c.cpuCycles 1
  some (c, 0)

/-- Opcode 0x1B, `DEC_DE`: `c.registers.SetDE(c.registers.GetDE() - 1)`, one machine cycle. -/
def DEC_DE : Operation := fun c =>
  let c := c.withRegs (fun r => r.SetDE (sub16 r.GetDE 1))
  let c := c.cpuCycles 1
  some (c, 0)

/-- Opcode 0x23, `INC_HL`: `c.registers.SetHL(c.registers.GetHL() + 1)`, one machine cycle. -/
def INC_HL : Operation := fun c =>
  let c := c.withRegs (fun r => r.SetHL (add16 r.GetHL 1))
  let c := c.cpuCycles 1
  some (c, 0)

/-- Opcode 0x2B, `DEC_HL`: the entry executes `c.registers.SetDE(c.registers.GetDE() - 1)`,
one machine cycle. -/
def DEC_HL : Operation := fun c =>
  let c := c.withRegs (fun r => r.SetDE (sub16 r.GetDE 1))
  let c := c.cpuCycles 1
  some (c, 0)

/-- Opcode 0x33, `INC_SP`: `c.registers.SP++`, one machine cycle. -/
def INC_SP : Operation := fun c =>
  let c := c.withRegs (fun r => { r with SP := add16 r.SP 1 })
  let c := c.cpuCycles 1
  some (c, 0)

/-- Opcode 0x3B, `DEC_SP`: `c.registers.SP--`, one machine cycle. -/
def DEC_SP : Operation := fun c =>
  let c := c.withRegs (fun r => { r with SP := sub16 r.SP 1 })
  let c := c.cpuCycles 1
  some (c, 0)

/-- Opcode 0x09, `ADD_HL_BC`. -/
def ADD_HL_BC : Operation := fun c =>
  let c := c.SetAddFlags16 c.registers.GetHL c.registers.GetBC
  let c := c.withRegs (fun r => r.SetHL (add16 r.GetHL r.GetBC))
  let c := c.cpuCycles 1
  some (c, 0)

/-- Opcode 0x19, `ADD_HL_DE`. -/
def ADD_HL_DE : Operation := fun c =>
  let c := c.SetAddFlags16 c.registers.GetHL c.registers.GetDE
  let c := c.withRegs (fun r => r.SetHL (add16 r.GetHL r.GetDE))
  let c := c.cpuCycles 1
  some (c, 0)

/-- Opcode 0x29, `ADD_HL_HL`. -/
def ADD_HL_HL : Operation := fun c =>
  let hl := c.registers.GetHL
  let c := c.SetAddFlags16 hl hl
  let c := c.withRegs (fun r => r.SetHL (add16 hl hl))
  let c := c.cpuCycles 1
  some (c, 0)

/-- Opcode 0x39, `ADD_HL_SP`. -/
def ADD_HL_SP : Operation := fun c =>
  let hl := c.registers.GetHL
  let c := c.SetAddFlags16 hl c.registers.SP
  let c := c.withRegs (fun r => r.SetHL (add16 hl r.SP))
  let c := c.cpuCycles 1
  some (c, 0)

/-- Opcode 0xE8, `ADD_SP_E8`: `SetAddFlags16(sp, uint16(c.relAddr))`, Z cleared, and
`SP = sp + uint16(c.relAddr)`, two machine cycles. The address mode is `E8`. -/
def ADD_SP_E8 : Operation := fun c =>
  let sp := c.registers.SP
  let c := c.SetAddFlags16 sp (int8ToU16 c.relAddr)
  let c := c.withRegs (·.SetFlag ZERO_FLAG false)
  let c := c.cpuCycles 1
  let c := c.withRegs (fun r => { r with SP := add16 sp (int8ToU16 c.relAddr) })
  let c := c.cpuCycles 1
  some (c, 0)

/-! ## Rotates on A -/

/-- Opcode 0x07, `RLCA`: `c.registers.A = (a << 1) | (a >> 7)`. -/
def RLCA : Operation := fun c =>
  let a := c.registers.A
  let c := c.SetRotateFlags a "L"
  let c := c.withRegs (fun r => { r with A := ((a <<< 1) % 256) ||| (a >>> 7) })
  some (c, 0)

/-- Opcode 0x0F, `RRCA`: `c.registers.A = (a >> 1) | (a << 7)`. -/
def RRCA : Operation := fun c =>
  let a := c.registers.A
  let c := c.SetRotateFlags a "R"
  let c := c.withRegs (fun r => { r with A := (a >>> 1) ||| ((a <<< 7) % 256) })
  some (c, 0)

/-- Opcode 0x17, `RLA`: `c.registers.A = (a << 1) | oldCarry`. -/
def RLA : Operation := fun c =>
  let a := c.registers.A
  let oldCarry : Nat := if c.registers.GetFlag CARRY_FLAG then 1 else 0
  let c := c.SetRotateFlags a "L"
  let c := c.withRegs (fun r => { r with A := ((a <<< 1) % 256) ||| oldCarry })
  some (c, 0)

/-- Opcode 0x1F, `RRA`: `c.registers.A = (a >> 1) | (oldCarry << 7)`. -/
def RRA : Operation := fun c =>
  let a := c.registers.A
  let oldCarry : Nat := if c.registers.GetFlag CARRY_FLAG then 1 else 0
  let c := c.SetRotateFlags a "R"
  let c := c.withRegs (fun r => { r with A := (a >>> 1) ||| ((oldCarry <<< 7) % 256) })
  some (c, 0)

/-! ## The CB prefix -/

/-- The `*uint8` that `CBLookUp` returns: a reference to one of the 8-bit registers. -/
inductive RegRef where
  | B | C | D | E | H | L | A
deriving DecidableEq, Repr

/-- Read through a register reference, `*reg`. -/
def Registers.load (r : Registers) : RegRef → Nat
  | .B => r.B
  | .C => r.C
  | .D => r.D
  | .E => r.E
  | .H => r.H
  | .L => r.L
  | .A => r.A

/-- Write through a register reference, `*reg = v`. -/
def Registers.store (r : Registers) (ref : RegRef) (v : Nat) : Registers :=
  match ref with
  | .B => { r with B := v }
  | .C => { r with C := v }
  | .D => { r with D := v }
  | .E => { r with E := v }
  | .H => { r with H := v }
  | .L => { r with L := v }
  | .A => { r with A := v }

/-- The source's `CBLookUp`: the register selected by a nibble; every nibble outside the
listed cases selects A. -/
def CPU.CBLookUp (_c : CPU) (highNibble : Nat) : RegRef :=
  match highNibble with
  | 0x0 | 0x8 => .B
  | 0x1 | 0x9 => .C
  | 0x2 | 0xA => .D
  | 0x3 | 0xB => .E
  | 0x4 | 0xC => .H
  | 0x5 | 0xD => .L
  | _ => .A

/-- The register form of a CB rotate, shift, swap, RES or SET:
`reg := c.CBLookUp(uint8(secondNibble)); *reg = f(*reg); return 2`. -/
def CPU.cbReg (c : CPU) (secondNibble : Nat) (f : CPU → Nat → CPU × Nat) :
    Option (CPU × Nat) :=
  let reg := c.CBLookUp (u8 secondNibble)
  let (c, v) := f c (c.registers.load reg)
  some (c.withRegs (·.store reg v), 2)

/-- The (HL) form of a CB rotate, shift, swap, RES or SET: the byte at HL is read, one
machine cycle, the result of `f` is written back to HL, one machine cycle, `return 0`. -/
def CPU.cbMem (c : CPU) (f : CPU → Nat → CPU × Nat) : Option (CPU × Nat) :=
  (c.bus.Read c.registers.GetHL).bind fun val =>
    let c := c.cpuCycles 1
    let (c, v) := f c val
    (c.bus.Write c.registers.GetHL v).bind fun b =>
      let c := { c with bus := b }
      let c := c.cpuCycles 1
      some (c, 0)

/-- The register form of CB BIT: `val := c.CBLookUp(uint8(secondNibble));
c.SetBitFlags(*val, bit); return 2`. -/
def CPU.cbBitReg (c : CPU) (secondNibble : Nat) (bit : Nat) : Option (CPU × Nat) :=
  let val := c.CBLookUp (u8 secondNibble)
  some (c.SetBitFlags (c.registers.load val) bit, 2)

/-- The (HL) form of CB BIT: the byte at HL is read, one machine cycle,
`c.SetBitFlags(val, bit); return 1`. -/
def CPU.cbBitMem (c : CPU) (bit : Nat) : Option (CPU × Nat) :=
  (c.bus.Read c.registers.GetHL).bind fun val =>
    let c := c.cpuCycles 1
    some (c.SetBitFlags val bit, 1)

/-- Opcode 0xCB, `CB`: the nested switch on the two nibbles of the fetched byte,
`firstNibble := (c.fetched >> 4) & 0x000F` and `secondNibble := c.fetched & 0x000F`. -/
def CB : Operation := fun c =>
  let firstNibble := (c.fetched >>> 4) &&& 0x000F
  let secondNibble := c.fetched &&& 0x000F
  match firstNibble with
  -- rlc rrc
  | 0x0 =>
    if secondNibble < 0x8 then
      if secondNibble ≠ 0x6 then c.cbReg secondNibble (fun c v => c.SetCBRotateFlags v "L" false)
      else c.cbMem (fun c v => c.SetCBRotateFlags v "L" false)
    else
      if secondNibble ≠ 0xE then c.cbReg secondNibble (fun c v => c.SetCBRotateFlags v "R" false)
      else c.cbMem (fun c v => c.SetCBRotateFlags v "R" false)
  -- rl rr
  | 0x1 =>
    if secondNibble < 0x8 then
      if secondNibble ≠ 0x6 then c.cbReg secondNibble (fun c v => c.SetCBRotateFlags v "L" true)
      else c.cbMem (fun c v => c.SetCBRotateFlags v "L" true)
    else
      if secondNibble ≠ 0xE then c.cbReg secondNibble (fun c v => c.SetCBRotateFlags v "R" true)
      else c.cbMem (fun c v => c.SetCBRotateFlags v "R" true)
  -- sla sra
  | 0x2 =>
    if secondNibble < 0x8 then
      if secondNibble ≠ 0x6 then c.cbReg secondNibble (fun c v => c.SetShiftFlags v "L" false)
      else c.cbMem (fun c v => c.SetShiftFlags v "L" false)
    else
      if secondNibble ≠ 0xE then c.cbReg secondNibble (fun c v => c.SetShiftFlags v "R" false)
      else c.cbMem (fun c v => c.SetShiftFlags v "R" false)
  -- swap srl
  | 0x3 =>
    if secondNibble < 0x8 then
      if secondNibble ≠ 0x6 then c.cbReg secondNibble (fun c v => c.SetSwapFlags v)
      else c.cbMem (fun c v => c.SetSwapFlags v)
    else
      if secondNibble ≠ 0xE then c.cbReg secondNibble (fun c v => c.SetShiftFlags v "R" true)
      else c.cbMem (fun c v => c.SetShiftFlags v "R" true)
  -- BIT 0 BIT 1
  | 0x4 =>
    if secondNibble < 0x8 then
      if secondNibble ≠ 0x6 then c.cbBitReg secondNibble 0
      else c.cbBitMem 0
    else
      if secondNibble ≠ 0xE then c.cbBitReg secondNibble 1
      else c.cbBitMem 1
  -- BIT 2 BIT 3
  | 0x5 =>
    if secondNibble < 0x8 then
      if secondNibble ≠ 0x6 then c.cbBitReg secondNibble 2
      else c.cbBitMem 2
    else
      if secondNibble ≠ 0xE then c.cbBitReg secondNibble 3
      else c.cbBitMem 3
  -- BIT 4 BIT 5
  | 0x6 =>
    if secondNibble < 0x8 then
      if secondNibble ≠ 0x6 then c.cbBitReg secondNibble 4
      else c.cbBitMem 4
    else
      if secondNibble ≠ 0xE then c.cbBitReg secondNibble 5
      else c.cbBitMem 5
  -- BIT 6 BIT 7
  | 0x7 =>
    if secondNibble < 0x8 then
      if secondNibble ≠ 0x6 then c.cbBitReg secondNibble 6
      else c.cbBitMem 6
    else
      if secondNibble ≠ 0xE then c.cbBitReg secondNibble 7
      else c.cbBitMem 7
  -- RES 0 RES 1
  | 0x8 =>
    if secondNibble < 0x8 then
      if secondNibble ≠ 0x6 then c.cbReg secondNibble (fun c v => (c, c.SetBit v 0 false))
      else c.cbMem (fun c v => (c, c.SetBit v 0 false))
    else
      if secondNibble ≠ 0xE then c.cbReg secondNibble (fun c v => (c, c.SetBit v 1 false))
      else c.cbMem (fun c v => (c, c.SetBit v 1 false))
  -- RES 2 RES 3
  | 0x9 =>
    if secondNibble < 0x8 then
      if secondNibble ≠ 0x6 then c.cbReg secondNibble (fun c v => (c, c.SetBit v 2 false))
      else c.cbMem (fun c v => (c, c.SetBit v 2 false))
    else
      if secondNibble ≠ 0xE then c.cbReg secondNibble (fun c v => (c, c.SetBit v 3 false))
      else c.cbMem (fun c v => (c, c.SetBit v 3 false))
  -- RES 4 RES 5
  | 0xA =>
    if secondNibble < 0x8 then
      if secondNibble ≠ 0x6 then c.cbReg secondNibble (fun c v => (c, c.SetBit v 4 false))
      else c.cbMem (fun c v => (c, c.SetBit v 4 false))
    else
      if secondNibble ≠ 0xE then c.cbReg secondNibble (fun c v => (c, c.SetBit v 5 false))
      else c.cbMem (fun c v => (c, c.SetBit v 5 false))
  -- RES 6 RES 7
  | 0xB =>
    if secondNibble < 0x8 then
      if secondNibble ≠ 0x6 then c.cbReg secondNibble (fun c v => (c, c.SetBit v 6 false))
      else c.cbMem (fun c v => (c, c.SetBit v 6 false))
    else
      if secondNibble ≠ 0xE then c.cbReg secondNibble (fun c v => (c, c.SetBit v 7 false))
      else c.cbMem (fun c v => (c, c.SetBit v 7 false))
  -- SET 0 SET 1
  | 0xC =>
    if secondNibble < 0x8 then
      if secondNibble ≠ 0x6 then c.cbReg secondNibble (fun c v => (c, c.SetBit v 0 true))
      else c.cbMem (fun c v => (c, c.SetBit v 0 true))
    else
      if secondNibble ≠ 0xE then c.cbReg secondNibble (fun c v => (c, c.SetBit v 1 true))
      else c.cbMem (fun c v => (c, c.SetBit v 1 true))
  -- SET 2 SET 3
  | 0xD =>
    if secondNibble < 0x8 then
      if secondNibble ≠ 0x6 then c.cbReg secondNibble (fun c v => (c, c.SetBit v 2 true))
      else c.cbMem (fun c v => (c, c.SetBit v 2 true))
    else
      if secondNibble ≠ 0xE then c.cbReg secondNibble (fun c v => (c, c.SetBit v 3 true))
      else c.cbMem (fun c v => (c, c.SetBit v 3 true))
  -- SET 4 SET 5
  | 0xE =>
    if secondNibble < 0x8 then
      if secondNibble ≠ 0x6 then c.cbReg secondNibble (fun c v => (c, c.SetBit v 4 true))
      else c.cbMem (fun c v => (c, c.SetBit v 4 true))
    else
      if secondNibble ≠ 0xE then c.cbReg secondNibble (fun c v => (c, c.SetBit v 5 true))
      else c.cbMem (fun c v => (c, c.SetBit v 5 true))
  -- SET 6 SET 7
  | 0xF =>
    if secondNibble < 0x8 then
      if secondNibble ≠ 0x6 then c.cbReg secondNibble (fun c v => (c, c.SetBit v 6 true))
      else c.cbMem (fun c v => (c, c.SetBit v 6 true))
    else
      if secondNibble ≠ 0xE then c.cbReg secondNibble (fun c v => (c, c.SetBit v 7 true))
      else c.cbMem (fun c v => (c, c.SetBit v 7 true))
  | _ => some (c, 2)

/-! ## The CB prefix by bit fields -/

/-- Refinement target, from the spec's words: the operand slot `k & 7` of a CB sub-opcode
in the order B, C, D, E, H, L, (HL), A; slot 6 is not a register. -/
def CB_slotRef (slot : Nat) : RegRef :=
  match slot with
  | 0 => .B
  | 1 => .C
  | 2 => .D
  | 3 => .E
  | 4 => .H
  | 5 => .L
  | _ => .A

/-- Refinement target, from the spec's words: the sub-operation of family 0 selected by
`(k >> 3) & 7`, in the order RLC, RRC, RL, RR, SLA, SRA, SWAP, SRL. -/
def CB_rotateOp (selector : Nat) : CPU → Nat → CPU × Nat :=
  match selector with
  | 0 => fun c v => c.SetCBRotateFlags v "L" false
  | 1 => fun c v => c.SetCBRotateFlags v "R" false
  | 2 => fun c v => c.SetCBRotateFlags v "L" true
  | 3 => fun c v => c.SetCBRotateFlags v "R" true
  | 4 => fun c v => c.SetShiftFlags v "L" false
  | 5 => fun c v => c.SetShiftFlags v "R" false
  | 6 => fun c v => c.SetSwapFlags v
  | _ => fun c v => c.SetShiftFlags v "R" true

/-- Refinement target, from the spec's words: the register form of a CB operation on the
register of an operand slot, returning 2. -/
def CPU.cbSlot (c : CPU) (slot : Nat) (f : CPU → Nat → CPU × Nat) : Option (CPU × Nat) :=
  let (c, v) := f c (c.registers.load (CB_slotRef slot))
  some (c.withRegs (·.store (CB_slotRef slot) v), 2)

/-- Refinement target, from the spec's words: the CB operation decomposed by bit fields of
the sub-opcode byte k, family = k >> 6 (0 rotate/shift/swap, 1 BIT, 2 RES, 3 SET),
selector = (k >> 3) & 7 and operand slot = k & 7, slot 6 being the byte at HL. -/
def CB_decomposed : Operation := fun c =>
  let k := c.fetched &&& 0x00FF
  let family := k >>> 6
  let selector := (k >>> 3) &&& 7
  let slot := k &&& 7
  match family with
  | 0 =>
    if slot = 6 then c.cbMem (CB_rotateOp selector)
    else c.cbSlot slot (CB_rotateOp selector)
  | 1 =>
    if slot = 6 then c.cbBitMem selector
    else some (c.SetBitFlags (c.registers.load (CB_slotRef slot)) selector, 2)
  | 2 =>
    if slot = 6 then c.cbMem (fun c v => (c, c.SetBit v selector false))
    else c.cbSlot slot (fun c v => (c, c.SetBit v selector false))
  | _ =>
    if slot = 6 then c.cbMem (fun c v => (c, c.SetBit v selector true))
    else c.cbSlot slot (fun c v => (c, c.SetBit v selector true))

/-! ## The AND, XOR, OR rows -/

/-- Opcode 0xA0, `AND_A_B`: `c.registers.A &= c.registers.B`, then
`c.SetAndFlags(c.registers.A)`. -/
def AND_A_B : Operation := fun c =>
  let c := c.withRegs (fun r => { r with A := r.A &&& r.B })
  let c := c.SetAndFlags c.registers.A
  some (c, 0)

/-- Opcode 0xA1, `AND_A_C`: `c.registers.A &= c.registers.C`, then
`c.SetAndFlags(c.registers.A)`. -/
def AND_A_C : Operation := fun c =>
  let c := c.withRegs (fun r => { r with A := r.A &&& r.C })
  let c := c.SetAndFlags c.registers.A
  some (c, 0)

/-- Opcode 0xA2, `AND_A_D`: `c.registers.A &= c.registers.D`, then
`c.SetAndFlags(c.registers.A)`. -/
def AND_A_D : Operation := fun c =>
  let c := c.withRegs (fun r => { r with A := r.A &&& r.D })
  let c := c.SetAndFlags c.registers.A
  some (c, 0)

/-- Opcode 0xA3, `AND_A_E`: `c.registers.A &= c.registers.E`, then
`c.SetAndFlags(c.registers.A)`. -/
def AND_A_E : Operation := fun c =>
  let c := c.withRegs (fun r => { r with A := r.A &&& r.E })
  let c := c.SetAndFlags c.registers.A
  some (c, 0)

/-- Opcode 0xA4, `AND_A_H`: `c.registers.A &= c.registers.H`, then
`c.SetAndFlags(c.registers.A)`. -/
def AND_A_H : Operation := fun c =>
  let c := c.withRegs (fun r => { r with A := r.A &&& r.H })
  let c := c.SetAndFlags c.registers.A
  some (c, 0)

/-- Opcode 0xA5, `AND_A_L`: `c.registers.A &= c.registers.L`, then
`c.SetAndFlags(c.registers.A)`. -/
def AND_A_L : Operation := fun c =>
  let c := c.withRegs (fun r => { r with A := r.A &&& r.L })
  let c := c.SetAndFlags c.registers.A
  some (c, 0)

/-- Opcode 0xA6, `AND_A_[HL]`: the byte at HL is read, one machine cycle,
`c.registers.A &= val`, then `c.SetAndFlags(c.registers.A)`. -/
def AND_A_atHL : Operation := fun c =>
  (c.bus.Read c.registers.GetHL).bind fun val =>
    let c := c.cpuCycles 1
    let c := c.withRegs (fun r => { r with A := r.A &&& val })
    let c := c.SetAndFlags c.registers.A
    some (c, 0)

/-- Opcode 0xA7, `AND_A_A`: `c.registers.A &= c.registers.A`, then
`c.SetAndFlags(c.registers.A)`. -/
def AND_A_A : Operation := fun c =>
  let c := c.withRegs (fun r => { r with A := r.A &&& r.A })
  let c := c.SetAndFlags c.registers.A
  some (c, 0)

/-- Opcode 0xA8, `XOR_A_B`: `c.registers.A ^= c.registers.B`, then
`c.SetXorFlags(c.registers.A)`. -/
def XOR_A_B : Operation := fun c =>
  let c := c.withRegs (fun r => { r with A := r.A ^^^ r.B })
  let c := c.SetXorFlags c.registers.A
  some (c, 0)

/-- Opcode 0xA9, `XOR_A_C`: `c.registers.A ^= c.registers.C`, then
`c.SetXorFlags(c.registers.A)`. -/
def XOR_A_C : Operation := fun c =>
  let c := c.withRegs (fun r => { r with A := r.A ^^^ r.C })
  let c := c.SetXorFlags c.registers.A
  some (c, 0)

/-- Opcode 0xAA, `XOR_A_D`: `c.registers.A ^= c.registers.D`, then
`c.SetXorFlags(c.registers.A)`. -/
def XOR_A_D : Operation := fun c =>
  let c := c.withRegs (fun r => { r with A := r.A ^^^ r.D })
  let c := c.SetXorFlags c.registers.A
  some (c, 0)

/-- Opcode 0xAB, `XOR_A_E`: `c.registers.A ^= c.registers.E`, then
`c.SetXorFlags(c.registers.A)`. -/
def XOR_A_E : Operation := fun c =>
  let c := c.withRegs (fun r => { r with A := r.A ^^^ r.E })
  let c := c.SetXorFlags c.registers.A
  some (c, 0)

/-- Opcode 0xAC, `XOR_A_H`: `c.registers.A ^= c.registers.H`, then
`c.SetXorFlags(c.registers.A)`. -/
def XOR_A_H : Operation := fun c =>
  let c := c.withRegs (fun r => { r with A := r.A ^^^ r.H })
  let c := c.SetXorFlags c.registers.A
  some (c, 0)

/-- Opcode 0xAD, `XOR_A_L`: `c.registers.A ^= c.registers.L`, then
`c.SetXorFlags(c.registers.A)`. -/
def XOR_A_L : Operation := fun c =>
  let c := c.withRegs (fun r => { r with A := r.A ^^^ r.L })
  let c := c.SetXorFlags c.registers.A
  some (c, 0)

/-- Opcode 0xAE, `XOR_A_[HL]`: the byte at HL is read, one machine cycle,
`c.registers.A ^= val`, then `c.SetXorFlags(c.registers.A)`. -/
def XOR_A_atHL : Operation := fun c =>
  (c.bus.Read c.registers.GetHL).bind fun val =>
    let c := c.cpuCycles 1
    let c := c.withRegs (fun r => { r with A := r.A ^^^ val })
    let c := c.SetXorFlags c.registers.A
    some (c, 0)

/-- Opcode 0xAF, `XOR_A_A`: `c.registers.A ^= c.registers.A`, then
`c.SetXorFlags(c.registers.A)`. -/
def XOR_A_A : Operation := fun c =>
  let c := c.withRegs (fun r => { r with A := r.A ^^^ r.A })
  let c := c.SetXorFlags c.registers.A
  some (c, 0)

/-- Opcode 0xB0, `OR_A_B`: `c.registers.A |= c.registers.B`, then
`c.SetXorFlags(c.registers.A)`. -/
def OR_A_B : Operation := fun c =>
  let c := c.withRegs (fun r => { r with A := r.A ||| r.B })
  let c := c.SetXorFlags c.registers.A
  some (c, 0)

/-- Opcode 0xB1, `OR_A_C`: `c.registers.A |= c.registers.C`, then
`c.SetXorFlags(c.registers.A)`. -/
def OR_A_C : Operation := fun c =>
  let c := c.withRegs (fun r => { r with A := r.A ||| r.C })
  let c := c.SetXorFlags c.registers.A
  some (c, 0)

/-- Opcode 0xB2, `OR_A_D`: `c.registers.A |= c.registers.D`, then
`c.SetXorFlags(c.registers.A)`. -/
def OR_A_D : Operation := fun c =>
  let c := c.withRegs (fun r => { r with A := r.A ||| r.D })
  let c := c.SetXorFlags c.registers.A
  some (c, 0)

/-- Opcode 0xB3, `OR_A_E`: `c.registers.A |= c.registers.E`, then
`c.SetXorFlags(c.registers.A)`. -/
def OR_A_E : Operation := fun c =>
  let c := c.withRegs (fun r => { r with A := r.A ||| r.E })
  let c := c.SetXorFlags c.registers.A
  some (c, 0)

/-- Opcode 0xB4, `OR_A_H`: `c.registers.A |= c.registers.H`, then
`c.SetXorFlags(c.registers.A)`. -/
def OR_A_H : Operation := fun c =>
  let c := c.withRegs (fun r => { r with A := r.A ||| r.H })
  let c := c.SetXorFlags c.registers.A
  some (c, 0)

/-- Opcode 0xB5, `OR_A_L`: `c.registers.A |= c.registers.L`, then
`c.SetXorFlags(c.registers.A)`. -/
def OR_A_L : Operation := fun c =>
  let c := c.withRegs (fun r => { r with A := r.A ||| r.L })
  let c := c.SetXorFlags c.registers.A
  some (c, 0)

/-- Opcode 0xB6, `OR_A_[HL]`: the byte at HL is read, one machine cycle,
`c.registers.A |= val`, then `c.SetXorFlags(c.registers.A)`. -/
def OR_A_atHL : Operation := fun c =>
  (c.bus.Read c.registers.GetHL).bind fun val =>
    let c := c.cpuCycles 1
    let c := c.withRegs (fun r => { r with A := r.A ||| val })
    let c := c.SetXorFlags c.registers.A
    some (c, 0)

/-- Opcode 0xB7, `OR_A_A`: `c.registers.A |= c.registers.A`, then
`c.SetXorFlags(c.registers.A)`. -/
def OR_A_A : Operation := fun c =>
  let c := c.withRegs (fun r => { r with A := r.A ||| r.A })
  let c := c.SetXorFlags c.registers.A
  some (c, 0)

/-! ## The immediate-operand ALU entries -/

/-- Opcode 0xC6, `ADD_A_N8` (address mode `R_N8`). -/
def ADD_A_N8 : Operation := fun c =>
  let a := c.registers.A
  let c := c.SetAddFlags a (u8 c.fetched)
  let c := c.withRegs (fun r => { r with A := add8 r.A (u8 c.fetched) })
  some (c, 0)

/-- Opcode 0xCE, `ADC_A_N8` (address mode `R_N8`):
`c.registers.A += (uint8(c.fetched) + carryFlag)`. -/
def ADC_A_N8 : Operation := fun c =>
  let a := c.registers.A
  let (c, carryFlag) := c.SetAdcFlags a (u8 c.fetched)
  let c := c.withRegs (fun r => { r with A := add8 r.A (add8 (u8 c.fetched) carryFlag) })
  some (c, 0)

/-- Opcode 0xD6, `SUB_A_N8` (address mode `R_N8`). -/
def SUB_A_N8 : Operation := fun c =>
  let a := c.registers.A
  let c := c.SetSubFlags a (u8 c.fetched)
  let c := c.withRegs (fun r => { r with A := sub8 r.A (u8 c.fetched) })
  some (c, 0)

/-- Opcode 0xE6, `AND_A_N8`: `c.registers.A &= uint8(c.fetched)`, `c.SetAndFlags(c.registers.A)`,
one machine cycle. The entry's address mode is `NONE`. -/
def AND_A_N8 : Operation := fun c =>
  let c := c.withRegs (fun r => { r with A := r.A &&& u8 c.fetched })
  let c := c.SetAndFlags c.registers.A
  let c := c.cpuCycles 1
  some (c, 0)

/-- Opcode 0xEE, `XOR_A_N8` (address mode `R_N8`). -/
def XOR_A_N8 : Operation := fun c =>
  let c := c.withRegs (fun r => { r with A := r.A ^^^ u8 c.fetched })
  let c := c.SetXorFlags c.registers.A
  some (c, 0)

/-- Opcode 0xFE, `CP_A_N8` (address mode `R_N8`): `c.SetCpFlags(c.registers.A, uint8(c.fetched))`. -/
def CP_A_N8 : Operation := fun c =>
  let c := c.SetCpFlags c.registers.A (u8 c.fetched)
  some (c, 0)

/-! ## Jumps, calls and returns -/

/-- Opcode 0x18, `JR_E8` (address mode `E8`): `c.registers.PC += uint16(c.relAddr)`, one
machine cycle. -/
def JR_E8 : Operation := fun c =>
  let c := c.withRegs (fun r => { r with PC := add16 r.PC (int8ToU16 c.relAddr) })
  let c := c.cpuCycles 1
  some (c, 0)

/-- Opcode 0x20, `JR_NZ_E8`: the jump of `JR_E8` and `return 0` when the zero flag is clear,
otherwise `return 1`. -/
def JR_NZ_E8 : Operation := fun c =>
  if !c.registers.GetFlag ZERO_FLAG then
    let c := c.withRegs (fun r => { r with PC := add16 r.PC (int8ToU16 c.relAddr) })
    let c := c.cpuCycles 1
    some (c, 0)
  else some (c, 1)

/-- Opcode 0x28, `JR_Z_E8`: the jump of `JR_E8` and `return 0` when the zero flag is set,
otherwise `return 1`. -/
def JR_Z_E8 : Operation := fun c =>
  if c.registers.GetFlag ZERO_FLAG then
    let c := c.withRegs (fun r => { r with PC := add16 r.PC (int8ToU16 c.relAddr) })
    let c := c.cpuCycles 1
    some (c, 0)
  else some (c, 1)

/-- Opcode 0x30, `JR_NC_E8`: the jump of `JR_E8` and `return 0` when the carry flag is
clear, otherwise `return 1`. -/
def JR_NC_E8 : Operation := fun c =>
  if !c.registers.GetFlag CARRY_FLAG then
    let c := c.withRegs (fun r => { r with PC := add16 r.PC (int8ToU16 c.relAddr) })
    let c := c.cpuCycles 1
    some (c, 0)
  else some (c, 1)

/-- Opcode 0x38, `JR_C_E8`: the jump of `JR_E8` and `return 0` when the carry flag is set,
otherwise `return 1`. -/
def JR_C_E8 : Operation := fun c =>
  if c.registers.GetFlag CARRY_FLAG then
    let c := c.withRegs (fun r => { r with PC := add16 r.PC (int8ToU16 c.relAddr) })
    let c := c.cpuCycles 1
    some (c, 0)
  else some (c, 1)

/-- Opcode 0xC2, `JP_NZ_A16` (address mode `R_A16`): `c.registers.PC = c.fetched`, one
machine cycle and `return 0` when the zero flag is clear, otherwise `return 1`. -/
def JP_NZ_A16 : Operation := fun c =>
  if !c.registers.GetFlag ZERO_FLAG then
    let c := c.withRegs (fun r => { r with PC := c.fetched })
    let c := c.cpuCycles 1
    some (c, 0)
  else some (c, 1)

/-- Opcode 0xC3, `JP_A16` (address mode `R_A16`): `c.registers.PC = c.fetched`. -/
def JP_A16 : Operation := fun c =>
  some (c.withRegs (fun r => { r with PC := c.fetched }), 0)

/-- Opcode 0xCD, `CALL_A16` (address mode `A16_R`): `c.StackPush16(c.registers.PC)`,
`c.registers.PC = c.fetched`, one machine cycle. -/
def CALL_A16 : Operation := fun c =>
  (c.StackPush16 c.registers.PC).bind fun c =>
    let c := c.withRegs (fun r => { r with PC := c.fetched })
    let c := c.cpuCycles 1
    some (c, 0)

/-- Opcode 0xC9, `RET`: `val := c.StackPop16()`, `c.registers.PC = val`, one machine cycle. -/
def RET : Operation := fun c =>
  c.StackPop16.bind fun (c, val) =>
    let c := c.withRegs (fun r => { r with PC := val })
    let c := c.cpuCycles 1
    some (c, 0)

/-- Opcode 0xE7, `RST_$20`: `c.StackPush16(c.registers.PC)`, `c.registers.PC = 0x0020`, one
machine cycle. -/
def RST_20 : Operation := fun c =>
  (c.StackPush16 c.registers.PC).bind fun c =>
    let c := c.withRegs (fun r => { r with PC := 0x0020 })
    let c := c.cpuCycles 1
    some (c, 0)

/-- Opcode 0xEF, `RST_$EF`: `c.StackPush16(c.registers.PC)`, `c.registers.PC = 0x00EF`, one
machine cycle. -/
def RST_EF : Operation := fun c =>
  (c.StackPush16 c.registers.PC).bind fun c =>
    let c := c.withRegs (fun r => { r with PC := 0x00EF })
    let c := c.cpuCycles 1
    some (c, 0)

/-! ## The 8-bit register loads, rows 0x40-0x7F -/

/-- Opcode 0x40, `LD_B_B`: the body is `return 0`. -/
def LD_B_B : Operation := fun c =>
  some (c, 0)

/-- Opcode 0x41, `LD_B_C`: `c.registers.B = c.registers.C`. -/
def LD_B_C : Operation := fun c =>
  some (c.withRegs (fun r => { r with B := r.C }), 0)

/-- Opcode 0x42, `LD_B_D`: `c.registers.B = c.registers.D`. -/
def LD_B_D : Operation := fun c =>
  some (c.withRegs (fun r => { r with B := r.D }), 0)

/-- Opcode 0x43, `LD_B_E`: `c.registers.B = c.registers.E`. -/
def LD_B_E : Operation := fun c =>
  some (c.withRegs (fun r => { r with B := r.E }), 0)

/-- Opcode 0x44, `LD_B_H`: `c.registers.B = c.registers.H`. -/
def LD_B_H : Operation := fun c =>
  some (c.withRegs (fun r => { r with B := r.H }), 0)

/-- Opcode 0x45, `LD_B_L`: `c.registers.B = c.registers.L`. -/
def LD_B_L : Operation := fun c =>
  some (c.withRegs (fun r => { r with B := r.L }), 0)

/-- Opcode 0x46, `LD_B_[HL]`: the byte at HL is read, one machine cycle,
`c.registers.B = val`. -/
def LD_B_atHL : Operation := fun c =>
  (c.bus.Read c.registers.GetHL).bind fun val =>
    let c := c.cpuCycles 1
    let c := c.withRegs (fun r => { r with B := val })
    some (c, 0)

/-- Opcode 0x47, `LD_B_A`: `c.registers.B = c.registers.A`. -/
def LD_B_A : Operation := fun c =>
  some (c.withRegs (fun r => { r with B := r.A }), 0)

/-- Opcode 0x48, `LD_C_B`: `c.registers.C = c.registers.B`. -/
def LD_C_B : Operation := fun c =>
  some (c.withRegs (fun r => { r with C := r.B }), 0)

/-- Opcode 0x49, `LD_C_C`: the body is `return 0`. -/
def LD_C_C : Operation := fun c =>
  some (c, 0)

/-- Opcode 0x4A, `LD_C_D`: `c.registers.C = c.registers.D`. -/
def LD_C_D : Operation := fun c =>
  some (c.withRegs (fun r => { r with C := r.D }), 0)

/-- Opcode 0x4B, `LD_C_E`: `c.registers.C = c.registers.E`. -/
def LD_C_E : Operation := fun c =>
  some (c.withRegs (fun r => { r with C := r.E }), 0)

/-- Opcode 0x4C, `LD_C_H`: `c.registers.C = c.registers.H`. -/
def LD_C_H : Operation := fun c =>
  some (c.withRegs (fun r => { r with C := r.H }), 0)

/-- Opcode 0x4D, `LD_C_L`: `c.registers.C = c.registers.L`. -/
def LD_C_L : Operation := fun c =>
  some (c.withRegs (fun r => { r with C := r.L }), 0)

/-- Opcode 0x4E, `LD_C_[HL]`: the byte at HL is read, one machine cycle,
`c.registers.C = val`. -/
def LD_C_atHL : Operation := fun c =>
  (c.bus.Read c.registers.GetHL).bind fun val =>
    let c := c.cpuCycles 1
    let c := c.withRegs (fun r => { r with C := val })
    some (c, 0)

/-- Opcode 0x4F, `LD_C_A`: `c.registers.C = c.registers.A`. -/
def LD_C_A : Operation := fun c =>
  some (c.withRegs (fun r => { r with C := r.A }), 0)

/-- Opcode 0x50, `LD_D_B`: `c.registers.D = c.registers.B`. -/
def LD_D_B : Operation := fun c =>
  some (c.withRegs (fun r => { r with D := r.B }), 0)

/-- Opcode 0x51, `LD_D_C`: `c.registers.D = c.registers.C`. -/
def LD_D_C : Operation := fun c =>
  some (c.withRegs (fun r => { r with D := r.C }), 0)

/-- Opcode 0x52, `LD_D_D`: the body is `return 0`. -/
def LD_D_D : Operation := fun c =>
  some (c, 0)

/-- Opcode 0x53, `LD_D_E`: `c.registers.D = c.registers.E`. -/
def LD_D_E : Operation := fun c =>
  some (c.withRegs (fun r => { r with D := r.E }), 0)

/-- Opcode 0x54, `LD_D_H`: `c.registers.D = c.registers.H`. -/
def LD_D_H : Operation := fun c =>
  some (c.withRegs (fun r => { r with D := r.H }), 0)

/-- Opcode 0x55, `LD_D_L`: `c.registers.D = c.registers.L`. -/
def LD_D_L : Operation := fun c =>
  some (c.withRegs (fun r => { r with D := r.L }), 0)

/-- Opcode 0x56, `LD_D_[HL]`: the byte at HL is read, one machine cycle,
`c.registers.D = val`. -/
def LD_D_atHL : Operation := fun c =>
  (c.bus.Read c.registers.GetHL).bind fun val =>
    let c := c.cpuCycles 1
    let c := c.withRegs (fun r => { r with D := val })
    some (c, 0)

/-- Opcode 0x57, `LD_D_A`: `c.registers.D = c.registers.A`. -/
def LD_D_A : Operation := fun c =>
  some (c.withRegs (fun r => { r with D := r.A }), 0)

/-- Opcode 0x58, `LD_E_B`: `c.registers.E = c.registers.B`. -/
def LD_E_B : Operation := fun c =>
  some (c.withRegs (fun r => { r with E := r.B }), 0)

/-- Opcode 0x59, `LD_E_C`: `c.registers.E = c.registers.C`. -/
def LD_E_C : Operation := fun c =>
  some (c.withRegs (fun r => { r with E := r.C }), 0)

/-- Opcode 0x5A, `LD_E_D`: `c.registers.E = c.registers.D`. -/
def LD_E_D : Operation := fun c =>
  some (c.withRegs (fun r => { r with E := r.D }), 0)

/-- Opcode 0x5B, `LD_E_E`: the body is `return 0`. -/
def LD_E_E : Operation := fun c =>
  some (c, 0)

/-- Opcode 0x5C, `LD_E_H`: `c.registers.E = c.registers.H`. -/
def LD_E_H : Operation := fun c =>
  some (c.withRegs (fun r => { r with E := r.H }), 0)

/-- Opcode 0x5D, `LD_E_L`: `c.registers.E = c.registers.L`. -/
def LD_E_L : Operation := fun c =>
  some (c.withRegs (fun r => { r with E := r.L }), 0)

/-- Opcode 0x5E, `LD_E_[HL]`: the byte at HL is read, one machine cycle,
`c.registers.E = val`. -/
def LD_E_atHL : Operation := fun c =>
  (c.bus.Read c.registers.GetHL).bind fun val =>
    let c := c.cpuCycles 1
    let c := c.withRegs (fun r => { r with E := val })
    some (c, 0)

/-- Opcode 0x5F, `LD_E_A`: `c.registers.E = c.registers.A`. -/
def LD_E_A : Operation := fun c =>
  some (c.withRegs (fun r => { r with E := r.A }), 0)

/-- Opcode 0x60, `LD_H_B`: `c.registers.H = c.registers.B`. -/
def LD_H_B : Operation := fun c =>
  some (c.withRegs (fun r => { r with H := r.B }), 0)

/-- Opcode 0x61, `LD_H_C`: `c.registers.H = c.registers.C`. -/
def LD_H_C : Operation := fun c =>
  some (c.withRegs (fun r => { r with H := r.C }), 0)

/-- Opcode 0x62, `LD_H_D`: `c.registers.H = c.registers.D`. -/
def LD_H_D : Operation := fun c =>
  some (c.withRegs (fun r => { r with H := r.D }), 0)

/-- Opcode 0x63, `LD_H_E`: `c.registers.H = c.registers.E`. -/
def LD_H_E : Operation := fun c =>
  some (c.withRegs (fun r => { r with H := r.E }), 0)

/-- Opcode 0x64, `LD_H_H`: the body is `return 0`. -/
def LD_H_H : Operation := fun c =>
  some (c, 0)

/-- Opcode 0x65, `LD_H_L`: `c.registers.H = c.registers.L`. -/
def LD_H_L : Operation := fun c =>
  some (c.withRegs (fun r => { r with H := r.L }), 0)

/-- Opcode 0x66, `LD_H_[HL]`: the byte at HL is read, one machine cycle,
`c.registers.H = val`. -/
def LD_H_atHL : Operation := fun c =>
  (c.bus.Read c.registers.GetHL).bind fun val =>
    let c := c.cpuCycles 1
    let c := c.withRegs (fun r => { r with H := val })
    some (c, 0)

/-- Opcode 0x67, `LD_H_A`: `c.registers.H = c.registers.A`. -/
def LD_H_A : Operation := fun c =>
  some (c.withRegs (fun r => { r with H := r.A }), 0)

/-- Opcode 0x68, `LD_L_B`: `c.registers.L = c.registers.B`. -/
def LD_L_B : Operation := fun c =>
  some (c.withRegs (fun r => { r with L := r.B }), 0)

/-- Opcode 0x69, `LD_L_C`: `c.registers.L = c.registers.C`. -/
def LD_L_C : Operation := fun c =>
  some (c.withRegs (fun r => { r with L := r.C }), 0)

/-- Opcode 0x6A, `LD_L_D`: `c.registers.L = c.registers.D`. -/
def LD_L_D : Operation := fun c =>
  some (c.withRegs (fun r => { r with L := r.D }), 0)

/-- Opcode 0x6B, `LD_L_E`: `c.registers.L = c.registers.E`. -/
def LD_L_E : Operation := fun c =>
  some (c.withRegs (fun r => { r with L := r.E }), 0)

/-- Opcode 0x6C, `LD_L_H`: `c.registers.L = c.registers.H`. -/
def LD_L_H : Operation := fun c =>
  some (c.withRegs (fun r => { r with L := r.H }), 0)

/-- Opcode 0x6D, `LD_L_L`: the body is `return 0`. -/
def LD_L_L : Operation := fun c =>
  some (c, 0)

/-- Opcode 0x6E, `LD_L_[HL]`: the byte at HL is read, one machine cycle,
`c.registers.L = val`. -/
def LD_L_atHL : Operation := fun c =>
  (c.bus.Read c.registers.GetHL).bind fun val =>
    let c := c.cpuCycles 1
    let c := c.withRegs (fun r => { r with L := val })
    some (c, 0)

/-- Opcode 0x6F, `LD_L_A`: `c.registers.L = c.registers.A`. -/
def LD_L_A : Operation := fun c =>
  some (c.withRegs (fun r => { r with L := r.A }), 0)

/-- Opcode 0x70, `LD_[HL]_B`: `c.bus.Write(c.registers.GetHL(), c.registers.B)`, one
machine cycle. -/
def LD_atHL_B : Operation := fun c =>
  (c.bus.Write c.registers.GetHL c.registers.B).bind fun b =>
    let c := { c with bus := b }
    let c := c.cpuCycles 1
    some (c, 0)

/-- Opcode 0x71, `LD_[HL]_C`: `c.bus.Write(c.registers.GetHL(), c.registers.C)`, one
machine cycle. -/
def LD_atHL_C : Operation := fun c =>
  (c.bus.Write c.registers.GetHL c.registers.C).bind fun b =>
    let c := { c with bus := b }
    let c := c.cpuCycles 1
    some (c, 0)

/-- Opcode 0x72, `LD_[HL]_D`: `c.bus.Write(c.registers.GetHL(), c.registers.D)`, one
machine cycle. -/
def LD_atHL_D : Operation := fun c =>
  (c.bus.Write c.registers.GetHL c.registers.D).bind fun b =>
    let c := { c with bus := b }
    let c := c.cpuCycles 1
    some (c, 0)

/-- Opcode 0x73, `LD_[HL]_E`: `c.bus.Write(c.registers.GetHL(), c.registers.E)`, one
machine cycle. -/
def LD_atHL_E : Operation := fun c =>
  (c.bus.Write c.registers.GetHL c.registers.E).bind fun b =>
    let c := { c with bus := b }
    let c := c.cpuCycles 1
    some (c, 0)

/-- Opcode 0x74, `LD_[HL]_H`: `c.bus.Write(c.registers.GetHL(), c.registers.H)`, one
machine cycle. -/
def LD_atHL_H : Operation := fun c =>
  (c.bus.Write c.registers.GetHL c.registers.H).bind fun b =>
    let c := { c with bus := b }
    let c := c.cpuCycles 1
    some (c, 0)

/-- Opcode 0x75, `LD_[HL]_L`: `c.bus.Write(c.registers.GetHL(), c.registers.L)`, one
machine cycle. -/
def LD_atHL_L : Operation := fun c =>
  (c.bus.Write c.registers.GetHL c.registers.L).bind fun b =>
    let c := { c with bus := b }
    let c := c.cpuCycles 1
    some (c, 0)

/-- Opcode 0x76, `HALT`: `c.halted = true`. -/
def HALT : Operation := fun c =>
  some ({ c with halted := true }, 0)

/-- Opcode 0x77, `LD_[HL]_A`: `c.bus.Write(c.registers.GetHL(), c.registers.A)`, one
machine cycle. -/
def LD_atHL_A : Operation := fun c =>
  (c.bus.Write c.registers.GetHL c.registers.A).bind fun b =>
    let c := { c with bus := b }
    let c := c.cpuCycles 1
    some (c, 0)

/-- Opcode 0x78, `LD_A_B`: `c.registers.A = c.registers.B`. -/
def LD_A_B : Operation := fun c =>
  some (c.withRegs (fun r => { r with A := r.B }), 0)

/-- Opcode 0x79, `LD_A_C`: `c.registers.A = c.registers.C`. -/
def LD_A_C : Operation := fun c =>
  some (c.withRegs (fun r => { r with A := r.C }), 0)

/-- Opcode 0x7A, `LD_A_D`: `c.registers.A = c.registers.D`. -/
def LD_A_D : Operation := fun c =>
  some (c.withRegs (fun r => { r with A := r.D }), 0)

/-- Opcode 0x7B, `LD_A_E`: `c.registers.A = c.registers.E`. -/
def LD_A_E : Operation := fun c =>
  some (c.withRegs (fun r => { r with A := r.E }), 0)

/-- Opcode 0x7C, `LD_A_H`: `c.registers.A = c.registers.H`. -/
def LD_A_H : Operation := fun c =>
  some (c.withRegs (fun r => { r with A := r.H }), 0)

/-- Opcode 0x7D, `LD_A_L`: `c.registers.A = c.registers.L`. -/
def LD_A_L : Operation := fun c =>
  some (c.withRegs (fun r => { r with A := r.L }), 0)

/-- Opcode 0x7E, `LD_A_[HL]`: the byte at HL is read, one machine cycle,
`c.registers.A = val`. -/
def LD_A_atHL : Operation := fun c =>
  (c.bus.Read c.registers.GetHL).bind fun val =>
    let c := c.cpuCycles 1
    let c := c.withRegs (fun r => { r with A := val })
    some (c, 0)

/-- Opcode 0x7F, `LD_A_A`: the body is `return 0`. -/
def LD_A_A : Operation := fun c =>
  some (c, 0)

/-! ## ADD and ADC with the operand at HL, and the stub `DASH` -/

/-- Opcode 0x86, `ADD_A_[HL]`: the byte at HL is read, `c.SetAddFlags(c.registers.A, val)`,
`c.registers.A += val`; the body has no `cpuCycles` call. -/
def ADD_A_atHL : Operation := fun c =>
  (c.bus.Read c.registers.GetHL).bind fun val =>
    let c := c.SetAddFlags c.registers.A val
    let c := c.withRegs (fun r => { r with A := add8 r.A val })
    some (c, 0)

/-- Opcode 0x8E, `ADC_A_[HL]`: the byte at HL is read, one machine cycle,
`carryFlag := c.SetAdcFlags(c.registers.A, val)`, `c.registers.A += (val + carryFlag)`. -/
def ADC_A_atHL : Operation := fun c =>
  (c.bus.Read c.registers.GetHL).bind fun val =>
    let c := c.cpuCycles 1
    let (c, carryFlag) := c.SetAdcFlags c.registers.A val
    let c := c.withRegs (fun r => { r with A := add8 r.A (add8 val carryFlag) })
    some (c, 0)

/-- The source's `DASH`, the stub entry: mnemonic "-", size 1, ticks `{0}`, address mode
`NONE` and an operation that only returns 0. -/
def DASH : Instruction :=
  ⟨"-", 1, [0], NONE, fun c => some (c, 0)⟩

/-- The keyed elements of the source's table `Instructions`, a `[0x0100]Instruction` array
literal: each key with the mnemonic of its element (the three elements given as `DASH` have
its mnemonic "-"). -/
def InstructionKeys : List (Nat × String) :=
  [(0x00, "NOP"), (0x01, "LD_BC_N16"), (0x02, "LD_[BC]_A"), (0x03, "INC_BC"), (0x04, "INC_B"),
   (0x05, "DEC_B"), (0x06, "LD_B_N8"), (0x07, "RLCA"), (0x08, "LD_[A16]_SP"),
   (0x09, "ADD_HL_BC"), (0x0A, "LD_A_[BC]"), (0x0B, "DEC_BC"), (0x0C, "INC_C"), (0x0D, "DEC_C"),
   (0x0E, "LD_C_N8"), (0x0F, "RRCA"), (0x10, "STOP_N8"), (0x11, "LD_DE_N16"),
   (0x12, "LD_[DE]_A"), (0x13, "INC_DE"), (0x14, "INC_D"), (0x15, "DEC_D"), (0x16, "LD_D_N8"),
   (0x17, "RLA"), (0x18, "JR_E8"), (0x19, "ADD_HL_DE"), (0x1A, "LD_A_[DE]"), (0x1B, "DEC_DE"),
   (0x1C, "INC_E"), (0x1D, "DEC_E"), (0x1E, "LD_E_N8"), (0x1F, "RRA"), (0x20, "JR_NZ_E8"),
   (0x21, "LD_HL_N16"), (0x22, "LD_[HLI]_A"), (0x23, "INC_HL"), (0x24, "INC_H"), (0x25, "DEC_H"),
   (0x26, "LD_H_N8"), (0x28, "JR_Z_E8"), (0x29, "ADD_HL_HL"), (0x2A, "LD_A_[HLI]"),
   (0x2B, "DEC_HL"), (0x2C, "INC_L"), (0x2D, "DEC_L"), (0x2E, "LD_L_N8"), (0x30, "JR_NC_E8"),
   (0x31, "LD_SP_N16"), (0x32, "LD_[HLD]_A"), (0x33, "INC_SP"), (0x34, "INC_[HL]"),
   (0x35, "DEC_[HL]"), (0x36, "LD_[HL]_N8"), (0x37, "SCF"), (0x38, "JR_C_E8"),
   (0x39, "ADD_HL_SP"), (0x3A, "LD_A_[HLD]"), (0x3B, "DEC_SP"), (0x3C, "INC_A"), (0x3D, "DEC_A"),
   (0x3E, "LD_A_N8"), (0x3F, "CCF"), (0x40, "LD_B_B"), (0x41, "LD_B_C"), (0x42, "LD_B_D"),
   (0x43, "LD_B_E"), (0x44, "LD_B_H"), (0x45, "LD_B_L"), (0x46, "LD_B_[HL]"), (0x47, "LD_B_A"),
   (0x48, "LD_C_B"), (0x49, "LD_C_C"), (0x4A, "LD_C_D"), (0x4B, "LD_C_E"), (0x4C, "LD_C_H"),
   (0x4D, "LD_C_L"), (0x4E, "LD_C_[HL]"), (0x4F, "LD_C_A"), (0x50, "LD_D_B"), (0x51, "LD_D_C"),
   (0x52, "LD_D_D"), (0x53, "LD_D_E"), (0x54, "LD_D_H"), (0x55, "LD_D_L"), (0x56, "LD_D_[HL]"),
   (0x57, "LD_D_A"), (0x58, "LD_E_B"), (0x59, "LD_E_C"), (0x5A, "LD_E_D"), (0x5B, "LD_E_E"),
   (0x5C, "LD_E_H"), (0x5D, "LD_E_L"), (0x5E, "LD_E_[HL]"), (0x5F, "LD_E_A"), (0x60, "LD_H_B"),
   (0x61, "LD_H_C"), (0x62, "LD_H_D"), (0x63, "LD_H_E"), (0x64, "LD_H_H"), (0x65, "LD_H_L"),
   (0x66, "LD_H_[HL]"), (0x67, "LD_H_A"), (0x68, "LD_L_B"), (0x69, "LD_L_C"), (0x6A, "LD_L_D"),
   (0x6B, "LD_L_E"), (0x6C, "LD_L_H"), (0x6D, "LD_L_L"), (0x6E, "LD_L_[HL]"), (0x6F, "LD_L_A"),
   (0x70, "LD_[HL]_B"), (0x71, "LD_[HL]_C"), (0x72, "LD_[HL]_D"), (0x73, "LD_[HL]_E"),
   (0x74, "LD_[HL]_H"), (0x75, "LD_[HL]_L"), (0x76, "HALT"), (0x77, "LD_[HL]_A"),
   (0x78, "LD_A_B"), (0x79, "LD_A_C"), (0x7A, "LD_A_D"), (0x7B, "LD_A_E"), (0x7C, "LD_A_H"),
   (0x7D, "LD_A_L"), (0x7E, "LD_A_[HL]"), (0x7F, "LD_A_A"), (0x80, "ADD_A_B"), (0x81, "ADD_A_C"),
   (0x82, "ADD_A_D"), (0x83, "ADD_A_E"), (0x84, "ADD_A_H"), (0x85, "ADD_A_L"),
   (0x86, "ADD_A_[HL]"), (0x87, "ADD_A_A"), (0x88, "ADC_A_B"), (0x89, "ADC_A_C"),
   (0x8A, "ADC_A_D"), (0x8B, "ADC_A_E"), (0x8C, "ADC_A_H"), (0x8D, "ADC_A_L"),
   (0x8E, "ADC_A_[HL]"), (0x8F, "ADC_A_A"), (0x90, "SUB_A_B"), (0x91, "SUB_A_C"),
   (0x92, "SUB_A_D"), (0x93, "SUB_A_E"), (0x94, "SUB_A_H"), (0x95, "SUB_A_L"),
   (0x96, "SUB_A_[HL]"), (0x97, "SUB_A_A"), (0x98, "SBC_A_B"), (0x99, "SBC_A_C"),
   (0x9A, "SBC_A_D"), (0x9B, "SBC_A_E"), (0x9C, "SBC_A_H"), (0x9D, "SBC_A_L"),
   (0x9E, "SBC_A_[HL]"), (0x9F, "SBC_A_A"), (0xA0, "AND_A_B"), (0xA1, "AND_A_C"),
   (0xA2, "AND_A_D"), (0xA3, "AND_A_E"), (0xA4, "AND_A_H"), (0xA5, "AND_A_L"),
   (0xA6, "AND_A_[HL]"), (0xA7, "AND_A_A"), (0xA8, "XOR_A_B"), (0xA9, "XOR_A_C"),
   (0xAA, "XOR_A_D"), (0xAB, "XOR_A_E"), (0xAC, "XOR_A_H"), (0xAD, "XOR_A_L"),
   (0xAE, "XOR_A_[HL]"), (0xAF, "XOR_A_A"), (0xB0, "OR_A_B"), (0xB1, "OR_A_C"), (0xB2, "OR_A_D"),
   (0xB3, "OR_A_E"), (0xB4, "OR_A_H"), (0xB5, "OR_A_L"), (0xB6, "OR_A_[HL]"), (0xB7, "OR_A_A"),
   (0xC1, "POP_BC"), (0xC2, "JP_NZ_A16"), (0xC3, "JP_A16"), (0xC4, "CALL_NZ_A16"),
   (0xC5, "PUSH_BC"), (0xC6, "ADD_A_N8"), (0xC9, "RET"), (0xCB, "CB"), (0xCD, "CALL_A16"),
   (0xCE, "ADC_A_N8"), (0xD0, "RET_NC"), (0xD1, "POP_DE"), (0xD5, "PUSH_DE"), (0xD6, "SUB_A_N8"),
   (0xD8, "RET_C"), (0xE0, "LDH_[A8]_A"), (0xE1, "POP_HL"), (0xE5, "PUSH_HL"),
   (0xE6, "AND_A_N8"), (0xE7, "RST_$20"), (0xE8, "ADD_SP_E8"), (0xE9, "JP_HL"),
   (0xEA, "LD_[A16]_A"), (0xEB, "-"), (0xEC, "-"), (0xED, "-"), (0xEE, "XOR_A_N8"),
   (0xEF, "RST_$EF"), (0xF0, "LDH_A_[A8]"), (0xF1, "POP_AF"), (0xF3, "DI"), (0xF5, "PUSH_AF"),
   (0xFA, "LD_A_[A16]"), (0xFE, "CP_A_N8")]

/-- The mnemonic of a slot of the source's table; `none` is a slot the array literal does
not list, which Go leaves at the zero value of `Instruction`, with nil `AddrMode` and nil
`Operation`. -/
def InstructionMnemonics (op : Nat) : Option String :=
  InstructionKeys.lookup op

/-- The entries of the source's `Instructions` table embedded here: the 8-bit and 16-bit
INC/DEC groups, ADD HL,rr, the rotates on A, the 8-bit loads of rows 0x40-0x7F, the
ADD/ADC/SUB/SBC/AND/XOR/OR rows, the immediate-operand ALU entries, the relative and
absolute jumps, CALL, RET, RST, the CB prefix, ADD SP,E8 and the three `DASH` stubs; `none`
stands for a slot the source leaves empty (see `InstructionMnemonics`) or for an entry whose
operation is not embedded here. An entry whose `Ticks` field is absent in the source has the
empty list. -/
def Instructions (op : Nat) : Option Instruction :=
  match op with
  | 0x03 => some ⟨"INC_BC", 1, [8], NONE, INC_BC⟩
  | 0x04 => some ⟨"INC_B", 1, [4], NONE, INC_B⟩
  | 0x05 => some ⟨"DEC_B", 1, [4], NONE, DEC_B⟩
  | 0x07 => some ⟨"RLCA", 1, [4], NONE, RLCA⟩
  | 0x09 => some ⟨"ADD_HL_BC", 1, [8], NONE, ADD_HL_BC⟩
  | 0x0B => some ⟨"DEC_BC", 1, [8], R_A16, DEC_BC⟩
  | 0x0C => some ⟨"INC_C", 1, [4], NONE, INC_C⟩
  | 0x0D => some ⟨"DEC_C", 1, [4], NONE, DEC_C⟩
  | 0x0F => some ⟨"RRCA", 1, [4], NONE, RRCA⟩
  | 0x13 => some ⟨"INC_DE", 1, [8], NONE, INC_DE⟩
  | 0x14 => some ⟨"INC_D", 1, [4], NONE, INC_D⟩
  | 0x15 => some ⟨"DEC_D", 1, [4], NONE, DEC_D⟩
  | 0x17 => some ⟨"RLA", 1, [4], NONE, RLA⟩
  | 0x18 => some ⟨"JR_E8", 2, [12], E8, JR_E8⟩
  | 0x19 => some ⟨"ADD_HL_DE", 1, [8], NONE, ADD_HL_DE⟩
  | 0x1B => some ⟨"DEC_DE", 1, [8], NONE, DEC_DE⟩
  | 0x1C => some ⟨"INC_E", 1, [4], NONE, INC_E⟩
  | 0x1D => some ⟨"DEC_E", 1, [4], NONE, DEC_E⟩
  | 0x1F => some ⟨"RRA", 1, [4], NONE, RRA⟩
  | 0x20 => some ⟨"JR_NZ_E8", 2, [12, 8], E8, JR_NZ_E8⟩
  | 0x23 => some ⟨"INC_HL", 1, [8], NONE, INC_HL⟩
  | 0x24 => some ⟨"INC_H", 1, [4], NONE, INC_H⟩
  | 0x25 => some ⟨"DEC_H", 1, [4], NONE, DEC_H⟩
  | 0x28 => some ⟨"JR_Z_E8", 2, [12, 8], E8, JR_Z_E8⟩
  | 0x29 => some ⟨"ADD_HL_HL", 1, [8], NONE, ADD_HL_HL⟩
  | 0x2B => some ⟨"DEC_HL", 1, [8], NONE, DEC_HL⟩
  | 0x2C => some ⟨"INC_L", 1, [4], NONE, INC_L⟩
  | 0x2D => some ⟨"DEC_L", 1, [4], NONE, DEC_L⟩
  | 0x30 => some ⟨"JR_NC_E8", 2, [12, 8], E8, JR_NC_E8⟩
  | 0x33 => some ⟨"INC_SP", 1, [8], NONE, INC_SP⟩
  | 0x38 => some ⟨"JR_C_E8", 2, [12, 8], E8, JR_C_E8⟩
  | 0x39 => some ⟨"ADD_HL_SP", 1, [8], NONE, ADD_HL_SP⟩
  | 0x3B => some ⟨"DEC_SP", 1, [8], NONE, DEC_SP⟩
  | 0x3C => some ⟨"INC_A", 1, [4], NONE, INC_A⟩
  | 0x3D => some ⟨"DEC_A", 1, [4], NONE, DEC_A⟩
  | 0x40 => some ⟨"LD_B_B", 1, [4], NONE, LD_B_B⟩
  | 0x41 => some ⟨"LD_B_C", 1, [4], NONE, LD_B_C⟩
  | 0x42 => some ⟨"LD_B_D", 1, [4], NONE, LD_B_D⟩
  | 0x43 => some ⟨"LD_B_E", 1, [4], NONE, LD_B_E⟩
  | 0x44 => some ⟨"LD_B_H", 1, [4], NONE, LD_B_H⟩
  | 0x45 => some ⟨"LD_B_L", 1, [4], NONE, LD_B_L⟩
  | 0x46 => some ⟨"LD_B_[HL]", 1, [8], NONE, LD_B_atHL⟩
  | 0x47 => some ⟨"LD_B_A", 1, [4], NONE, LD_B_A⟩
  | 0x48 => some ⟨"LD_C_B", 1, [4], NONE, LD_C_B⟩
  | 0x49 => some ⟨"LD_C_C", 1, [4], NONE, LD_C_C⟩
  | 0x4A => some ⟨"LD_C_D", 1, [4], NONE, LD_C_D⟩
  | 0x4B => some ⟨"LD_C_E", 1, [4], NONE, LD_C_E⟩
  | 0x4C => some ⟨"LD_C_H", 1, [4], NONE, LD_C_H⟩
  | 0x4D => some ⟨"LD_C_L", 1, [4], NONE, LD_C_L⟩
  | 0x4E => some ⟨"LD_C_[HL]", 1, [8], NONE, LD_C_atHL⟩
  | 0x4F => some ⟨"LD_C_A", 1, [4], NONE, LD_C_A⟩
  | 0x50 => some ⟨"LD_D_B", 1, [4], NONE, LD_D_B⟩
  | 0x51 => some ⟨"LD_D_C", 1, [4], NONE, LD_D_C⟩
  | 0x52 => some ⟨"LD_D_D", 1, [4], NONE, LD_D_D⟩
  | 0x53 => some ⟨"LD_D_E", 1, [4], NONE, LD_D_E⟩
  | 0x54 => some ⟨"LD_D_H", 1, [4], NONE, LD_D_H⟩
  | 0x55 => some ⟨"LD_D_L", 1, [4], NONE, LD_D_L⟩
  | 0x56 => some ⟨"LD_D_[HL]", 1, [8], NONE, LD_D_atHL⟩
  | 0x57 => some ⟨"LD_D_A", 1, [4], NONE, LD_D_A⟩
  | 0x58 => some ⟨"LD_E_B", 1, [4], NONE, LD_E_B⟩
  | 0x59 => some ⟨"LD_E_C", 1, [4], NONE, LD_E_C⟩
  | 0x5A => some ⟨"LD_E_D", 1, [4], NONE, LD_E_D⟩
  | 0x5B => some ⟨"LD_E_E", 1, [4], NONE, LD_E_E⟩
  | 0x5C => some ⟨"LD_E_H", 1, [4], NONE, LD_E_H⟩
  | 0x5D => some ⟨"LD_E_L", 1, [4], NONE, LD_E_L⟩
  | 0x5E => some ⟨"LD_E_[HL]", 1, [8], NONE, LD_E_atHL⟩
  | 0x5F => some ⟨"LD_E_A", 1, [4], NONE, LD_E_A⟩
  | 0x60 => some ⟨"LD_H_B", 1, [4], NONE, LD_H_B⟩
  | 0x61 => some ⟨"LD_H_C", 1, [4], NONE, LD_H_C⟩
  | 0x62 => some ⟨"LD_H_D", 1, [4], NONE, LD_H_D⟩
  | 0x63 => some ⟨"LD_H_E", 1, [4], NONE, LD_H_E⟩
  | 0x64 => some ⟨"LD_H_H", 1, [4], NONE, LD_H_H⟩
  | 0x65 => some ⟨"LD_H_L", 1, [4], NONE, LD_H_L⟩
  | 0x66 => some ⟨"LD_H_[HL]", 1, [8], NONE, LD_H_atHL⟩
  | 0x67 => some ⟨"LD_H_A", 1, [4], NONE, LD_H_A⟩
  | 0x68 => some ⟨"LD_L_B", 1, [4], NONE, LD_L_B⟩
  | 0x69 => some ⟨"LD_L_C", 1, [4], NONE, LD_L_C⟩
  | 0x6A => some ⟨"LD_L_D", 1, [4], NONE, LD_L_D⟩
  | 0x6B => some ⟨"LD_L_E", 1, [4], NONE, LD_L_E⟩
  | 0x6C => some ⟨"LD_L_H", 1, [4], NONE, LD_L_H⟩
  | 0x6D => some ⟨"LD_L_L", 1, [4], NONE, LD_L_L⟩
  | 0x6E => some ⟨"LD_L_[HL]", 1, [8], NONE, LD_L_atHL⟩
  | 0x6F => some ⟨"LD_L_A", 1, [4], NONE, LD_L_A⟩
  | 0x70 => some ⟨"LD_[HL]_B", 1, [8], NONE, LD_atHL_B⟩
  | 0x71 => some ⟨"LD_[HL]_C", 1, [8], NONE, LD_atHL_C⟩
  | 0x72 => some ⟨"LD_[HL]_D", 1, [8], NONE, LD_atHL_D⟩
  | 0x73 => some ⟨"LD_[HL]_E", 1, [8], NONE, LD_atHL_E⟩
  | 0x74 => some ⟨"LD_[HL]_H", 1, [8], NONE, LD_atHL_H⟩
  | 0x75 => some ⟨"LD_[HL]_L", 1, [8], NONE, LD_atHL_L⟩
  | 0x76 => some ⟨"HALT", 1, [4], NONE, HALT⟩
  | 0x77 => some ⟨"LD_[HL]_A", 1, [8], NONE, LD_atHL_A⟩
  | 0x78 => some ⟨"LD_A_B", 1, [4], NONE, LD_A_B⟩
  | 0x79 => some ⟨"LD_A_C", 1, [4], NONE, LD_A_C⟩
  | 0x7A => some ⟨"LD_A_D", 1, [4], NONE, LD_A_D⟩
  | 0x7B => some ⟨"LD_A_E", 1, [4], NONE, LD_A_E⟩
  | 0x7C => some ⟨"LD_A_H", 1, [4], NONE, LD_A_H⟩
  | 0x7D => some ⟨"LD_A_L", 1, [4], NONE, LD_A_L⟩
  | 0x7E => some ⟨"LD_A_[HL]", 1, [8], NONE, LD_A_atHL⟩
  | 0x7F => some ⟨"LD_A_A", 1, [4], NONE, LD_A_A⟩
  | 0x80 => some ⟨"ADD_A_B", 1, [4], NONE, ADD_A_B⟩
  | 0x81 => some ⟨"ADD_A_C", 1, [4], NONE, ADD_A_C⟩
  | 0x82 => some ⟨"ADD_A_D", 1, [4], NONE, ADD_A_D⟩
  | 0x83 => some ⟨"ADD_A_E", 1, [4], NONE, ADD_A_E⟩
  | 0x84 => some ⟨"ADD_A_H", 1, [4], NONE, ADD_A_H⟩
  | 0x85 => some ⟨"ADD_A_L", 1, [4], NONE, ADD_A_L⟩
  | 0x86 => some ⟨"ADD_A_[HL]", 1, [8], NONE, ADD_A_atHL⟩
  | 0x88 => some ⟨"ADC_A_B", 1, [4], NONE, ADC_A_B⟩
  | 0x89 => some ⟨"ADC_A_C", 1, [4], NONE, ADC_A_C⟩
  | 0x8A => some ⟨"ADC_A_D", 1, [4], NONE, ADC_A_D⟩
  | 0x8B => some ⟨"ADC_A_E", 1, [4], NONE, ADC_A_E⟩
  | 0x8C => some ⟨"ADC_A_H", 1, [4], NONE, ADC_A_H⟩
  | 0x8D => some ⟨"ADC_A_L", 1, [4], NONE, ADC_A_L⟩
  | 0x8E => some ⟨"ADC_A_[HL]", 1, [4], NONE, ADC_A_atHL⟩
  | 0x90 => some ⟨"SUB_A_B", 1, [4], NONE, SUB_A_B⟩
  | 0x91 => some ⟨"SUB_A_C", 1, [4], NONE, SUB_A_C⟩
  | 0x92 => some ⟨"SUB_A_D", 1, [4], NONE, SUB_A_D⟩
  | 0x93 => some ⟨"SUB_A_E", 1, [4], NONE, SUB_A_E⟩
  | 0x94 => some ⟨"SUB_A_H", 1, [4], NONE, SUB_A_H⟩
  | 0x95 => some ⟨"SUB_A_L", 1, [4], NONE, SUB_A_L⟩
  | 0x96 => some ⟨"SUB_A_[HL]", 1, [8], NONE, SUB_A_atHL⟩
  | 0x98 => some ⟨"SBC_A_B", 1, [4], NONE, SBC_A_B⟩
  | 0x99 => some ⟨"SBC_A_C", 1, [4], NONE, SBC_A_C⟩
  | 0x9A => some ⟨"SBC_A_D", 1, [4], NONE, SBC_A_D⟩
  | 0x9B => some ⟨"SBC_A_E", 1, [4], NONE, SBC_A_E⟩
  | 0x9C => some ⟨"SBC_A_H", 1, [4], NONE, SBC_A_H⟩
  | 0x9D => some ⟨"SBC_A_L", 1, [4], NONE, SBC_A_L⟩
  | 0x9E => some ⟨"SBC_A_[HL]", 1, [8], NONE, SBC_A_atHL⟩
  | 0x9F => some ⟨"SBC_A_A", 1, [4], NONE, SBC_A_A⟩
  | 0xA0 => some ⟨"AND_A_B", 1, [4], NONE, AND_A_B⟩
  | 0xA1 => some ⟨"AND_A_C", 1, [4], NONE, AND_A_C⟩
  | 0xA2 => some ⟨"AND_A_D", 1, [4], NONE, AND_A_D⟩
  | 0xA3 => some ⟨"AND_A_E", 1, [4], NONE, AND_A_E⟩
  | 0xA4 => some ⟨"AND_A_H", 1, [4], NONE, AND_A_H⟩
  | 0xA5 => some ⟨"AND_A_L", 1, [4], NONE, AND_A_L⟩
  | 0xA6 => some ⟨"AND_A_[HL]", 1, [8], NONE, AND_A_atHL⟩
  | 0xA7 => some ⟨"AND_A_A", 1, [4], NONE, AND_A_A⟩
  | 0xA8 => some ⟨"XOR_A_B", 1, [4], NONE, XOR_A_B⟩
  | 0xA9 => some ⟨"XOR_A_C", 1, [4], NONE, XOR_A_C⟩
  | 0xAA => some ⟨"XOR_A_D", 1, [4], NONE, XOR_A_D⟩
  | 0xAB => some ⟨"XOR_A_E", 1, [4], NONE, XOR_A_E⟩
  | 0xAC => some ⟨"XOR_A_H", 1, [4], NONE, XOR_A_H⟩
  | 0xAD => some ⟨"XOR_A_L", 1, [4], NONE, XOR_A_L⟩
  | 0xAE => some ⟨"XOR_A_[HL]", 1, [8], NONE, XOR_A_atHL⟩
  | 0xAF => some ⟨"XOR_A_A", 1, [], NONE, XOR_A_A⟩
  | 0xB0 => some ⟨"OR_A_B", 1, [4], NONE, OR_A_B⟩
  | 0xB1 => some ⟨"OR_A_C", 1, [4], NONE, OR_A_C⟩
  | 0xB2 => some ⟨"OR_A_D", 1, [4], NONE, OR_A_D⟩
  | 0xB3 => some ⟨"OR_A_E", 1, [4], NONE, OR_A_E⟩
  | 0xB4 => some ⟨"OR_A_H", 1, [4], NONE, OR_A_H⟩
  | 0xB5 => some ⟨"OR_A_L", 1, [4], NONE, OR_A_L⟩
  | 0xB6 => some ⟨"OR_A_[HL]", 1, [8], NONE, OR_A_atHL⟩
  | 0xB7 => some ⟨"OR_A_A", 1, [4], NONE, OR_A_A⟩
  | 0xC2 => some ⟨"JP_NZ_A16", 3, [16, 12], R_A16, JP_NZ_A16⟩
  | 0xC3 => some ⟨"JP_A16", 3, [12], R_A16, JP_A16⟩
  | 0xC6 => some ⟨"ADD_A_N8", 2, [8], R_N8, ADD_A_N8⟩
  | 0xC9 => some ⟨"RET", 1, [16], NONE, RET⟩
  | 0xCB => some ⟨"CB", 3, [16, 12, 8], R_N8, CB⟩
  | 0xCD => some ⟨"CALL_A16", 3, [24], A16_R, CALL_A16⟩
  | 0xCE => some ⟨"ADC_A_N8", 2, [8], R_N8, ADC_A_N8⟩
  | 0xD6 => some ⟨"SUB_A_N8", 1, [8], R_N8, SUB_A_N8⟩
  | 0xE6 => some ⟨"AND_A_N8", 1, [8], NONE, AND_A_N8⟩
  | 0xE7 => some ⟨"RST_$20", 3, [16], NONE, RST_20⟩
  | 0xE8 => some ⟨"ADD_SP_E8", 2, [16], E8, ADD_SP_E8⟩
  | 0xEB => some DASH
  | 0xEC => some DASH
  | 0xED => some DASH
  | 0xEE => some ⟨"XOR_A_N8", 1, [8], R_N8, XOR_A_N8⟩
  | 0xEF => some ⟨"RST_$EF", 3, [16], NONE, RST_EF⟩
  | 0xFE => some ⟨"CP_A_N8", 1, [8], R_N8, CP_A_N8⟩
  | _ => none

/-! ## Dispatch -/

/-- Modelled from the spec: the decode and execute part of `step` (the step function is
not part of the sources at hand): the opcode selects its table entry, the entry's
address mode runs, then its operation, which returns the branch discriminant. -/
def execute (op : Nat) (c : CPU) : Option (CPU × Nat) :=
  (Instructions op).bind fun ins => (ins.AddrMode c).bind ins.Operation

/-! ## Operand slots -/

/-- The operand slot order of the opcode encoding (low three bits of the opcode):
B, C, D, E, H, L, then the (HL) slot, then A. It is used to state theorems over a row of
opcodes; slot 6 is not a register and is given the value 0 here. -/
def Registers.slot (r : Registers) (i : Nat) : Nat :=
  match i with
  | 0 => r.B
  | 1 => r.C
  | 2 => r.D
  | 3 => r.E
  | 4 => r.H
  | 5 => r.L
  | 7 => r.A
  | _ => 0

/-- Write to an operand slot of the opcode encoding (slot 6 is not a register). -/
def Registers.setSlot (r : Registers) (i : Nat) (v : Nat) : Registers :=
  match i with
  | 0 => { r with B := v }
  | 1 => { r with C := v }
  | 2 => { r with D := v }
  | 3 => { r with E := v }
  | 4 => { r with H := v }
  | 5 => { r with L := v }
  | 7 => { r with A := v }
  | _ => r

/-- The 16-bit operand order of the opcode encoding (bits 4-5 of the opcode): BC, DE, HL,
SP. It is used to state theorems over a column of opcodes. -/
def Registers.pair (r : Registers) (i : Nat) : Nat :=
  match i with
  | 0 => r.GetBC
  | 1 => r.GetDE
  | 2 => r.GetHL
  | _ => r.SP

/-- Rotation of a byte by one bit to the left: bit i moves to bit i+1 and bit 7 to bit 0.
It is the reference against which the rotate instructions are stated. -/
def rotl8 (a : Nat) : Nat :=
  (a * 2) % 256 + a / 128

/-- Rotation of a byte by one bit to the right: bit i+1 moves to bit i and bit 0 to bit 7.
It is the reference against which the rotate instructions are stated. -/
def rotr8 (a : Nat) : Nat :=
  a / 2 + (a % 2) * 128

/-! ## Flag byte view

The two accessors of the register file seen as functions of the F byte alone. -/

/-- The bit test of `Registers.GetFlag` on a flag byte. -/
def flagBit (f m : Nat) : Bool :=
  f &&& m != 0

/-- The byte update of `Registers.SetFlag` on a flag byte. -/
def withFlag (f m : Nat) (v : Bool) : Nat :=
  (if v then f ||| m else f &&& (0xFF ^^^ m)) &&& 0xF0

/-! ## Concrete states used to evaluate the code -/

/-- A bus with no cartridge and zeroed RAM, I/O and IE. -/
def Bus.blank : Bus :=
  ⟨none, ⟨fun _ => 0, fun _ => 0⟩, ⟨fun _ => 0⟩, 0⟩

/-- A bus with the given cartridge image connected and zeroed RAM, I/O and IE. -/
def Bus.withCart (rom : Cart) : Bus :=
  ⟨some rom, ⟨fun _ => 0, fun _ => 0⟩, ⟨fun _ => 0⟩, 0⟩

/-- A CPU about to run an operation: the given register file and bus, nothing fetched,
tick counter at 0, not halted. -/
def CPU.ofRegs (r : Registers) (b : Bus) : CPU :=
  ⟨r, b, 0, 0, 0, false⟩

/-- The four flags Z, N, H, C of a register file, in that order. -/
def Registers.flags (r : Registers) : Bool × Bool × Bool × Bool :=
  (r.GetFlag ZERO_FLAG, r.GetFlag SUBTRACTION_FLAG, r.GetFlag HALF_CARRY_FLAG,
    r.GetFlag CARRY_FLAG)

/-! ## Bit-level lemmas -/

theorem or_ne_zero_of_right (x m : Nat) (hm : m ≠ 0) : x ||| m ≠ 0 := by
  intro h
  apply hm
  apply Nat.eq_of_testBit_eq
  intro i
  have := congrArg (fun n => Nat.testBit n i) h
  simp only [Nat.testBit_or, Nat.zero_testBit, Bool.or_eq_false_iff] at this
  simp [this.2]

theorem flag_mask_consts :
    ((240 &&& 128 : Nat) = 128 ∧ (240 &&& 64 : Nat) = 64 ∧ (240 &&& 32 : Nat) = 32 ∧
      (240 &&& 16 : Nat) = 16) ∧
    ((127 &&& 128 : Nat) = 0 ∧ (127 &&& 64 : Nat) = 64 ∧ (127 &&& 32 : Nat) = 32 ∧
      (127 &&& 16 : Nat) = 16) ∧
    ((191 &&& 128 : Nat) = 128 ∧ (191 &&& 64 : Nat) = 0 ∧ (191 &&& 32 : Nat) = 32 ∧
      (191 &&& 16 : Nat) = 16) ∧
    ((223 &&& 128 : Nat) = 128 ∧ (223 &&& 64 : Nat) = 64 ∧ (223 &&& 32 : Nat) = 0 ∧
      (223 &&& 16 : Nat) = 16) ∧
    ((239 &&& 128 : Nat) = 128 ∧ (239 &&& 64 : Nat) = 64 ∧ (239 &&& 32 : Nat) = 32 ∧
      (239 &&& 16 : Nat) = 0) ∧
    ((128 &&& 64 : Nat) = 0 ∧ (128 &&& 32 : Nat) = 0 ∧ (128 &&& 16 : Nat) = 0) ∧
    ((64 &&& 128 : Nat) = 0 ∧ (64 &&& 32 : Nat) = 0 ∧ (64 &&& 16 : Nat) = 0) ∧
    ((32 &&& 128 : Nat) = 0 ∧ (32 &&& 64 : Nat) = 0 ∧ (32 &&& 16 : Nat) = 0) ∧
    ((16 &&& 128 : Nat) = 0 ∧ (16 &&& 64 : Nat) = 0 ∧ (16 &&& 32 : Nat) = 0) := by
  decide

theorem flagBit_withFlag (f m m' : Nat) (v : Bool)
    (hm : m = 0x80 ∨ m = 0x40 ∨ m = 0x20 ∨ m = 0x10)
    (hm' : m' = 0x80 ∨ m' = 0x40 ∨ m' = 0x20 ∨ m' = 0x10) :
    flagBit (withFlag f m v) m' = if m = m' then v else flagBit f m' := by
  unfold flagBit withFlag
  rcases hm with rfl | rfl | rfl | rfl <;> rcases hm' with rfl | rfl | rfl | rfl <;>
    cases v <;>
    simp [Nat.and_assoc, Nat.and_distrib_right, or_ne_zero_of_right, flag_mask_consts]

theorem withFlag_lt (f m : Nat) (v : Bool) : withFlag f m v < 256 :=
  Nat.lt_of_le_of_lt Nat.and_le_right (by decide)

theorem GetFlag_eq (r : Registers) (m : Nat) : r.GetFlag m = flagBit r.F m := rfl

theorem SetFlag_F (r : Registers) (m : Nat) (v : Bool) :
    (r.SetFlag m v).F = withFlag r.F m v := rfl

@[simp] theorem flagBit_withFlag_Z_Z (f : Nat) (v : Bool) :
    flagBit (withFlag f ZERO_FLAG v) ZERO_FLAG = v := by
  rw [flagBit_withFlag f _ _ v (by decide) (by decide)]; rfl

@[simp] theorem flagBit_withFlag_Z_N (f : Nat) (v : Bool) :
    flagBit (withFlag f ZERO_FLAG v) SUBTRACTION_FLAG = flagBit f SUBTRACTION_FLAG := by
  rw [flagBit_withFlag f _ _ v (by decide) (by decide)]; rfl

@[simp] theorem flagBit_withFlag_Z_H (f : Nat) (v : Bool) :
    flagBit (withFlag f ZERO_FLAG v) HALF_CARRY_FLAG = flagBit f HALF_CARRY_FLAG := by
  rw [flagBit_withFlag f _ _ v (by decide) (by decide)]; rfl

@[simp] theorem flagBit_withFlag_Z_C (f : Nat) (v : Bool) :
    flagBit (withFlag f ZERO_FLAG v) CARRY_FLAG = flagBit f CARRY_FLAG := by
  rw [flagBit_withFlag f _ _ v (by decide) (by decide)]; rfl

@[simp] theorem flagBit_withFlag_N_Z (f : Nat) (v : Bool) :
    flagBit (withFlag f SUBTRACTION_FLAG v) ZERO_FLAG = flagBit f ZERO_FLAG := by
  rw [flagBit_withFlag f _ _ v (by decide) (by decide)]; rfl

@[simp] theorem flagBit_withFlag_N_N (f : Nat) (v : Bool) :
    flagBit (withFlag f SUBTRACTION_FLAG v) SUBTRACTION_FLAG = v := by
  rw [flagBit_withFlag f _ _ v (by decide) (by decide)]; rfl

@[simp] theorem flagBit_withFlag_N_H (f : Nat) (v : Bool) :
    flagBit (withFlag f SUBTRACTION_FLAG v) HALF_CARRY_FLAG = flagBit f HALF_CARRY_FLAG := by
  rw [flagBit_withFlag f _ _ v (by decide) (by decide)]; rfl

@[simp] theorem flagBit_withFlag_N_C (f : Nat) (v : Bool) :
    flagBit (withFlag f SUBTRACTION_FLAG v) CARRY_FLAG = flagBit f CARRY_FLAG := by
  rw [flagBit_withFlag f _ _ v (by decide) (by decide)]; rfl

@[simp] theorem flagBit_withFlag_H_Z (f : Nat) (v : Bool) :
    flagBit (withFlag f HALF_CARRY_FLAG v) ZERO_FLAG = flagBit f ZERO_FLAG := by
  rw [flagBit_withFlag f _ _ v (by decide) (by decide)]; rfl

@[simp] theorem flagBit_withFlag_H_N (f : Nat) (v : Bool) :
    flagBit (withFlag f HALF_CARRY_FLAG v) SUBTRACTION_FLAG = flagBit f SUBTRACTION_FLAG := by
  rw [flagBit_withFlag f _ _ v (by decide) (by decide)]; rfl

@[simp] theorem flagBit_withFlag_H_H (f : Nat) (v : Bool) :
    flagBit (withFlag f HALF_CARRY_FLAG v) HALF_CARRY_FLAG = v := by
  rw [flagBit_withFlag f _ _ v (by decide) (by decide)]; rfl

@[simp] theorem flagBit_withFlag_H_C (f : Nat) (v : Bool) :
    flagBit (withFlag f HALF_CARRY_FLAG v) CARRY_FLAG = flagBit f CARRY_FLAG := by
  rw [flagBit_withFlag f _ _ v (by decide) (by decide)]; rfl

@[simp] theorem flagBit_withFlag_C_Z (f : Nat) (v : Bool) :
    flagBit (withFlag f CARRY_FLAG v) ZERO_FLAG = flagBit f ZERO_FLAG := by
  rw [flagBit_withFlag f _ _ v (by decide) (by decide)]; rfl

@[simp] theorem flagBit_withFlag_C_N (f : Nat) (v : Bool) :
    flagBit (withFlag f CARRY_FLAG v) SUBTRACTION_FLAG = flagBit f SUBTRACTION_FLAG := by
  rw [flagBit_withFlag f _ _ v (by decide) (by decide)]; rfl

@[simp] theorem flagBit_withFlag_C_H (f : Nat) (v : Bool) :
    flagBit (withFlag f CARRY_FLAG v) HALF_CARRY_FLAG = flagBit f HALF_CARRY_FLAG := by
  rw [flagBit_withFlag f _ _ v (by decide) (by decide)]; rfl

@[simp] theorem flagBit_withFlag_C_C (f : Nat) (v : Bool) :
    flagBit (withFlag f CARRY_FLAG v) CARRY_FLAG = v := by
  rw [flagBit_withFlag f _ _ v (by decide) (by decide)]; rfl

@[simp] theorem SetFlag_A (r : Registers) (m : Nat) (v : Bool) :
    (r.SetFlag m v).A = r.A := rfl

@[simp] theorem SetFlag_B (r : Registers) (m : Nat) (v : Bool) :
    (r.SetFlag m v).B = r.B := rfl

@[simp] theorem SetFlag_C (r : Registers) (m : Nat) (v : Bool) :
    (r.SetFlag m v).C = r.C := rfl

@[simp] theorem SetFlag_D (r : Registers) (m : Nat) (v : Bool) :
    (r.SetFlag m v).D = r.D := rfl

@[simp] theorem SetFlag_E (r : Registers) (m : Nat) (v : Bool) :
    (r.SetFlag m v).E = r.E := rfl

@[simp] theorem SetFlag_H (r : Registers) (m : Nat) (v : Bool) :
    (r.SetFlag m v).H = r.H := rfl

@[simp] theorem SetFlag_L (r : Registers) (m : Nat) (v : Bool) :
    (r.SetFlag m v).L = r.L := rfl

@[simp] theorem SetFlag_SP (r : Registers) (m : Nat) (v : Bool) :
    (r.SetFlag m v).SP = r.SP := rfl

@[simp] theorem SetFlag_PC (r : Registers) (m : Nat) (v : Bool) :
    (r.SetFlag m v).PC = r.PC := rfl


theorem beq_eq_decide_nat (x y : Nat) : (x == y) = decide (x = y) := by
  by_cases h : x = y <;> simp [h]


/-! ## Nibble and carry arithmetic -/

theorem and_15 (a : Nat) : a &&& 15 = a % 16 :=
  Nat.and_pow_two_sub_one_eq_mod a 4

theorem nibble_add_bit4 : ∀ p < 16, ∀ q < 16, ∀ c < 2,
    (add8 (add8 p q) c &&& 0x10 == 0x10) = decide (p + q + c > 15) := by
  decide

theorem nibble_sub_bit4 : ∀ p < 16, ∀ q < 16, ∀ c < 2,
    (sub8 (sub8 p q) c &&& 0x10 == 0x10) = decide (p < q + c) := by
  decide

theorem add8_zero_right (x : Nat) (hx : x < 256) : add8 x 0 = x := by
  simp [add8, Nat.mod_eq_of_lt hx]

theorem sub8_zero_right (x : Nat) (hx : x < 256) : sub8 x 0 = x := by
  unfold sub8; omega

theorem add8_lt (a b : Nat) : add8 a b < 256 := Nat.mod_lt _ (by decide)

theorem sub8_lt (a b : Nat) : sub8 a b < 256 := Nat.mod_lt _ (by decide)

theorem HalfCarryAdc_eq (a b c : Nat) (hc : c < 2) :
    HalfCarryAdc a b c = decide ((a &&& 0xF) + (b &&& 0xF) + c > 0xF) := by
  have h := nibble_add_bit4 (a % 16) (Nat.mod_lt _ (by decide)) (b % 16)
    (Nat.mod_lt _ (by decide)) c hc
  have e : c % 16 = c := Nat.mod_eq_of_lt (by omega)
  simpa [HalfCarryAdc, and_15, e] using h

theorem HalfCarryAdd_eq (a b : Nat) :
    HalfCarryAdd a b = decide ((a &&& 0xF) + (b &&& 0xF) > 0xF) := by
  have h := nibble_add_bit4 (a % 16) (Nat.mod_lt _ (by decide)) (b % 16)
    (Nat.mod_lt _ (by decide)) 0 (by decide)
  rw [add8_zero_right _ (add8_lt _ _)] at h
  simpa [HalfCarryAdd, and_15] using h

theorem HalfCarrySbc_eq (a b c : Nat) (hc : c < 2) :
    HalfCarrySbc a b c = decide ((a &&& 0xF) < (b &&& 0xF) + c) := by
  have h := nibble_sub_bit4 (a % 16) (Nat.mod_lt _ (by decide)) (b % 16)
    (Nat.mod_lt _ (by decide)) c hc
  have e : c % 16 = c := Nat.mod_eq_of_lt (by omega)
  simpa [HalfCarrySbc, and_15, e] using h

theorem HalfCarrySub_eq (a b : Nat) :
    HalfCarrySub a b = decide ((a &&& 0xF) < (b &&& 0xF)) := by
  have h := nibble_sub_bit4 (a % 16) (Nat.mod_lt _ (by decide)) (b % 16)
    (Nat.mod_lt _ (by decide)) 0 (by decide)
  rw [sub8_zero_right _ (sub8_lt _ _)] at h
  simpa [HalfCarrySub, and_15] using h

theorem FullCarryAdd_eq (a b : Nat) (ha : a < 256) (hb : b < 256) :
    FullCarryAdd a b = decide (a + b > 0xFF) := by
  unfold FullCarryAdd add8
  by_cases h : a + b > 0xFF
  · have : (a + b) % 256 < a := by omega
    simp [h, this]
  · have h1 : ¬ (a + b) % 256 < a := by omega
    have h2 : ¬ (a + b) % 256 < b := by omega
    simp [h, h1, h2]


theorem sub8_cast (a b : Nat) :
    ((sub8 a b : Nat) : Int) = ((a : Int) - (b : Int)) % 256 := by
  unfold sub8
  omega


/-! ## The 8-bit ALU group: ADD, ADC, SUB, SBC, INC, DEC -/

/-- C1: for every opcode 0x80-0x85 (`ADD A,r` with r one of B, C, D, E, H, L holding b)
and every state with A = a, executing the instruction leaves A = (a+b) mod 256,
Z = ((a+b) mod 256 = 0), N = 0, H = ((a & 0xF) + (b & 0xF) > 0xF), C = (a + b > 0xFF),
and changes nothing but A and F. -/
theorem ADD_A_r_spec (op : Nat) (hop : 0x80 ≤ op ∧ op ≤ 0x85) (c : CPU)
    (hwf : c.registers.WF) :
    ∃ c', execute op c = some (c', 0) ∧
      c'.registers.A = (c.registers.A + c.registers.slot (op % 8)) % 256 ∧
      c'.registers.GetFlag ZERO_FLAG =
        decide ((c.registers.A + c.registers.slot (op % 8)) % 256 = 0) ∧
      c'.registers.GetFlag SUBTRACTION_FLAG = false ∧
      c'.registers.GetFlag HALF_CARRY_FLAG =
        decide ((c.registers.A &&& 0xF) + (c.registers.slot (op % 8) &&& 0xF) > 0xF) ∧
      c'.registers.GetFlag CARRY_FLAG =
        decide (c.registers.A + c.registers.slot (op % 8) > 0xFF) ∧
      c' = { c with registers :=
              { c.registers with A := c'.registers.A, F := c'.registers.F } } := by
  obtain ⟨hA, _, hB, hC, hD, hE, hH, hL, _, _⟩ := hwf
  obtain ⟨h1, h2⟩ := hop
  interval_cases op
  all_goals
    refine ⟨_, rfl, ?_⟩
    simp [CPU.SetAddFlags, CPU.withRegs, Registers.slot, add8, HalfCarryAdd_eq,
      FullCarryAdd_eq, GetFlag_eq, SetFlag_F, beq_eq_decide_nat, *]

/-- C1, at the half-carry scenario `3E 0F 06 01 80`: with A = 0x0F and B = 0x01,
`ADD A,B` gives A = 0x10 with H = 1 and Z = N = C = 0. -/
theorem ADD_A_r_spec_witness :
    ((0x80 ≤ 0x80 ∧ 0x80 ≤ 0x85) ∧
      (CPU.ofRegs ⟨0x0F, 0xB0, 0x01, 0x13, 0x00, 0xD8, 0x01, 0x4D, 0xFFFE, 0x0105⟩
        Bus.blank).registers.WF) ∧
    ∃ c', execute 0x80 (CPU.ofRegs ⟨0x0F, 0xB0, 0x01, 0x13, 0x00, 0xD8, 0x01, 0x4D, 0xFFFE,
        0x0105⟩ Bus.blank) = some (c', 0) ∧
      c'.registers.A = 0x10 ∧
      c'.registers.GetFlag ZERO_FLAG = false ∧
      c'.registers.GetFlag SUBTRACTION_FLAG = false ∧
      c'.registers.GetFlag HALF_CARRY_FLAG = true ∧
      c'.registers.GetFlag CARRY_FLAG = false := by
  refine ⟨⟨by decide, by decide⟩, ?_⟩
  obtain ⟨c', h, hA, hZ, hN, hH, hC, _⟩ :=
    ADD_A_r_spec 0x80 (by decide)
      (CPU.ofRegs ⟨0x0F, 0xB0, 0x01, 0x13, 0x00, 0xD8, 0x01, 0x4D, 0xFFFE, 0x0105⟩ Bus.blank)
      (by decide)
  exact ⟨c', h, hA.trans (by decide), hZ.trans (by decide), hN, hH.trans (by decide),
    hC.trans (by decide)⟩

/-- C2: `SUB A,B` (opcode 0x90) evaluated at the borrow scenario `3E 10 06 01 90`, A = 0x10
and B = 0x01. The code leaves A = 0x0F with Z = 0, N = 1, H = 1, and `FullCarrySub` sets
the carry flag although b > a does not hold; the sibling `SetCpFlags` computes `b > a`. -/
theorem SUB_A_B_carry_defect :
    (execute 0x90 (CPU.ofRegs ⟨0x10, 0x00, 0x01, 0, 0, 0, 0, 0, 0xFFFE, 0x0105⟩ Bus.blank)).map
        (fun p => (p.1.registers.A, p.1.registers.flags, p.2)) =
      some (0x0F, (false, true, true, true), 0) ∧
    FullCarrySub 0x10 0x01 = true ∧ ¬ (0x01 > 0x10) := by
  decide

/-- C3: `ADC A,B` (opcode 0x88) evaluated at A = 0xFF, B = 0xFF with the carry flag set.
The unsigned sum 0xFF + 0xFF + 1 is at least 0x100, yet `FullCarryAdc` returns false and
the carry flag is left clear. -/
theorem ADC_A_B_carry_defect :
    (execute 0x88 (CPU.ofRegs ⟨0xFF, 0x10, 0xFF, 0, 0, 0, 0, 0, 0xFFFE, 0x0105⟩ Bus.blank)).map
        (fun p => (p.1.registers.A, p.1.registers.flags, p.2)) =
      some (0xFF, (false, false, true, false), 0) ∧
    FullCarryAdc 0xFF 0xFF 1 = false ∧ 0xFF + 0xFF + 1 ≥ 0x100 := by
  decide

/-- C4: `SBC A,B` (opcode 0x98) evaluated at A = 0x05, B = 0x03 with the carry flag set.
The entry computes `A -= B - carry`, so A becomes 0x03, while (a - b - cin) mod 256 is
0x01; the sibling `SBC A,(HL)` computes `A -= (val + carry)`. -/
theorem SBC_A_B_result_defect :
    (execute 0x98 (CPU.ofRegs ⟨0x05, 0x10, 0x03, 0, 0, 0, 0, 0, 0xFFFE, 0x0105⟩ Bus.blank)).map
        (fun p => (p.1.registers.A, p.1.registers.flags, p.2)) =
      some (0x03, (false, true, false, false), 0) ∧
    ((0x05 : Int) - 0x03 - 1) % 256 = 0x01 := by
  decide

/-- C5: `SBC A,B` (opcode 0x98) evaluated at A = 0x00, B = 0xFF with the carry flag set.
The integer sum b + cin = 0x100 exceeds a, yet `FullCarrySbc` adds in `uint8`, the sum wraps
to 0, and the carry flag is left clear. -/
theorem SBC_A_B_carry_defect :
    (execute 0x98 (CPU.ofRegs ⟨0x00, 0x10, 0xFF, 0, 0, 0, 0, 0, 0xFFFE, 0x0105⟩ Bus.blank)).map
        (fun p => (p.1.registers.flags, p.2)) =
      some ((true, true, true, false), 0) ∧
    FullCarrySbc 0x00 0xFF 1 = false ∧ 0xFF + 1 > 0x00 := by
  decide

/-- C6: `SBC A,A` (opcode 0x9F) evaluated at A = 0x42. With the carry flag set the code
leaves A = 0x01 (not 0xFF); with the carry flag clear it leaves A = 0 with Z = 1 but N = 0
(not 1), because the closing `SetFlag` writes the old carry into the subtraction flag. -/
theorem SBC_A_A_defect :
    (execute 0x9F (CPU.ofRegs ⟨0x42, 0x10, 0, 0, 0, 0, 0, 0, 0xFFFE, 0x0105⟩ Bus.blank)).map
        (fun p => (p.1.registers.A, p.1.registers.flags, p.2)) =
      some (0x01, (false, true, true, true), 0) ∧
    (execute 0x9F (CPU.ofRegs ⟨0x42, 0x00, 0, 0, 0, 0, 0, 0, 0xFFFE, 0x0105⟩ Bus.blank)).map
        (fun p => (p.1.registers.A, p.1.registers.flags, p.2)) =
      some (0x00, (true, false, false, false), 0) :=
  ⟨by decide, by decide⟩

/-- C7: `SUB A,(HL)` (opcode 0x96) evaluated at A = 0x05, HL = 0x0001 and the byte 0x03
stored there (in the cartridge image). The entry computes `A -= a - val`, so A becomes 0x03
(the value read), while (a - val) mod 256 is 0x02; Z and N are the ones of the canonical
result. -/
theorem SUB_A_atHL_defect :
    (execute 0x96 (CPU.ofRegs ⟨0x05, 0x00, 0, 0, 0, 0, 0x00, 0x01, 0xFFFE, 0x0105⟩
        (Bus.withCart [0x00, 0x03]))).map
        (fun p => (p.1.registers.A, p.1.registers.flags, p.2)) =
      some (0x03, (false, true, false, false), 0) ∧
    (Bus.withCart [0x00, 0x03]).Read 0x0001 = some 0x03 ∧
    ((0x05 : Int) - 0x03) % 256 = 0x02 := by
  decide

/-- C8: for all a, b and every carry-in cin in {0,1}, the four half-carry helpers are the
nibble predicates: `HalfCarryAdd` iff (a&0xF)+(b&0xF) > 0xF, `HalfCarryAdc` iff
(a&0xF)+(b&0xF)+cin > 0xF, `HalfCarrySub` iff (a&0xF) < (b&0xF), `HalfCarrySbc` iff
(a&0xF) < (b&0xF)+cin. -/
theorem halfCarry_helpers_spec (a b cin : Nat) (hc : cin ≤ 1) :
    (HalfCarryAdd a b = true ↔ (a &&& 0xF) + (b &&& 0xF) > 0xF) ∧
    (HalfCarryAdc a b cin = true ↔ (a &&& 0xF) + (b &&& 0xF) + cin > 0xF) ∧
    (HalfCarrySub a b = true ↔ (a &&& 0xF) < (b &&& 0xF)) ∧
    (HalfCarrySbc a b cin = true ↔ (a &&& 0xF) < (b &&& 0xF) + cin) := by
  have hc2 : cin < 2 := by omega
  rw [HalfCarryAdd_eq, HalfCarryAdc_eq a b cin hc2, HalfCarrySub_eq,
    HalfCarrySbc_eq a b cin hc2]
  simp

/-- C8, at a = 0x0F, b = 0x01 with carry-in 1. -/
theorem halfCarry_helpers_spec_witness :
    (1 ≤ 1) ∧
    (HalfCarryAdd 0x0F 0x01 = true ↔ (0x0F &&& 0xF) + (0x01 &&& 0xF) > 0xF) ∧
    (HalfCarryAdc 0x0F 0x01 1 = true ↔ (0x0F &&& 0xF) + (0x01 &&& 0xF) + 1 > 0xF) ∧
    (HalfCarrySub 0x0F 0x01 = true ↔ (0x0F &&& 0xF) < (0x01 &&& 0xF)) ∧
    (HalfCarrySbc 0x0F 0x01 1 = true ↔ (0x0F &&& 0xF) < (0x01 &&& 0xF) + 1) :=
  ⟨by decide, halfCarry_helpers_spec 0x0F 0x01 1 (by decide)⟩

/-- C9: `INC B` (opcode 0x04) evaluated at B = 0xFF, A = 0x00. The entry reads and
increments A instead of B: B stays 0xFF, A becomes 0x01, and Z and H stay clear, while
INC on 0xFF should wrap B to 0 and set Z and H. -/
theorem INC_B_defect :
    (execute 0x04 (CPU.ofRegs ⟨0x00, 0x00, 0xFF, 0, 0, 0, 0, 0, 0xFFFE, 0x0105⟩ Bus.blank)).map
        (fun p => (p.1.registers, p.1.registers.flags, p.2)) =
      some (⟨0x01, 0x00, 0xFF, 0, 0, 0, 0, 0, 0xFFFE, 0x0105⟩, (false, false, false, false), 0) ∧
    (0xFF + 1) % 256 = 0 := by
  decide

/-- C10: for every opcode 0x05, 0x0D, 0x15, 0x1D, 0x25, 0x2D, 0x3D (`DEC r` with r the
register in slot opcode/8, holding v) and every state, executing the instruction leaves
r = (v-1) mod 256, Z set iff the new r is 0, N = 1, H set iff (v & 0xF) = 0, C unchanged,
and changes nothing but r and F. -/
theorem DEC_r_spec (op : Nat) (hop : op ∈ [0x05, 0x0D, 0x15, 0x1D, 0x25, 0x2D, 0x3D])
    (c : CPU) :
    ∃ c', execute op c = some (c', 0) ∧
      ((c'.registers.slot (op / 8) : Nat) : Int) =
        ((c.registers.slot (op / 8) : Nat) - 1 : Int) % 256 ∧
      c'.registers.GetFlag ZERO_FLAG = decide (c'.registers.slot (op / 8) = 0) ∧
      c'.registers.GetFlag SUBTRACTION_FLAG = true ∧
      c'.registers.GetFlag HALF_CARRY_FLAG = decide (c.registers.slot (op / 8) &&& 0xF = 0) ∧
      c'.registers.GetFlag CARRY_FLAG = c.registers.GetFlag CARRY_FLAG ∧
      c' = { c with registers :=
              { c.registers.setSlot (op / 8) (c'.registers.slot (op / 8)) with
                F := c'.registers.F } } := by
  simp only [List.mem_cons, List.mem_singleton, List.not_mem_nil, or_false] at hop
  rcases hop with rfl | rfl | rfl | rfl | rfl | rfl | rfl
  all_goals
    refine ⟨_, rfl, ?_⟩
    simp [CPU.SetDecRegFlags, CPU.withRegs, Registers.slot, Registers.setSlot, GetFlag_eq,
      SetFlag_F, beq_eq_decide_nat, sub8_cast]

/-- C10, at the boundary: `DEC B` (opcode 0x05) on B = 0x00 wraps to 0xFF with N = 1,
H = 1, Z = 0 and the carry flag kept. -/
theorem DEC_r_spec_witness :
    (0x05 ∈ [0x05, 0x0D, 0x15, 0x1D, 0x25, 0x2D, 0x3D]) ∧
    ∃ c', execute 0x05 (CPU.ofRegs ⟨0x01, 0x10, 0x00, 0x13, 0x00, 0xD8, 0x01, 0x4D, 0xFFFE,
        0x0105⟩ Bus.blank) = some (c', 0) ∧
      c'.registers.B = 0xFF ∧
      c'.registers.GetFlag ZERO_FLAG = false ∧
      c'.registers.GetFlag SUBTRACTION_FLAG = true ∧
      c'.registers.GetFlag HALF_CARRY_FLAG = true ∧
      c'.registers.GetFlag CARRY_FLAG = true := by
  refine ⟨by decide, ?_⟩
  obtain ⟨c', h, hB, hZ, hN, hH, hC, _⟩ :=
    DEC_r_spec 0x05 (by decide)
      (CPU.ofRegs ⟨0x01, 0x10, 0x00, 0x13, 0x00, 0xD8, 0x01, 0x4D, 0xFFFE, 0x0105⟩ Bus.blank)
  have hB' : c'.registers.B = 0xFF := by
    have : ((c'.registers.B : Nat) : Int) = 255 := hB.trans (by decide)
    exact_mod_cast this
  refine ⟨c', h, hB', ?_, hN, hH.trans (by decide), hC.trans (by decide)⟩
  rw [hZ]
  show decide (c'.registers.B = 0) = false
  rw [hB']
  decide


/-! ## The remaining instances of the defective helpers and entries -/

/-- Away from a = b = 0xFF with carry-in 1, `FullCarryAdc` is the carry out of the unsigned
sum a + b + cin. -/
theorem FullCarryAdc_eq_of_ne (a b cin : Nat) (ha : a < 256) (hb : b < 256) (hc : cin ≤ 1)
    (hne : ¬ (a = 0xFF ∧ b = 0xFF ∧ cin = 1)) :
    FullCarryAdc a b cin = decide (a + b + cin ≥ 0x100) := by
  unfold FullCarryAdc add8
  rw [Bool.eq_iff_iff]
  simp only [Bool.or_eq_true, decide_eq_true_eq]
  omega

/-- For the six opcodes 0x0C, 0x14, 0x1C, 0x24, 0x2C, 0x3C (`INC r` with r one of C, D, E,
H, L, A, holding v), the instruction leaves r = (v+1) mod 256, Z set iff the new r is 0,
N = 0, H set iff (v & 0xF) = 0xF, C unchanged, and changes nothing but r and F. -/
theorem INC_r_spec_of_ne_B (op : Nat) (hop : op ∈ [0x0C, 0x14, 0x1C, 0x24, 0x2C, 0x3C])
    (c : CPU) :
    ∃ c', execute op c = some (c', 0) ∧
      c'.registers.slot (op / 8) = (c.registers.slot (op / 8) + 1) % 256 ∧
      c'.registers.GetFlag ZERO_FLAG = decide (c'.registers.slot (op / 8) = 0) ∧
      c'.registers.GetFlag SUBTRACTION_FLAG = false ∧
      c'.registers.GetFlag HALF_CARRY_FLAG =
        decide (c.registers.slot (op / 8) &&& 0xF = 0xF) ∧
      c'.registers.GetFlag CARRY_FLAG = c.registers.GetFlag CARRY_FLAG ∧
      c' = { c with registers :=
              { c.registers.setSlot (op / 8) (c'.registers.slot (op / 8)) with
                F := c'.registers.F } } := by
  simp only [List.mem_cons, List.mem_singleton, List.not_mem_nil, or_false] at hop
  rcases hop with rfl | rfl | rfl | rfl | rfl | rfl
  all_goals
    refine ⟨_, rfl, ?_⟩
    simp [CPU.SetIncRegFlags, CPU.withRegs, Registers.slot, Registers.setSlot, GetFlag_eq,
      SetFlag_F, beq_eq_decide_nat, add8]


/-! ## Pairs and 16-bit arithmetic -/

theorem pair_join (h l : Nat) (hl : l < 256) : (h <<< 8) ||| l = h * 256 + l := by
  have := Nat.mul_add_lt_is_or (show l < 2 ^ 8 from hl) h
  rw [Nat.shiftLeft_eq, Nat.mul_comm]
  exact this.symm

theorem and_two_pow_eq (x n : Nat) :
    x &&& 2 ^ n = if x / 2 ^ n % 2 = 1 then 2 ^ n else 0 := by
  apply Nat.eq_of_testBit_eq
  intro i
  rw [Nat.testBit_and, Nat.testBit_two_pow]
  by_cases h : n = i
  · subst h
    by_cases hb : x / 2 ^ n % 2 = 1
    · simp [hb, Nat.testBit_to_div_mod, Nat.testBit_two_pow_self]
    · simp [hb, Nat.testBit_to_div_mod]
  · by_cases hb : x / 2 ^ n % 2 = 1
    · simp [hb, h, Nat.testBit_two_pow]
    · simp [hb, h]

theorem and_4096 (x : Nat) : x &&& 4096 = if x / 4096 % 2 = 1 then 4096 else 0 :=
  and_two_pow_eq x 12

theorem HalfCarryAdd16_eq (a b : Nat) :
    HalfCarryAdd16 a b = decide ((a &&& 0x0FFF) + (b &&& 0x0FFF) > 0x0FFF) := by
  have ha : a &&& 0x0FFF = a % 4096 := Nat.and_pow_two_sub_one_eq_mod a 12
  have hb : b &&& 0x0FFF = b % 4096 := Nat.and_pow_two_sub_one_eq_mod b 12
  unfold HalfCarryAdd16
  rw [ha, hb, and_4096, Bool.eq_iff_iff]
  unfold add16
  simp only [beq_iff_eq, decide_eq_true_eq]
  split <;> omega

theorem FullCarryAdd16_eq (a b : Nat) (ha : a < 65536) (hb : b < 65536) :
    FullCarryAdd16 a b = decide (a + b > 0xFFFF) := by
  unfold FullCarryAdd16 add16
  rw [Bool.eq_iff_iff]
  simp only [Bool.or_eq_true, decide_eq_true_eq]
  omega

theorem GetBC_eq (r : Registers) (h : r.C < 256) : r.GetBC = r.B * 256 + r.C :=
  pair_join _ _ h

theorem GetDE_eq (r : Registers) (h : r.E < 256) : r.GetDE = r.D * 256 + r.E :=
  pair_join _ _ h

theorem GetHL_eq (r : Registers) (h : r.L < 256) : r.GetHL = r.H * 256 + r.L :=
  pair_join _ _ h

theorem pair_split (v : Nat) (hv : v < 65536) :
    (((v >>> 8) % 256) <<< 8) ||| (v % 256) = v := by
  rw [pair_join _ _ (Nat.mod_lt _ (by decide)), Nat.shiftRight_eq_div_pow]
  norm_num
  omega

theorem add16_lt (a b : Nat) : add16 a b < 65536 := Nat.mod_lt _ (by decide)

theorem sub16_lt (a b : Nat) : sub16 a b < 65536 := Nat.mod_lt _ (by decide)

theorem pair_lt (h l : Nat) (hh : h < 256) (hl : l < 256) : (h <<< 8) ||| l < 65536 := by
  rw [pair_join h l hl]; omega

@[simp] theorem SetFlag_GetBC (r : Registers) (m : Nat) (v : Bool) :
    (r.SetFlag m v).GetBC = r.GetBC := rfl

@[simp] theorem SetFlag_GetDE (r : Registers) (m : Nat) (v : Bool) :
    (r.SetFlag m v).GetDE = r.GetDE := rfl

@[simp] theorem SetFlag_GetHL (r : Registers) (m : Nat) (v : Bool) :
    (r.SetFlag m v).GetHL = r.GetHL := rfl

@[simp] theorem SetHL_F (r : Registers) (v : Nat) : (r.SetHL v).F = r.F := rfl

@[simp] theorem SetBC_F (r : Registers) (v : Nat) : (r.SetBC v).F = r.F := rfl

@[simp] theorem SetDE_F (r : Registers) (v : Nat) : (r.SetDE v).F = r.F := rfl

theorem GetHL_SetHL (r : Registers) (v : Nat) (hv : v < 65536) : (r.SetHL v).GetHL = v :=
  pair_split v hv

theorem GetBC_SetBC (r : Registers) (v : Nat) (hv : v < 65536) : (r.SetBC v).GetBC = v :=
  pair_split v hv

theorem GetDE_SetDE (r : Registers) (v : Nat) (hv : v < 65536) : (r.SetDE v).GetDE = v :=
  pair_split v hv

/-- C12: for every opcode 0x09, 0x19, 0x29, 0x39 (`ADD HL,rr` with rr the pair BC, DE, HL, SP
selected by opcode/16, holding b) and every state with HL = a, executing the instruction
leaves HL = (a+b) mod 2^16, N = 0, H = ((a & 0x0FFF) + (b & 0x0FFF) > 0x0FFF),
C = (a + b > 0xFFFF), and Z unchanged. -/
theorem ADD_HL_rr_spec (op : Nat) (hop : op ∈ [0x09, 0x19, 0x29, 0x39]) (c : CPU)
    (hwf : c.registers.WF) :
    ∃ c', execute op c = some (c', 0) ∧
      c'.registers.GetHL = (c.registers.GetHL + c.registers.pair (op / 16)) % 65536 ∧
      c'.registers.GetFlag SUBTRACTION_FLAG = false ∧
      c'.registers.GetFlag HALF_CARRY_FLAG =
        decide ((c.registers.GetHL &&& 0x0FFF) + (c.registers.pair (op / 16) &&& 0x0FFF)
          > 0x0FFF) ∧
      c'.registers.GetFlag CARRY_FLAG =
        decide (c.registers.GetHL + c.registers.pair (op / 16) > 0xFFFF) ∧
      c'.registers.GetFlag ZERO_FLAG = c.registers.GetFlag ZERO_FLAG := by
  obtain ⟨_, _, hB, hC, hD, hE, hH, hL, hSP, _⟩ := hwf
  have hbc : c.registers.GetBC < 65536 := pair_lt _ _ hB hC
  have hde : c.registers.GetDE < 65536 := pair_lt _ _ hD hE
  have hhl : c.registers.GetHL < 65536 := pair_lt _ _ hH hL
  simp only [List.mem_cons, List.mem_singleton, List.not_mem_nil, or_false] at hop
  rcases hop with rfl | rfl | rfl | rfl
  all_goals
    refine ⟨_, rfl, ?_⟩
    simp [CPU.SetAddFlags16, CPU.withRegs, CPU.cpuCycles, Registers.pair, GetFlag_eq,
      SetFlag_F, GetHL_SetHL, add16_lt, HalfCarryAdd16_eq, FullCarryAdd16_eq, *]
    simp [add16]


/-! ## The rotates on A: RLCA, RRCA, RLA, RRA -/

set_option maxRecDepth 100000 in
theorem rotl8_testBit : ∀ a < 256, ∀ i < 8,
    (rotl8 a).testBit ((i + 1) % 8) = a.testBit i ∧ rotl8 a < 256 := by
  decide

set_option maxRecDepth 100000 in
theorem rotr8_testBit : ∀ a < 256, ∀ i < 8,
    (rotr8 a).testBit i = a.testBit ((i + 1) % 8) ∧ rotr8 a < 256 := by
  decide

set_option maxRecDepth 100000 in
theorem rot_left_byte : ∀ a < 256,
    ((a <<< 1) % 256) ||| (a >>> 7) = rotl8 a ∧ decide (a >>> 7 = 1) = a.testBit 7 ∧
      a >>> 7 ≤ 1 := by
  decide

set_option maxRecDepth 100000 in
theorem rot_right_byte : ∀ a < 256,
    (a >>> 1) ||| ((a <<< 7) % 256) = rotr8 a ∧ decide (a &&& 1 = 1) = a.testBit 0 ∧
      a &&& 1 ≤ 1 := by
  decide

set_option maxRecDepth 100000 in
theorem rot_left_carry_byte : ∀ a < 256, ∀ cin < 2,
    ((a <<< 1) % 256) ||| cin = ((a <<< 1) ||| cin) % 256 := by
  decide

theorem setCarryFromBit_eq (c : CPU) (b : Nat) (hb : b ≤ 1) :
    c.setCarryFromBit b = c.withRegs (·.SetFlag CARRY_FLAG (decide (b = 1))) := by
  unfold CPU.setCarryFromBit
  have : b = 0 ∨ b = 1 := by omega
  rcases this with rfl | rfl <;> simp

/-- C14: for every state with A = a and carry-in cin, RLCA (0x07) leaves A = a rotated left by
one bit and C = bit 7 of a; RRCA (0x0F) leaves A = a rotated right by one bit and C = bit 0 of
a; RLA (0x17) leaves A = ((a << 1) | cin) mod 256 and C = bit 7 of a; RRA (0x1F) leaves
A = (a >> 1) | (cin << 7) and C = bit 0 of a; all four force Z = 0, N = 0, H = 0, whatever
the resulting A. -/
theorem rotates_on_A_spec (c : CPU) (hwf : c.registers.WF) :
    (∃ c', execute 0x07 c = some (c', 0) ∧
      c'.registers.A = rotl8 c.registers.A ∧
      c'.registers.GetFlag CARRY_FLAG = c.registers.A.testBit 7 ∧
      c'.registers.GetFlag ZERO_FLAG = false ∧
      c'.registers.GetFlag SUBTRACTION_FLAG = false ∧
      c'.registers.GetFlag HALF_CARRY_FLAG = false) ∧
    (∃ c', execute 0x0F c = some (c', 0) ∧
      c'.registers.A = rotr8 c.registers.A ∧
      c'.registers.GetFlag CARRY_FLAG = c.registers.A.testBit 0 ∧
      c'.registers.GetFlag ZERO_FLAG = false ∧
      c'.registers.GetFlag SUBTRACTION_FLAG = false ∧
      c'.registers.GetFlag HALF_CARRY_FLAG = false) ∧
    (∃ c', execute 0x17 c = some (c', 0) ∧
      c'.registers.A =
        ((c.registers.A <<< 1) ||| (if c.registers.GetFlag CARRY_FLAG then 1 else 0)) % 256 ∧
      c'.registers.GetFlag CARRY_FLAG = c.registers.A.testBit 7 ∧
      c'.registers.GetFlag ZERO_FLAG = false ∧
      c'.registers.GetFlag SUBTRACTION_FLAG = false ∧
      c'.registers.GetFlag HALF_CARRY_FLAG = false) ∧
    (∃ c', execute 0x1F c = some (c', 0) ∧
      c'.registers.A =
        (c.registers.A >>> 1) ||| ((if c.registers.GetFlag CARRY_FLAG then 1 else 0) <<< 7) ∧
      c'.registers.GetFlag CARRY_FLAG = c.registers.A.testBit 0 ∧
      c'.registers.GetFlag ZERO_FLAG = false ∧
      c'.registers.GetFlag SUBTRACTION_FLAG = false ∧
      c'.registers.GetFlag HALF_CARRY_FLAG = false) := by
  obtain ⟨hA, _⟩ := hwf
  obtain ⟨hl1, hl2, hl3⟩ := rot_left_byte _ hA
  obtain ⟨hr1, hr2, hr3⟩ := rot_right_byte _ hA
  rw [Nat.and_one_is_mod] at hr2 hr3
  refine ⟨⟨_, rfl, ?_⟩, ⟨_, rfl, ?_⟩, ⟨_, rfl, ?_⟩, ⟨_, rfl, ?_⟩⟩
  · simp [CPU.SetRotateFlags, setCarryFromBit_eq _ _ hl3, CPU.withRegs, GetFlag_eq, SetFlag_F,
      hl1, hl2]
  · simp [CPU.SetRotateFlags, setCarryFromBit_eq _ _ hr3, CPU.withRegs, GetFlag_eq, SetFlag_F,
      hr1]
  · have hc := rot_left_carry_byte _ hA
    simp [CPU.SetRotateFlags, setCarryFromBit_eq _ _ hl3, CPU.withRegs, GetFlag_eq, SetFlag_F,
      hl2]
    split
    · exact hc 1 (by decide)
    · exact hc 0 (by decide)
  · simp [CPU.SetRotateFlags, setCarryFromBit_eq _ _ hr3, CPU.withRegs, GetFlag_eq, SetFlag_F]
    split <;> rfl


theorem shr4_and15 (k : Nat) : (k >>> 4) &&& 15 = k / 16 % 16 := by
  rw [Nat.shiftRight_eq_div_pow]
  exact Nat.and_pow_two_sub_one_eq_mod _ 4

theorem CB_bit_rows (c : CPU) (k : Nat) (hk : 0x40 ≤ k ∧ k ≤ 0x7F) :
    CB { c with fetched := k } =
      if k % 8 = 6 then CPU.cbBitMem { c with fetched := k } (k / 8 % 8)
      else CPU.cbBitReg { c with fetched := k } (k % 16) (k / 8 % 8) := by
  obtain ⟨hk1, hk2⟩ := hk
  have h1 : (k >>> 4) &&& 0x000F = k / 16 := by rw [shr4_and15]; omega
  have h2 : k &&& 0x000F = k % 16 := and_15 k
  have hrow : k / 16 = 4 ∨ k / 16 = 5 ∨ k / 16 = 6 ∨ k / 16 = 7 := by omega
  unfold CB
  simp only [h1, h2]
  rcases hrow with h | h | h | h <;> simp only [h] <;> split_ifs <;>
    first
    | omega
    | (have hb : k / 8 % 8 = 0 := by omega
       rw [hb])
    | (have hb : k / 8 % 8 = 1 := by omega
       rw [hb])
    | (have hb : k / 8 % 8 = 2 := by omega
       rw [hb])
    | (have hb : k / 8 % 8 = 3 := by omega
       rw [hb])
    | (have hb : k / 8 % 8 = 4 := by omega
       rw [hb])
    | (have hb : k / 8 % 8 = 5 := by omega
       rw [hb])
    | (have hb : k / 8 % 8 = 6 := by omega
       rw [hb])
    | (have hb : k / 8 % 8 = 7 := by omega
       rw [hb])

theorem load_CBLookUp (c : CPU) (r : Registers) (n : Nat) (hn : n < 16) (h6 : n % 8 ≠ 6) :
    r.load (c.CBLookUp (u8 n)) = r.slot (n % 8) := by
  interval_cases n <;> first | rfl | exact absurd rfl h6

theorem bitValueLoop_eq : ∀ b < 8, bitValueLoop b 1 = 2 ^ b := by
  decide

theorem and_two_pow_beq_zero (v b : Nat) : (v &&& 2 ^ b == 0) = !(v.testBit b) := by
  rw [and_two_pow_eq, Nat.testBit_to_div_mod]
  have hp : 2 ^ b ≠ 0 := by positivity
  by_cases h : v / 2 ^ b % 2 = 1 <;> simp [h, hp]

theorem shr3_and7 (k : Nat) : (k >>> 3) &&& 7 = k / 8 % 8 := by
  rw [Nat.shiftRight_eq_div_pow]
  exact Nat.and_pow_two_sub_one_eq_mod _ 3

/-- C18: for every CB sub-opcode k in 0x40-0x7F (`BIT b,r` with b = (k >> 3) & 7) and every
state whose operand (the register in slot k mod 8, or the byte read at HL when that slot is
6) is val, the operation sets Z to the complement of bit b of val, N = 0, H = 1, leaves C
unchanged, changes no register but F and leaves the bus unchanged; it returns 2 for a
register operand and 1 for (HL). -/
theorem CB_BIT_spec (c : CPU) (k val : Nat) (hk : 0x40 ≤ k ∧ k ≤ 0x7F)
    (hop : if k % 8 = 6 then c.bus.Read c.registers.GetHL = some val
      else c.registers.slot (k % 8) = val) :
    ∃ c', CB { c with fetched := k } = some (c', if k % 8 = 6 then 1 else 2) ∧
      c'.registers.GetFlag ZERO_FLAG = !(val.testBit ((k >>> 3) &&& 7)) ∧
      c'.registers.GetFlag SUBTRACTION_FLAG = false ∧
      c'.registers.GetFlag HALF_CARRY_FLAG = true ∧
      c'.registers.GetFlag CARRY_FLAG = c.registers.GetFlag CARRY_FLAG ∧
      c'.registers = { c.registers with F := c'.registers.F } ∧
      c'.bus = c.bus := by
  have hb : k / 8 % 8 < 8 := by omega
  rw [CB_bit_rows c k hk, shr3_and7]
  by_cases h6 : k % 8 = 6
  · rw [if_pos h6] at hop
    simp only [h6, if_true]
    refine ⟨(CPU.cpuCycles { c with fetched := k } 1).SetBitFlags val (k / 8 % 8), ?_, ?_⟩
    · simp [CPU.cbBitMem, CPU.cpuCycles, hop]
    · simp [CPU.SetBitFlags, CPU.withRegs, CPU.cpuCycles, GetFlag_eq, SetFlag_F,
        bitValueLoop_eq _ hb, and_two_pow_beq_zero]
      rfl
  · rw [if_neg h6] at hop
    simp only [h6, if_false]
    have hl := load_CBLookUp { c with fetched := k } c.registers (k % 16)
      (by omega) (by omega)
    have hm : k % 16 % 8 = k % 8 := by omega
    rw [hm, hop] at hl
    refine ⟨_, rfl, ?_⟩
    simp [CPU.SetBitFlags, CPU.withRegs, GetFlag_eq, SetFlag_F, bitValueLoop_eq _ hb,
      and_two_pow_beq_zero, hl]
    rfl

theorem CB_row0 (c : CPU) (k : Nat) (hk : k < 16) :
    CB { c with fetched := k } =
      if k < 8 then
        if k ≠ 6 then
          CPU.cbReg { c with fetched := k } k (fun c v => c.SetCBRotateFlags v "L" false)
        else CPU.cbMem { c with fetched := k } (fun c v => c.SetCBRotateFlags v "L" false)
      else
        if k ≠ 14 then
          CPU.cbReg { c with fetched := k } k (fun c v => c.SetCBRotateFlags v "R" false)
        else CPU.cbMem { c with fetched := k } (fun c v => c.SetCBRotateFlags v "R" false) := by
  have h1 : (k >>> 4) &&& 0x000F = 0 := by rw [shr4_and15]; omega
  have h2 : k &&& 0x000F = k := by rw [and_15]; omega
  unfold CB
  simp only [h1, h2]

theorem CB_res_rows (c : CPU) (k : Nat) (hk : 0x80 ≤ k ∧ k ≤ 0xBF) :
    CB { c with fetched := k } =
      if k % 8 = 6 then
        CPU.cbMem { c with fetched := k } (fun c v => (c, c.SetBit v (k / 8 % 8) false))
      else
        CPU.cbReg { c with fetched := k } (k % 16)
          (fun c v => (c, c.SetBit v (k / 8 % 8) false)) := by
  obtain ⟨hk1, hk2⟩ := hk
  have h1 : (k >>> 4) &&& 0x000F = k / 16 := by rw [shr4_and15]; omega
  have h2 : k &&& 0x000F = k % 16 := and_15 k
  have hrow : k / 16 = 8 ∨ k / 16 = 9 ∨ k / 16 = 10 ∨ k / 16 = 11 := by omega
  unfold CB
  simp only [h1, h2]
  rcases hrow with h | h | h | h <;> simp only [h] <;> split_ifs <;>
    first
    | omega
    | (have hb : k / 8 % 8 = 0 := by omega
       rw [hb])
    | (have hb : k / 8 % 8 = 1 := by omega
       rw [hb])
    | (have hb : k / 8 % 8 = 2 := by omega
       rw [hb])
    | (have hb : k / 8 % 8 = 3 := by omega
       rw [hb])
    | (have hb : k / 8 % 8 = 4 := by omega
       rw [hb])
    | (have hb : k / 8 % 8 = 5 := by omega
       rw [hb])
    | (have hb : k / 8 % 8 = 6 := by omega
       rw [hb])
    | (have hb : k / 8 % 8 = 7 := by omega
       rw [hb])

theorem store_CBLookUp (c : CPU) (r : Registers) (n v : Nat) (hn : n < 16) (h6 : n % 8 ≠ 6) :
    r.store (c.CBLookUp (u8 n)) v = r.setSlot (n % 8) v := by
  interval_cases n <;> first | rfl | exact absurd rfl h6

theorem cbReg_eq (c : CPU) (n : Nat) (f : CPU → Nat → CPU × Nat) (hn : n < 16)
    (h6 : n % 8 ≠ 6) :
    c.cbReg n f =
      some ((f c (c.registers.slot (n % 8))).1.withRegs
        (fun r => r.setSlot (n % 8) (f c (c.registers.slot (n % 8))).2), 2) := by
  unfold CPU.cbReg
  simp only [load_CBLookUp c c.registers n hn h6, CPU.withRegs]
  rw [store_CBLookUp c _ n _ hn h6]


set_option maxRecDepth 100000 in
theorem rot8_roundtrip : ∀ v < 256,
    rotr8 (rotl8 v) = v ∧ rotl8 (rotr8 v) = v ∧ rotl8 v < 256 ∧ rotr8 v < 256 := by
  decide

theorem SetCBRotateFlags_snd_L (c : CPU) (v : Nat) :
    (c.SetCBRotateFlags v "L" false).2 = ((v <<< 1) % 256) ||| (v >>> 7) := by
  simp [CPU.SetCBRotateFlags]

theorem SetCBRotateFlags_snd_R (c : CPU) (v : Nat) :
    (c.SetCBRotateFlags v "R" false).2 = (v >>> 1) ||| ((v <<< 7) % 256) := by
  simp [CPU.SetCBRotateFlags]

theorem slot_setSlot (r : Registers) (i v : Nat) (hi : i < 8) (h6 : i ≠ 6) :
    (r.setSlot i v).slot i = v := by
  interval_cases i <;> first | rfl | exact absurd rfl h6

theorem rlc_rrc_value (c1 c2 : CPU) (v : Nat) (hv : v < 256) :
    (c2.SetCBRotateFlags (c1.SetCBRotateFlags v "L" false).2 "R" false).2 = v := by
  obtain ⟨h1, _, h3, _⟩ := rot8_roundtrip v hv
  rw [SetCBRotateFlags_snd_R, SetCBRotateFlags_snd_L, (rot_left_byte v hv).1,
    (rot_right_byte _ h3).1, h1]

theorem rrc_rlc_value (c1 c2 : CPU) (v : Nat) (hv : v < 256) :
    (c2.SetCBRotateFlags (c1.SetCBRotateFlags v "R" false).2 "L" false).2 = v := by
  obtain ⟨_, h2, _, h4⟩ := rot8_roundtrip v hv
  rw [SetCBRotateFlags_snd_L, SetCBRotateFlags_snd_R, (rot_right_byte v hv).1,
    (rot_left_byte _ h4).1, h2]

/-- C15: for every byte v and all flag states, `SetCBRotateFlags` without carry applied left
then right, or right then left, returns v; and for every register slot k (not the (HL)
slot) holding v, executing CB RLC (sub-opcode k) then CB RRC (sub-opcode k+8), or RRC then
RLC, leaves the register equal to v. -/
theorem CB_RLC_RRC_roundtrip (c : CPU) (k v : Nat) (hk : k < 8) (h6 : k ≠ 6)
    (hv : c.registers.slot k = v) (hv256 : v < 256) :
    (∀ c1 c2 : CPU,
      (c2.SetCBRotateFlags (c1.SetCBRotateFlags v "L" false).2 "R" false).2 = v ∧
      (c2.SetCBRotateFlags (c1.SetCBRotateFlags v "R" false).2 "L" false).2 = v) ∧
    (∃ c1 c2, CB { c with fetched := k } = some (c1, 2) ∧
      CB { c1 with fetched := k + 8 } = some (c2, 2) ∧ c2.registers.slot k = v) ∧
    (∃ c1 c2, CB { c with fetched := k + 8 } = some (c1, 2) ∧
      CB { c1 with fetched := k } = some (c2, 2) ∧ c2.registers.slot k = v) := by
  have e1 : k % 8 = k := by omega
  have e2 : (k + 8) % 8 = k := by omega
  have n1 : ¬ (k + 8 < 8) := by omega
  have n2 : k + 8 ≠ 14 := by omega
  have hlo : ∀ c0 : CPU, CB { c0 with fetched := k } =
      some ((CPU.SetCBRotateFlags { c0 with fetched := k } (c0.registers.slot k) "L"
          false).1.withRegs
        (fun r => r.setSlot k (CPU.SetCBRotateFlags { c0 with fetched := k }
          (c0.registers.slot k) "L" false).2), 2) := by
    intro c0
    rw [CB_row0 _ k (by omega), if_pos hk, if_pos h6, cbReg_eq _ k _ (by omega) (by omega), e1]
  have hhi : ∀ c0 : CPU, CB { c0 with fetched := k + 8 } =
      some ((CPU.SetCBRotateFlags { c0 with fetched := k + 8 } (c0.registers.slot k) "R"
          false).1.withRegs
        (fun r => r.setSlot k (CPU.SetCBRotateFlags { c0 with fetched := k + 8 }
          (c0.registers.slot k) "R" false).2), 2) := by
    intro c0
    rw [CB_row0 _ (k + 8) (by omega), if_neg n1, if_pos n2,
      cbReg_eq _ (k + 8) _ (by omega) (by omega), e2]
  refine ⟨fun c1 c2 => ⟨rlc_rrc_value c1 c2 v hv256, rrc_rlc_value c1 c2 v hv256⟩, ?_, ?_⟩
  · refine ⟨_, _, hlo c, hhi _, ?_⟩
    simp only [CPU.withRegs, slot_setSlot _ k _ hk h6, hv]
    exact rlc_rrc_value _ _ v hv256
  · refine ⟨_, _, hhi c, hlo _, ?_⟩
    simp only [CPU.withRegs, slot_setSlot _ k _ hk h6, hv]
    exact rrc_rlc_value _ _ v hv256


theorem CB_bit_reg (c : CPU) (k : Nat) (hk : 0x40 ≤ k ∧ k ≤ 0x7F) (h6 : k % 8 ≠ 6) :
    CB { c with fetched := k } =
      some (CPU.SetBitFlags { c with fetched := k } (c.registers.slot (k % 8)) (k / 8 % 8),
        2) := by
  have hl := load_CBLookUp { c with fetched := k } c.registers (k % 16) (by omega) (by omega)
  have hm : k % 16 % 8 = k % 8 := by omega
  rw [hm] at hl
  rw [CB_bit_rows c k hk, if_neg h6]
  unfold CPU.cbBitReg
  simp only [hl]

theorem SetBitFlags_flags (c : CPU) (v b : Nat) (hb : b < 8) :
    (c.SetBitFlags v b).registers.GetFlag ZERO_FLAG = !(v.testBit b) ∧
    (c.SetBitFlags v b).registers.GetFlag SUBTRACTION_FLAG = false ∧
    (c.SetBitFlags v b).registers.GetFlag HALF_CARRY_FLAG = true ∧
    (c.SetBitFlags v b).registers.GetFlag CARRY_FLAG = c.registers.GetFlag CARRY_FLAG := by
  simp [CPU.SetBitFlags, CPU.withRegs, GetFlag_eq, SetFlag_F, bitValueLoop_eq _ hb,
    and_two_pow_beq_zero]

theorem SetBit_reset_def (c : CPU) (v b : Nat) :
    c.SetBit v b false =
      if v &&& bitValueLoop b 1 != 0 then v ^^^ bitValueLoop b 1 else v := rfl

set_option maxRecDepth 100000 in
theorem reset_bit_byte : ∀ b < 8, ∀ v < 256,
    (if v &&& bitValueLoop b 1 != 0 then v ^^^ bitValueLoop b 1 else v) =
        v &&& (0xFF ^^^ (1 <<< b)) ∧
      (v &&& (0xFF ^^^ (1 <<< b))).testBit b = false ∧
      v &&& (0xFF ^^^ (1 <<< b)) < 256 ∧
      ∀ j < 8, j ≠ b → (v &&& (0xFF ^^^ (1 <<< b))).testBit j = v.testBit j := by
  decide

theorem testBit_byte_high (x j : Nat) (hx : x < 256) (hj : 8 ≤ j) : x.testBit j = false := by
  apply Nat.testBit_lt_two_pow
  calc x < 2 ^ 8 := hx
    _ ≤ 2 ^ j := Nat.pow_le_pow_right (by decide) hj

/-- C17: for every CB sub-opcode k in 0x80-0xBF with a register operand (`RES b,r` with
b = (k >> 3) & 7 and r the register in slot k mod 8, holding the byte v), the operation
leaves r = v & ~(1 << b), i.e. bit b cleared and every other bit as in v, changes no other
register and no flag, and a following `BIT b,r` (sub-opcode k - 0x40) reports Z = 1. -/
theorem CB_RES_spec (c : CPU) (k v : Nat) (hk : 0x80 ≤ k ∧ k ≤ 0xBF) (h6 : k % 8 ≠ 6)
    (hv : c.registers.slot (k % 8) = v) (hv256 : v < 256) :
    ∃ c1 c2, CB { c with fetched := k } = some (c1, 2) ∧
      c1.registers.slot (k % 8) = v &&& (0xFF ^^^ (1 <<< ((k >>> 3) &&& 7))) ∧
      (c1.registers.slot (k % 8)).testBit ((k >>> 3) &&& 7) = false ∧
      (∀ j, j ≠ (k >>> 3) &&& 7 → (c1.registers.slot (k % 8)).testBit j = v.testBit j) ∧
      c1.registers = c.registers.setSlot (k % 8) (c1.registers.slot (k % 8)) ∧
      CB { c1 with fetched := k - 0x40 } = some (c2, 2) ∧
      c2.registers.GetFlag ZERO_FLAG = true := by
  obtain ⟨hk1, hk2⟩ := hk
  have hb : k / 8 % 8 < 8 := by omega
  have hs8 : k % 8 < 8 := by omega
  have hm : k % 16 % 8 = k % 8 := by omega
  obtain ⟨r1, r2, r3, r4⟩ := reset_bit_byte _ hb v hv256
  have hstep : CB { c with fetched := k } =
      some (CPU.withRegs { c with fetched := k }
        (fun r => r.setSlot (k % 8) (v &&& (0xFF ^^^ (1 <<< (k / 8 % 8))))), 2) := by
    rw [CB_res_rows c k ⟨hk1, hk2⟩, if_neg h6, cbReg_eq _ (k % 16) _ (by omega) (by omega)]
    simp only [hm, SetBit_reset_def, hv, r1]
  have hslot : (c.registers.setSlot (k % 8) (v &&& (0xFF ^^^ (1 <<< (k / 8 % 8))))).slot (k % 8)
      = v &&& (0xFF ^^^ (1 <<< (k / 8 % 8))) := slot_setSlot _ _ _ hs8 h6
  have hbit := CB_bit_reg (CPU.withRegs { c with fetched := k }
      (fun r => r.setSlot (k % 8) (v &&& (0xFF ^^^ (1 <<< (k / 8 % 8)))))) (k - 0x40)
      (by omega) (by omega)
  have e1 : (k - 0x40) % 8 = k % 8 := by omega
  have e2 : (k - 0x40) / 8 % 8 = k / 8 % 8 := by omega
  rw [e1, e2] at hbit
  rw [shr3_and7]
  refine ⟨_, _, hstep, hslot, ?_, ?_, ?_, hbit, ?_⟩
  · simp only [CPU.withRegs, hslot]; exact r2
  · intro j hj
    simp only [CPU.withRegs, hslot]
    by_cases hj8 : j < 8
    · exact r4 j hj8 hj
    · rw [testBit_byte_high _ j r3 (by omega), testBit_byte_high _ j hv256 (by omega)]
  · simp only [CPU.withRegs, hslot]
  · rw [(SetBitFlags_flags _ _ _ hb).1]
    simp only [CPU.withRegs, hslot, r2]
    rfl


/-! ## The CB prefix: SWAP -/

theorem SetSwapFlags_snd (c : CPU) (v : Nat) :
    (c.SetSwapFlags v).2 = (((v &&& 0x000F) <<< 4) % 256) ||| ((v >>> 4) &&& 0x000F) := rfl

set_option maxRecDepth 100000 in
theorem swap_byte : ∀ v < 256,
    (((v &&& 0x000F) <<< 4) % 256) ||| ((v >>> 4) &&& 0x000F) = ((v <<< 4) ||| (v >>> 4)) % 256 ∧
      ((v <<< 4) ||| (v >>> 4)) % 256 = (v % 16) * 16 + v / 16 ∧
      ((((v <<< 4) ||| (v >>> 4)) % 256) <<< 4 |||
        (((v <<< 4) ||| (v >>> 4)) % 256) >>> 4) % 256 = v := by
  decide

/-- C19: for every byte v, `SetSwapFlags` returns ((v << 4) | (v >> 4)) mod 256, the byte
with its high and low nibbles exchanged, and applying it twice returns v. -/
theorem SWAP_spec (c1 c2 : CPU) (v : Nat) (hv : v < 256) :
    (c1.SetSwapFlags v).2 = ((v <<< 4) ||| (v >>> 4)) % 256 ∧
    (c1.SetSwapFlags v).2 = (v % 16) * 16 + v / 16 ∧
    (c2.SetSwapFlags (c1.SetSwapFlags v).2).2 = v := by
  obtain ⟨h1, h2, h3⟩ := swap_byte v hv
  have hlt : ((v <<< 4) ||| (v >>> 4)) % 256 < 256 := Nat.mod_lt _ (by decide)
  obtain ⟨g1, _, _⟩ := swap_byte _ hlt
  refine ⟨?_, ?_, ?_⟩
  · rw [SetSwapFlags_snd, h1]
  · rw [SetSwapFlags_snd, h1, h2]
  · rw [SetSwapFlags_snd, SetSwapFlags_snd, h1, g1, h3]


/-! ## ADD SP,E8 -/

theorem and_255 (a : Nat) : a &&& 255 = a % 256 :=
  Nat.and_pow_two_sub_one_eq_mod a 8

theorem int8ToU16_toInt8 (e : Nat) (he : e < 256) :
    int8ToU16 (toInt8 (e &&& 0x00FF)) = if e < 128 then e else 0xFF00 + e := by
  rw [and_255, Nat.mod_eq_of_lt he]
  unfold int8ToU16 toInt8
  rw [Nat.mod_eq_of_lt he]
  split <;> omega

theorem execute_E8_entry (c : CPU) (e : Nat) (hread : c.bus.Read c.registers.PC = some e) :
    execute 0xE8 c =
      ADD_SP_E8 (({ c with relAddr := toInt8 (e &&& 0x00FF) }.withRegs
        (fun r => { r with PC := add16 r.PC 1 })).cpuCycles 1) := by
  show (E8 c).bind ADD_SP_E8 = _
  unfold E8
  rw [hread]
  rfl

/-- C13 (amended): for every SP and every operand byte e read at PC, after `ADD SP,E8`
(opcode 0xE8) the flags are Z = 0, N = 0, H = ((SP & 0x0FFF) + (s & 0x0FFF) > 0x0FFF) and
C = (SP + s > 0xFFFF), where s is e sign-extended to 16 bits (e for e < 0x80, 0xFF00 + e
otherwise): H and C are the carries out of bit 11 and bit 15 of the 16-bit addition. -/
theorem ADD_SP_E8_flags_spec (c : CPU) (e : Nat) (he : e < 256) (hwf : c.registers.WF)
    (hread : c.bus.Read c.registers.PC = some e) :
    ∃ c', execute 0xE8 c = some (c', 0) ∧
      c'.registers.GetFlag ZERO_FLAG = false ∧
      c'.registers.GetFlag SUBTRACTION_FLAG = false ∧
      c'.registers.GetFlag HALF_CARRY_FLAG =
        decide ((c.registers.SP &&& 0x0FFF) + ((if e < 128 then e else 0xFF00 + e) &&& 0x0FFF)
          > 0x0FFF) ∧
      c'.registers.GetFlag CARRY_FLAG =
        decide (c.registers.SP + (if e < 128 then e else 0xFF00 + e) > 0xFFFF) := by
  obtain ⟨_, _, _, _, _, _, _, _, hSP, _⟩ := hwf
  have hs : (if e < 128 then e else 0xFF00 + e) < 65536 := by split <;> omega
  rw [execute_E8_entry c e hread]
  refine ⟨_, rfl, ?_⟩
  simp [ CPU.SetAddFlags16, CPU.withRegs, CPU.cpuCycles, GetFlag_eq, SetFlag_F,
      HalfCarryAdd16_eq, FullCarryAdd16_eq, int8ToU16_toInt8, *]


/-! ## The code evaluated at the defective 16-bit and CB entries -/

/-- C11: `DEC HL` (opcode 0x2B) evaluated at HL = 0x1234, DE = 0x5678, and `DEC BC`
(opcode 0x0B) evaluated at BC = 0x0100 with PC = 0x0001 in a cartridge holding 0x34, 0x12
there. Entry 0x2B executes `SetDE(GetDE() - 1)`: HL stays 0x1234 and DE becomes 0x5677.
Entry 0x0B has the address mode `R_A16`: it decrements BC but also reads two operand
bytes, advancing PC by 2 and overwriting the fetched operand. -/
theorem DEC_HL_DEC_BC_defect :
    (execute 0x2B (CPU.ofRegs ⟨0x01, 0xB0, 0x00, 0x13, 0x56, 0x78, 0x12, 0x34, 0xFFFE, 0x0105⟩
        Bus.blank)).map (fun p => (p.1.registers, p.2)) =
      some (⟨0x01, 0xB0, 0x00, 0x13, 0x56, 0x77, 0x12, 0x34, 0xFFFE, 0x0105⟩, 0) ∧
    (execute 0x0B (CPU.ofRegs ⟨0x01, 0xB0, 0x01, 0x00, 0x00, 0xD8, 0x01, 0x4D, 0xFFFE, 0x0001⟩
        (Bus.withCart [0x0B, 0x34, 0x12, 0x00]))).map
        (fun p => (p.1.registers, p.1.fetched, p.2)) =
      some (⟨0x01, 0xB0, 0x00, 0xFF, 0x00, 0xD8, 0x01, 0x4D, 0xFFFE, 0x0003⟩, 0x1234, 0) :=
  ⟨by decide, by decide⟩

/-- C13, as stated, fails: `ADD SP,E8` (opcode 0xE8) evaluated at SP = 0x00FF with operand
byte 0x01. The code leaves H = 0 and C = 0 (and SP = 0x0100), while the unsigned 8-bit
addition of the low byte of SP with the operand carries out of bit 3 and out of bit 7. -/
theorem ADD_SP_E8_flags_counterexample :
    (execute 0xE8 (CPU.ofRegs ⟨0x01, 0x00, 0x00, 0x13, 0x00, 0xD8, 0x01, 0x4D, 0x00FF, 0x0001⟩
        (Bus.withCart [0xE8, 0x01]))).map
        (fun p => (p.1.registers.SP, p.1.registers.flags, p.2)) =
      some (0x0100, (false, false, false, false), 0) ∧
    ((0x00FF &&& 0xF) + (0x01 &&& 0xF) > 0xF) ∧ ((0x00FF &&& 0xFF) + 0x01 > 0xFF) :=
  ⟨by decide, by decide, by decide⟩

/-- C16: `SET 1,B` (`CB C8`) evaluated at B = 0x01. `SetBit` executes
`registerVal &= bitValue` on a clear bit, so B becomes 0x00 (flags untouched), while
v | (1 << b) is 0x03; a following `BIT 1,B` (sub-opcode 0x48) on that result reports
Z = 1, not 0. -/
theorem CB_SET_defect :
    (execute 0xCB (CPU.ofRegs ⟨0x01, 0xB0, 0x01, 0x13, 0x00, 0xD8, 0x01, 0x4D, 0xFFFE, 0x0001⟩
        (Bus.withCart [0xCB, 0xC8]))).map
        (fun p => (p.1.registers.B, p.1.registers.flags, p.2)) =
      some (0x00, (true, false, true, true), 2) ∧
    (0x01 ||| (1 <<< 1)) = 0x03 ∧
    (CB { CPU.ofRegs ⟨0x01, 0xB0, 0x00, 0x13, 0x00, 0xD8, 0x01, 0x4D, 0xFFFE, 0x0002⟩
        Bus.blank with fetched := 0x48 }).map (fun p => p.1.registers.GetFlag ZERO_FLAG) =
      some true :=
  ⟨by decide, by decide, by decide⟩

/-- C20: `SWAP B` (`CB 30`) evaluated at B = 0x00 with Z clear, and at B = 0x12 with Z set.
`SetSwapFlags` never writes the zero flag: the result 0x00 leaves Z = 0 and the result
0x21 leaves Z = 1 (N = H = C = 0 in both). -/
theorem CB_SWAP_zero_flag_defect :
    (execute 0xCB (CPU.ofRegs ⟨0x01, 0x00, 0x00, 0x13, 0x00, 0xD8, 0x01, 0x4D, 0xFFFE, 0x0001⟩
        (Bus.withCart [0xCB, 0x30]))).map
        (fun p => (p.1.registers.B, p.1.registers.flags, p.2)) =
      some (0x00, (false, false, false, false), 2) ∧
    (execute 0xCB (CPU.ofRegs ⟨0x01, 0x80, 0x12, 0x13, 0x00, 0xD8, 0x01, 0x4D, 0xFFFE, 0x0001⟩
        (Bus.withCart [0xCB, 0x30]))).map
        (fun p => (p.1.registers.B, p.1.registers.flags, p.2)) =
      some (0x21, (true, false, false, false), 2) :=
  ⟨by decide, by decide⟩


/-! ## Instances at concrete inputs -/

/-- C12, at HL = 0x0FFF and BC = 0x0001 with F = 0xB0: `ADD HL,BC` gives HL = 0x1000 with
N = 0, H = 1, C = 0 and Z kept set. -/
theorem ADD_HL_rr_spec_witness :
    ((0x09 ∈ [0x09, 0x19, 0x29, 0x39]) ∧
      (CPU.ofRegs ⟨0x01, 0xB0, 0x00, 0x01, 0x00, 0xD8, 0x0F, 0xFF, 0xFFFE, 0x0105⟩
        Bus.blank).registers.WF) ∧
    ∃ c', execute 0x09 (CPU.ofRegs ⟨0x01, 0xB0, 0x00, 0x01, 0x00, 0xD8, 0x0F, 0xFF, 0xFFFE,
        0x0105⟩ Bus.blank) = some (c', 0) ∧
      c'.registers.GetHL = 0x1000 ∧
      c'.registers.GetFlag SUBTRACTION_FLAG = false ∧
      c'.registers.GetFlag HALF_CARRY_FLAG = true ∧
      c'.registers.GetFlag CARRY_FLAG = false ∧
      c'.registers.GetFlag ZERO_FLAG = true := by
  refine ⟨⟨by decide, by decide⟩, ?_⟩
  obtain ⟨c', h, h1, h2, h3, h4, h5⟩ :=
    ADD_HL_rr_spec 0x09 (by decide)
      (CPU.ofRegs ⟨0x01, 0xB0, 0x00, 0x01, 0x00, 0xD8, 0x0F, 0xFF, 0xFFFE, 0x0105⟩ Bus.blank)
      (by decide)
  exact ⟨c', h, h1.trans (by decide), h2, h3.trans (by decide), h4.trans (by decide),
    h5.trans (by decide)⟩

/-- C13 (amended), at SP = 0x0FFF and operand byte 0x01: H = 1 (carry out of bit 11) and
Z = N = C = 0. -/
theorem ADD_SP_E8_flags_spec_witness :
    (0x01 < 256 ∧
      (CPU.ofRegs ⟨0x01, 0xB0, 0x00, 0x13, 0x00, 0xD8, 0x01, 0x4D, 0x0FFF, 0x0001⟩
        (Bus.withCart [0xE8, 0x01])).registers.WF ∧
      (Bus.withCart [0xE8, 0x01]).Read 0x0001 = some 0x01) ∧
    ∃ c', execute 0xE8 (CPU.ofRegs ⟨0x01, 0xB0, 0x00, 0x13, 0x00, 0xD8, 0x01, 0x4D, 0x0FFF,
        0x0001⟩ (Bus.withCart [0xE8, 0x01])) = some (c', 0) ∧
      c'.registers.GetFlag ZERO_FLAG = false ∧
      c'.registers.GetFlag SUBTRACTION_FLAG = false ∧
      c'.registers.GetFlag HALF_CARRY_FLAG = true ∧
      c'.registers.GetFlag CARRY_FLAG = false := by
  refine ⟨⟨by decide, by decide, by decide⟩, ?_⟩
  obtain ⟨c', h, h1, h2, h3, h4⟩ :=
    ADD_SP_E8_flags_spec
      (CPU.ofRegs ⟨0x01, 0xB0, 0x00, 0x13, 0x00, 0xD8, 0x01, 0x4D, 0x0FFF, 0x0001⟩
        (Bus.withCart [0xE8, 0x01])) 0x01 (by decide) (by decide) (by decide)
  exact ⟨c', h, h1, h2, h3.trans (by decide), h4.trans (by decide)⟩

/-- C14, at A = 0x00 with the carry flag clear: RLCA leaves A = 0 and still forces Z = 0,
with N = H = C = 0. -/
theorem rotates_on_A_spec_witness :
    (CPU.ofRegs ⟨0x00, 0x00, 0x00, 0x13, 0x00, 0xD8, 0x01, 0x4D, 0xFFFE, 0x0105⟩
      Bus.blank).registers.WF ∧
    ∃ c', execute 0x07 (CPU.ofRegs ⟨0x00, 0x00, 0x00, 0x13, 0x00, 0xD8, 0x01, 0x4D, 0xFFFE,
        0x0105⟩ Bus.blank) = some (c', 0) ∧
      c'.registers.A = 0x00 ∧
      c'.registers.GetFlag CARRY_FLAG = false ∧
      c'.registers.GetFlag ZERO_FLAG = false ∧
      c'.registers.GetFlag SUBTRACTION_FLAG = false ∧
      c'.registers.GetFlag HALF_CARRY_FLAG = false := by
  refine ⟨by decide, ?_⟩
  obtain ⟨⟨c', h, h1, h2, h3, h4, h5⟩, _⟩ :=
    rotates_on_A_spec
      (CPU.ofRegs ⟨0x00, 0x00, 0x00, 0x13, 0x00, 0xD8, 0x01, 0x4D, 0xFFFE, 0x0105⟩ Bus.blank)
      (by decide)
  exact ⟨c', h, h1.trans (by decide), h2.trans (by decide), h3, h4, h5⟩

/-- C15, at B = 0x81: `CB 00` (RLC B) followed by `CB 08` (RRC B) returns B = 0x81. -/
theorem CB_RLC_RRC_roundtrip_witness :
    (0 < 8 ∧ 0 ≠ 6 ∧
      (CPU.ofRegs ⟨0x01, 0xB0, 0x81, 0x13, 0x00, 0xD8, 0x01, 0x4D, 0xFFFE, 0x0105⟩
        Bus.blank).registers.slot 0 = 0x81 ∧ 0x81 < 256) ∧
    ∃ c1 c2,
      CB { CPU.ofRegs ⟨0x01, 0xB0, 0x81, 0x13, 0x00, 0xD8, 0x01, 0x4D, 0xFFFE, 0x0105⟩
        Bus.blank with fetched := 0 } = some (c1, 2) ∧
      CB { c1 with fetched := 0 + 8 } = some (c2, 2) ∧ c2.registers.slot 0 = 0x81 :=
  ⟨⟨by decide, by decide, by decide, by decide⟩,
    (CB_RLC_RRC_roundtrip
      (CPU.ofRegs ⟨0x01, 0xB0, 0x81, 0x13, 0x00, 0xD8, 0x01, 0x4D, 0xFFFE, 0x0105⟩ Bus.blank)
      0 0x81 (by decide) (by decide) (by decide) (by decide)).2.1⟩

/-- C17, at B = 0xFF: `CB 88` (RES 1,B) leaves B = 0xFD and the following `CB 48`
(BIT 1,B) reports Z = 1. -/
theorem CB_RES_spec_witness :
    ((0x80 ≤ 0x88 ∧ 0x88 ≤ 0xBF) ∧ 0x88 % 8 ≠ 6 ∧
      (CPU.ofRegs ⟨0x01, 0xB0, 0xFF, 0x13, 0x00, 0xD8, 0x01, 0x4D, 0xFFFE, 0x0105⟩
        Bus.blank).registers.slot (0x88 % 8) = 0xFF ∧ 0xFF < 256) ∧
    ∃ c1 c2,
      CB { CPU.ofRegs ⟨0x01, 0xB0, 0xFF, 0x13, 0x00, 0xD8, 0x01, 0x4D, 0xFFFE, 0x0105⟩
        Bus.blank with fetched := 0x88 } = some (c1, 2) ∧
      c1.registers.B = 0xFD ∧
      CB { c1 with fetched := 0x88 - 0x40 } = some (c2, 2) ∧
      c2.registers.GetFlag ZERO_FLAG = true := by
  refine ⟨⟨by decide, by decide, by decide, by decide⟩, ?_⟩
  obtain ⟨c1, c2, h1, h2, _, _, _, h6, h7⟩ :=
    CB_RES_spec
      (CPU.ofRegs ⟨0x01, 0xB0, 0xFF, 0x13, 0x00, 0xD8, 0x01, 0x4D, 0xFFFE, 0x0105⟩ Bus.blank)
      0x88 0xFF (by decide) (by decide) (by decide) (by decide)
  exact ⟨c1, c2, h1, h2.trans (by decide), h6, h7⟩

/-- C18, at B = 0x01: `CB 40` (BIT 0,B) gives Z = 0, N = 0, H = 1 with C kept, and `CB 48`
(BIT 1,B) gives Z = 1. -/
theorem CB_BIT_spec_witness :
    ((0x40 ≤ 0x40 ∧ 0x40 ≤ 0x7F) ∧ (0x40 ≤ 0x48 ∧ 0x48 ≤ 0x7F) ∧
      (CPU.ofRegs ⟨0x01, 0x10, 0x01, 0x13, 0x00, 0xD8, 0x01, 0x4D, 0xFFFE, 0x0105⟩
        Bus.blank).registers.slot 0 = 0x01) ∧
    (∃ c', CB { CPU.ofRegs ⟨0x01, 0x10, 0x01, 0x13, 0x00, 0xD8, 0x01, 0x4D, 0xFFFE, 0x0105⟩
        Bus.blank with fetched := 0x40 } = some (c', 2) ∧
      c'.registers.GetFlag ZERO_FLAG = false ∧
      c'.registers.GetFlag SUBTRACTION_FLAG = false ∧
      c'.registers.GetFlag HALF_CARRY_FLAG = true ∧
      c'.registers.GetFlag CARRY_FLAG = true) ∧
    (∃ c', CB { CPU.ofRegs ⟨0x01, 0x10, 0x01, 0x13, 0x00, 0xD8, 0x01, 0x4D, 0xFFFE, 0x0105⟩
        Bus.blank with fetched := 0x48 } = some (c', 2) ∧
      c'.registers.GetFlag ZERO_FLAG = true) := by
  refine ⟨⟨by decide, by decide, by decide⟩, ?_, ?_⟩
  · obtain ⟨c', h, h1, h2, h3, h4, _⟩ :=
      CB_BIT_spec
        (CPU.ofRegs ⟨0x01, 0x10, 0x01, 0x13, 0x00, 0xD8, 0x01, 0x4D, 0xFFFE, 0x0105⟩ Bus.blank)
        0x40 0x01 (by decide) (by decide)
    exact ⟨c', h, h1.trans (by decide), h2, h3, h4.trans (by decide)⟩
  · obtain ⟨c', h, h1, _⟩ :=
      CB_BIT_spec
        (CPU.ofRegs ⟨0x01, 0x10, 0x01, 0x13, 0x00, 0xD8, 0x01, 0x4D, 0xFFFE, 0x0105⟩ Bus.blank)
        0x48 0x01 (by decide) (by decide)
    exact ⟨c', h, h1.trans (by decide)⟩

/-- C19, at v = 0x12: SWAP returns 0x21 and a second SWAP returns 0x12. -/
theorem SWAP_spec_witness :
    (0x12 < 256) ∧
    ((CPU.ofRegs ⟨0x01, 0xB0, 0x12, 0x13, 0x00, 0xD8, 0x01, 0x4D, 0xFFFE, 0x0105⟩
        Bus.blank).SetSwapFlags 0x12).2 = 0x21 ∧
    ((CPU.ofRegs ⟨0x01, 0xB0, 0x12, 0x13, 0x00, 0xD8, 0x01, 0x4D, 0xFFFE, 0x0105⟩
        Bus.blank).SetSwapFlags
      ((CPU.ofRegs ⟨0x01, 0xB0, 0x12, 0x13, 0x00, 0xD8, 0x01, 0x4D, 0xFFFE, 0x0105⟩
        Bus.blank).SetSwapFlags 0x12).2).2 = 0x12 := by
  refine ⟨by decide, ?_⟩
  obtain ⟨h1, _, h3⟩ :=
    SWAP_spec
      (CPU.ofRegs ⟨0x01, 0xB0, 0x12, 0x13, 0x00, 0xD8, 0x01, 0x4D, 0xFFFE, 0x0105⟩ Bus.blank)
      (CPU.ofRegs ⟨0x01, 0xB0, 0x12, 0x13, 0x00, 0xD8, 0x01, 0x4D, 0xFFFE, 0x0105⟩ Bus.blank)
      0x12 (by decide)
  exact ⟨h1.trans (by decide), h3⟩


/-- For the six opcodes 0x03, 0x13, 0x23, 0x33 (`INC` BC, DE, HL, SP) and 0x1B, 0x3B (`DEC`
DE, SP), the instruction changes the named pair by +1 or -1 modulo 2^16 and leaves the other
pairs, A, F, PC, the fetched operand and the bus unchanged. -/
theorem INC_DEC_16_spec_of_ok (op : Nat) (hop : op ∈ [0x03, 0x13, 0x23, 0x33, 0x1B, 0x3B])
    (c : CPU) (hwf : c.registers.WF) :
    ∃ c', execute op c = some (c', 0) ∧
      c'.registers.pair (op / 16) =
        (c.registers.pair (op / 16) + (if op % 16 = 3 then 1 else 65535)) % 65536 ∧
      (∀ i, i < 4 → i ≠ op / 16 → c'.registers.pair i = c.registers.pair i) ∧
      c'.registers.A = c.registers.A ∧ c'.registers.F = c.registers.F ∧
      c'.registers.PC = c.registers.PC ∧ c'.fetched = c.fetched ∧ c'.bus = c.bus := by
  obtain ⟨_, _, hB, hC, hD, hE, hH, hL, hSP, _⟩ := hwf
  simp only [List.mem_cons, List.mem_singleton, List.not_mem_nil, or_false] at hop
  rcases hop with rfl | rfl | rfl | rfl | rfl | rfl
  all_goals
    refine ⟨_, rfl, ?_, ?_, ?_⟩
    · simp [CPU.withRegs, CPU.cpuCycles, Registers.pair, GetBC_SetBC, GetDE_SetDE,
        GetHL_SetHL, add16_lt, sub16_lt]
      simp [add16, sub16]
    · intro i hi hne
      interval_cases i <;>
        first
        | exact absurd rfl hne
        | simp [CPU.withRegs, CPU.cpuCycles, Registers.pair, Registers.SetBC, Registers.SetDE,
            Registers.SetHL, Registers.GetBC, Registers.GetDE, Registers.GetHL]
    · simp [CPU.withRegs, CPU.cpuCycles, Registers.SetBC, Registers.SetDE, Registers.SetHL]


/-! ## Supplements to the defective entries -/

theorem setCarryFromBit_flagBit (c : CPU) (b : Nat) :
    flagBit (c.setCarryFromBit b).registers.F ZERO_FLAG = flagBit c.registers.F ZERO_FLAG ∧
    flagBit (c.setCarryFromBit b).registers.F SUBTRACTION_FLAG =
      flagBit c.registers.F SUBTRACTION_FLAG ∧
    flagBit (c.setCarryFromBit b).registers.F HALF_CARRY_FLAG =
      flagBit c.registers.F HALF_CARRY_FLAG := by
  unfold CPU.setCarryFromBit
  split_ifs <;> simp [CPU.withRegs, SetFlag_F]

/-- The seven rotate and shift forms of the CB prefix (RLC, RRC, RL, RR, SLA, SRA, SRL) set
Z iff the value they return is 0 and clear N and H, for every operand value and every
initial flag state. -/
theorem CB_rotate_shift_flags (c : CPU) (v : Nat) (t : Bool) :
    (∀ p ∈ [c.SetCBRotateFlags v "L" t, c.SetCBRotateFlags v "R" t, c.SetShiftFlags v "L" t,
        c.SetShiftFlags v "R" t],
      p.1.registers.GetFlag ZERO_FLAG = decide (p.2 = 0) ∧
      p.1.registers.GetFlag SUBTRACTION_FLAG = false ∧
      p.1.registers.GetFlag HALF_CARRY_FLAG = false) := by
  intro p hp
  simp only [List.mem_cons, List.mem_singleton, List.not_mem_nil, or_false] at hp
  rcases hp with rfl | rfl | rfl | rfl <;> cases t <;>
    simp [CPU.SetCBRotateFlags, CPU.SetShiftFlags, CPU.withRegs, GetFlag_eq, SetFlag_F,
      beq_eq_decide_nat, setCarryFromBit_flagBit]

/-! ## The AND, XOR, OR rows with a register source -/

/-- C21: for every opcode of the AND, XOR and OR rows with a register source (0xA0-0xB7
without the (HL) column) and every state, A becomes a AND b, a XOR b or a OR b for the
source value b; Z is set iff the result is 0, N = 0, C = 0, and H = 1 exactly for AND; XOR
A,A leaves A = 0 with Z = 1. -/
theorem AND_XOR_OR_A_r_spec (op : Nat) (hop : 0xA0 ≤ op ∧ op ≤ 0xB7) (hsrc : op % 8 ≠ 6)
    (c : CPU) :
    ∃ c', execute op c = some (c', 0) ∧
      c'.registers.A =
        (if op < 0xA8 then c.registers.A &&& c.registers.slot (op % 8)
         else if op < 0xB0 then c.registers.A ^^^ c.registers.slot (op % 8)
         else c.registers.A ||| c.registers.slot (op % 8)) ∧
      c'.registers.GetFlag ZERO_FLAG = decide (c'.registers.A = 0) ∧
      c'.registers.GetFlag SUBTRACTION_FLAG = false ∧
      c'.registers.GetFlag HALF_CARRY_FLAG = decide (op < 0xA8) ∧
      c'.registers.GetFlag CARRY_FLAG = false ∧
      (op = 0xAF → c'.registers.A = 0 ∧ c'.registers.GetFlag ZERO_FLAG = true) := by
  obtain ⟨h1, h2⟩ := hop
  interval_cases op
  all_goals first
    | exact absurd rfl hsrc
    | (refine ⟨_, rfl, ?_⟩
       simp [CPU.SetAndFlags, CPU.SetXorFlags, CPU.withRegs, Registers.slot, GetFlag_eq,
         SetFlag_F, beq_eq_decide_nat])

theorem AND_XOR_OR_A_r_spec_witness :
    (0xA0 ≤ 0xAF ∧ 0xAF ≤ 0xB7) ∧ 0xAF % 8 ≠ 6 ∧
    ∃ c', execute 0xAF
        (CPU.ofRegs ⟨0x5A, 0xF0, 0x00, 0x13, 0x00, 0xD8, 0x01, 0x4D, 0xFFFE, 0x0101⟩ Bus.blank) =
        some (c', 0) ∧
      c'.registers.A = 0 ∧ c'.registers.flags = (true, false, false, false) := by
  refine ⟨by decide, by decide, ?_⟩
  obtain ⟨c', h, _, _, hN, hH, hC, hx⟩ := AND_XOR_OR_A_r_spec 0xAF (by decide) (by decide)
    (CPU.ofRegs ⟨0x5A, 0xF0, 0x00, 0x13, 0x00, 0xD8, 0x01, 0x4D, 0xFFFE, 0x0101⟩ Bus.blank)
  obtain ⟨hA, hZ⟩ := hx rfl
  refine ⟨c', h, hA, ?_⟩
  unfold Registers.flags
  rw [hZ, hN, hH, hC]
  rfl

/-! ## The bus -/

theorem tickLoop_eq (n t : Nat) : tickLoop n t = t + n := by
  induction n generalizing t with
  | zero => rfl
  | succ n ih => rw [tickLoop, ih]; omega

theorem cpuCycles_one (c : CPU) : c.cpuCycles 1 = { c with ticks := c.ticks + 4 } := by
  simp [CPU.cpuCycles, tickLoop_eq]

theorem or_FF00 (m : Nat) (hm : m < 256) : 0xFF00 ||| m = 0xFF00 + m := by
  have h := pair_join 255 m hm
  have e : (255 : Nat) <<< 8 = 0xFF00 := by decide
  rw [e] at h
  omega

/-- The branch `Bus.Read` takes, read off the callee: the value returned is the one of
the callee `Bus.readCallee` names. -/
theorem Bus_Read_eq_of_readCallee (b : Bus) (a : Nat) :
    b.Read a =
      match b.readCallee a with
      | .cart => b.cart.bind (fun c => c.Read a)
      | .ram => some (b.ram.Read a)
      | .io => some (b.io.Read a)
      | .ie => some b.IE
      | .nilRegister => some utilExit := by
  unfold Bus.Read Bus.readCallee
  by_cases h1 : a < 0x8000
  · rw [if_pos h1, if_pos h1]; cases b.cart <;> rfl
  rw [if_neg h1, if_neg h1]
  by_cases h2 : a < 0xA000
  · rw [if_pos h2, if_pos h2]
  rw [if_neg h2, if_neg h2]
  by_cases h3 : a < 0xE000
  · rw [if_pos h3, if_pos h3]
  rw [if_neg h3, if_neg h3]
  by_cases h4 : a < 0xFE00
  · rw [if_pos h4, if_pos h4]
  rw [if_neg h4, if_neg h4]
  by_cases h5 : a < 0xFEA0
  · rw [if_pos h5, if_pos h5]
  rw [if_neg h5, if_neg h5]
  by_cases h6 : a < 0xFF00
  · rw [if_pos h6, if_pos h6]
  rw [if_neg h6, if_neg h6]
  by_cases h7 : a < 0xFF80
  · rw [if_pos h7, if_pos h7]
    by_cases h8 : a ≥ 0xFF00 ∧ a ≤ 0xFF7F
    · rw [if_pos h8, if_pos h8]
    · rw [if_neg h8, if_neg h8]
  rw [if_neg h7, if_neg h7]
  by_cases h9 : a < 0xFFFF
  · rw [if_pos h9, if_pos h9]
  rw [if_neg h9, if_neg h9]
  by_cases h10 : a = 0xFFFF
  · rw [if_pos h10, if_pos h10]
  · rw [if_neg h10, if_neg h10]

/-- The branch `Bus.Write` takes, read off the callee: the bus after the write is the one
the callee `Bus.writeCallee` names produces. -/
theorem Bus_Write_eq_of_writeCallee (b : Bus) (a v : Nat) :
    b.Write a v =
      match b.writeCallee a with
      | .cart => b.cart.bind (fun c => (c.Write a v).map (fun c1 => { b with cart := some c1 }))
      | .ram => some { b with ram := b.ram.Write a v }
      | .io => some { b with io := b.io.Write a v }
      | .ie => some { b with IE := v }
      | .nilRegister => some b := by
  unfold Bus.Write Bus.writeCallee
  by_cases h1 : a < 0x8000
  · rw [if_pos h1, if_pos h1]; cases b.cart <;> rfl
  rw [if_neg h1, if_neg h1]
  by_cases h2 : a < 0xA000
  · rw [if_pos h2, if_pos h2]
  rw [if_neg h2, if_neg h2]
  by_cases h3 : a < 0xE000
  · rw [if_pos h3, if_pos h3]
  rw [if_neg h3, if_neg h3]
  by_cases h4 : a < 0xFE00
  · rw [if_pos h4, if_pos h4]
  rw [if_neg h4, if_neg h4]
  by_cases h5 : a < 0xFEA0
  · rw [if_pos h5, if_pos h5]
  rw [if_neg h5, if_neg h5]
  by_cases h6 : a < 0xFF00
  · rw [if_pos h6, if_pos h6]
  rw [if_neg h6, if_neg h6]
  by_cases h7 : a < 0xFF80
  · rw [if_pos h7, if_pos h7]
    by_cases h8 : a ≥ 0xFF00 ∧ a ≤ 0xFF7F
    · rw [if_pos h8, if_pos h8]
    · rw [if_neg h8, if_neg h8]
  rw [if_neg h7, if_neg h7]
  by_cases h9 : a < 0xFFFF
  · rw [if_pos h9, if_pos h9]
  rw [if_neg h9, if_neg h9]
  by_cases h10 : a = 0xFFFF
  · rw [if_pos h10, if_pos h10]
  · rw [if_neg h10, if_neg h10]

/-- C28: for every bus, every value and every address in the VRAM, Echo RAM, OAM or
unusable range, `Bus.Write` returns the bus it was given: cartridge, RAM bank, I/O bank
and IE are all unchanged. -/
theorem Bus_Write_illegal_dropped (b : Bus) (a v : Nat)
    (ha : (0x8000 ≤ a ∧ a ≤ 0x9FFF) ∨ (0xE000 ≤ a ∧ a ≤ 0xFDFF) ∨
      (0xFE00 ≤ a ∧ a ≤ 0xFE9F) ∨ (0xFEA0 ≤ a ∧ a ≤ 0xFEFF)) :
    b.Write a v = some b := by
  unfold Bus.Write
  rcases ha with ha | ha | ha | ha
  · rw [if_neg (by omega), if_pos (by omega)]
  · rw [if_neg (by omega), if_neg (by omega), if_neg (by omega), if_pos (by omega)]
  · rw [if_neg (by omega), if_neg (by omega), if_neg (by omega), if_neg (by omega),
      if_pos (by omega)]
  · rw [if_neg (by omega), if_neg (by omega), if_neg (by omega), if_neg (by omega),
      if_neg (by omega), if_pos (by omega)]

theorem Bus_Write_illegal_dropped_witness :
    ((0x8000 ≤ 0x9ABC ∧ 0x9ABC ≤ 0x9FFF) ∨ (0xE000 ≤ 0x9ABC ∧ 0x9ABC ≤ 0xFDFF) ∨
      (0xFE00 ≤ 0x9ABC ∧ 0x9ABC ≤ 0xFE9F) ∨ (0xFEA0 ≤ 0x9ABC ∧ 0x9ABC ≤ 0xFEFF)) ∧
    (Bus.withCart [0x00, 0xC3]).Write 0x9ABC 0x5A = some (Bus.withCart [0x00, 0xC3]) :=
  ⟨by decide, Bus_Write_illegal_dropped _ 0x9ABC 0x5A (by decide)⟩

/-- C29 (the code evaluated): at the external-RAM addresses 0xA000 and 0xBFFF the branch
taken by `Bus.Read` and by `Bus.Write` is the one labelled WRAM, whose callee is the RAM
bank, not the nil-register path the VRAM, Echo RAM and OAM branches take. -/
theorem Bus_external_RAM_defect :
    (Bus.readCallee Bus.blank 0xA000, Bus.writeCallee Bus.blank 0xA000,
      Bus.readCallee Bus.blank 0xBFFF, Bus.writeCallee Bus.blank 0xBFFF) =
      (BusCallee.ram, BusCallee.ram, BusCallee.ram, BusCallee.ram) ∧
    (Bus.readCallee Bus.blank 0x9FFF, Bus.writeCallee Bus.blank 0x9FFF,
      Bus.readCallee Bus.blank 0xE000, Bus.writeCallee Bus.blank 0xE000) =
      (BusCallee.nilRegister, BusCallee.nilRegister, BusCallee.nilRegister,
        BusCallee.nilRegister) :=
  ⟨by decide, by decide⟩

/-- The external-RAM range is routed to the RAM bank in full: for every bus and every
address in 0xA000-0xBFFF, `Bus.Read` returns what `ram.Read` returns and `Bus.Write` stores
what `ram.Write` produces. -/
theorem Bus_external_RAM_forwarded (b : Bus) (a v : Nat) (ha : 0xA000 ≤ a ∧ a ≤ 0xBFFF) :
    b.readCallee a = .ram ∧ b.writeCallee a = .ram ∧
    b.Read a = some (b.ram.Read a) ∧
    b.Write a v = some { b with ram := b.ram.Write a v } := by
  refine ⟨?_, ?_, ?_, ?_⟩
  · unfold Bus.readCallee
    rw [if_neg (by omega), if_neg (by omega), if_pos (by omega)]
  · unfold Bus.writeCallee
    rw [if_neg (by omega), if_neg (by omega), if_pos (by omega)]
  · unfold Bus.Read
    rw [if_neg (by omega), if_neg (by omega), if_pos (by omega)]
  · unfold Bus.Write
    rw [if_neg (by omega), if_neg (by omega), if_pos (by omega)]

/-- C30: with a cartridge of at least 0x8000 bytes connected, for every address a < 0x8000
and value v, `Bus.Write` succeeds and a following `Bus.Read` of a returns v; and a write of
v to 0xFFFF followed by a read of 0xFFFF returns v, held in the IE byte. -/
theorem Bus_cart_IE_write_read (b : Bus) (rom : Cart) (a v : Nat) (hcart : b.cart = some rom)
    (hlen : 0x8000 ≤ rom.length) (ha : a < 0x8000) :
    (∃ b1, b.Write a v = some b1 ∧ b1.Read a = some v) ∧
    (∃ b2, b.Write 0xFFFF v = some b2 ∧ b2.IE = v ∧ b2.Read 0xFFFF = some v) := by
  have hlt : a < rom.length := by omega
  refine ⟨⟨{ b with cart := some (rom.set a v) }, ?_, ?_⟩, ⟨{ b with IE := v }, rfl, rfl, rfl⟩⟩
  · simp [Bus.Write, hcart, ha, Cart.Write, hlt]
  · simp [Bus.Read, ha, Cart.Read, hlt]

theorem Bus_cart_IE_write_read_witness :
    0x8000 ≤ (List.replicate 0x8000 0).length ∧ 0x0150 < 0x8000 ∧
    (∃ b1, (Bus.withCart (List.replicate 0x8000 0)).Write 0x0150 0x42 = some b1 ∧
      b1.Read 0x0150 = some 0x42) ∧
    (∃ b2, (Bus.withCart (List.replicate 0x8000 0)).Write 0xFFFF 0x42 = some b2 ∧
      b2.IE = 0x42 ∧ b2.Read 0xFFFF = some 0x42) :=
  ⟨le_of_eq (List.length_replicate _ _).symm, by decide,
    Bus_cart_IE_write_read (Bus.withCart (List.replicate 0x8000 0)) (List.replicate 0x8000 0)
      0x0150 0x42 rfl (le_of_eq (List.length_replicate _ _).symm) (by decide)⟩

/-! ## The address modes -/

/-- C27: for every state whose PC is p and whose bus holds the bytes m0 at p and m1 at
p+1 (modulo 2^16): `R_N8` sets fetched = m0 and PC = p+1 and charges 4 ticks;
`R_A16`, `R_N16` and `A16_R` set fetched = m0 | (m1 << 8) and PC = p+2 and charge 8 ticks;
`A8_A` sets fetched = 0xFF00 | m0, a value in 0xFF00..0xFFFF, and PC = p+1 and charges 4
ticks; `E8` sets relAddr to m0 read as a signed byte and PC = p+1 and charges 4 ticks;
`NONE` changes nothing; nothing else of the state changes. -/
theorem AddrMode_spec (c : CPU) (m0 m1 : Nat)
    (h0 : c.bus.Read c.registers.PC = some m0)
    (h1 : c.bus.Read ((c.registers.PC + 1) % 65536) = some m1)
    (hm0 : m0 < 256) (hm1 : m1 < 256) :
    R_N8 c = some { c with
      fetched := m0, ticks := c.ticks + 4,
      registers := { c.registers with PC := (c.registers.PC + 1) % 65536 } } ∧
    (∀ mode, mode = R_N16 ∨ mode = R_A16 ∨ mode = A16_R →
      mode c = some { c with
        fetched := m0 ||| (m1 <<< 8), ticks := c.ticks + 8,
        registers := { c.registers with PC := (c.registers.PC + 2) % 65536 } }) ∧
    A8_A c = some { c with
      fetched := 0xFF00 ||| m0, ticks := c.ticks + 4,
      registers := { c.registers with PC := (c.registers.PC + 1) % 65536 } } ∧
    (0xFF00 ≤ 0xFF00 ||| m0 ∧ 0xFF00 ||| m0 ≤ 0xFFFF) ∧
    E8 c = some { c with
      relAddr := if m0 < 128 then (m0 : Int) else (m0 : Int) - 256, ticks := c.ticks + 4,
      registers := { c.registers with PC := (c.registers.PC + 1) % 65536 } } ∧
    NONE c = some c := by
  have hshift : (m1 <<< 8) % 65536 = m1 <<< 8 := by
    rw [Nat.shiftLeft_eq]; omega
  have hA16 : R_A16 c = some { c with
      fetched := m0 ||| (m1 <<< 8), ticks := c.ticks + 8,
      registers := { c.registers with PC := (c.registers.PC + 2) % 65536 } } := by
    unfold R_A16
    rw [h0]
    simp only [Option.some_bind, cpuCycles_one, add16]
    rw [h1]
    simp only [Option.some_bind, cpuCycles_one, CPU.withRegs, add16, hshift]
    rw [Nat.lor_comm]
  refine ⟨?_, ?_, ?_, ?_, ?_, rfl⟩
  · unfold R_N8
    rw [h0]
    simp only [Option.some_bind, cpuCycles_one, CPU.withRegs, add16]
  · rintro mode (rfl | rfl | rfl) <;> exact hA16
  · unfold A8_A
    rw [h0]
    simp only [Option.some_bind, cpuCycles_one, CPU.withRegs, add16, or_FF00 m0 hm0]
    have e : (m0 + 0xFF00) % 65536 = 0xFF00 + m0 := by omega
    rw [e]
  · rw [or_FF00 m0 hm0]; omega
  · unfold E8
    rw [h0]
    have e : toInt8 (m0 &&& 0x00FF) = if m0 < 128 then (m0 : Int) else (m0 : Int) - 256 := by
      rw [and_255, Nat.mod_eq_of_lt hm0]
      unfold toInt8
      rw [Nat.mod_eq_of_lt hm0]
    simp only [Option.some_bind, cpuCycles_one, CPU.withRegs, add16, e]

theorem AddrMode_spec_witness :
    (CPU.ofRegs ⟨0, 0, 0, 0, 0, 0, 0, 0, 0xFFFE, 0x0001⟩
        (Bus.withCart [0x18, 0x85, 0x12])).bus.Read 0x0001 = some 0x85 ∧
    (CPU.ofRegs ⟨0, 0, 0, 0, 0, 0, 0, 0, 0xFFFE, 0x0001⟩
        (Bus.withCart [0x18, 0x85, 0x12])).bus.Read 0x0002 = some 0x12 ∧
    (R_N8 (CPU.ofRegs ⟨0, 0, 0, 0, 0, 0, 0, 0, 0xFFFE, 0x0001⟩
        (Bus.withCart [0x18, 0x85, 0x12]))).map
      (fun c => (c.fetched, c.registers.PC, c.ticks)) = some (0x85, 0x0002, 4) ∧
    (R_A16 (CPU.ofRegs ⟨0, 0, 0, 0, 0, 0, 0, 0, 0xFFFE, 0x0001⟩
        (Bus.withCart [0x18, 0x85, 0x12]))).map
      (fun c => (c.fetched, c.registers.PC, c.ticks)) = some (0x1285, 0x0003, 8) ∧
    (A8_A (CPU.ofRegs ⟨0, 0, 0, 0, 0, 0, 0, 0, 0xFFFE, 0x0001⟩
        (Bus.withCart [0x18, 0x85, 0x12]))).map
      (fun c => (c.fetched, c.registers.PC, c.ticks)) = some (0xFF85, 0x0002, 4) ∧
    (E8 (CPU.ofRegs ⟨0, 0, 0, 0, 0, 0, 0, 0, 0xFFFE, 0x0001⟩
        (Bus.withCart [0x18, 0x85, 0x12]))).map
      (fun c => (c.relAddr, c.registers.PC, c.ticks)) = some (-123, 0x0002, 4) := by
  have h := AddrMode_spec
    (CPU.ofRegs ⟨0, 0, 0, 0, 0, 0, 0, 0, 0xFFFE, 0x0001⟩ (Bus.withCart [0x18, 0x85, 0x12]))
    0x85 0x12 (by decide) (by decide) (by decide) (by decide)
  refine ⟨by decide, by decide, ?_, ?_, ?_, ?_⟩
  · rw [h.1]; decide
  · rw [h.2.1 R_A16 (Or.inr (Or.inl rfl))]; decide
  · rw [h.2.2.1]; decide
  · rw [h.2.2.2.2.1]; decide

/-! ## The immediate-operand ALU entries -/

/-- C22 (the code evaluated): entry 0xE6 `AND_A_N8` has the address mode `NONE`, so with
A = 0xFF, PC = 0x0001 and the byte 0xF0 stored at PC the result is A AND the value `fetched`
held before the instruction (0x0F gives 0x0F, 0x3C gives 0x3C) and PC stays at 0x0001; the
sibling entry 0xEE `XOR_A_N8` in the same two states reads the byte at PC (A = 0x0F) and
advances PC to 0x0002. -/
theorem AND_A_N8_defect :
    ((execute 0xE6 { CPU.ofRegs ⟨0xFF, 0, 0, 0, 0, 0, 0, 0, 0xFFFE, 0x0001⟩
          (Bus.withCart [0xE6, 0xF0]) with fetched := 0x0F }).map
        (fun p => (p.1.registers.A, p.1.registers.PC, p.1.registers.flags)) =
        some (0x0F, 0x0001, (false, false, true, false)) ∧
      (execute 0xE6 { CPU.ofRegs ⟨0xFF, 0, 0, 0, 0, 0, 0, 0, 0xFFFE, 0x0001⟩
          (Bus.withCart [0xE6, 0xF0]) with fetched := 0x3C }).map
        (fun p => (p.1.registers.A, p.1.registers.PC, p.1.registers.flags)) =
        some (0x3C, 0x0001, (false, false, true, false))) ∧
    ((execute 0xEE { CPU.ofRegs ⟨0xFF, 0, 0, 0, 0, 0, 0, 0, 0xFFFE, 0x0001⟩
          (Bus.withCart [0xEE, 0xF0]) with fetched := 0x0F }).map
        (fun p => (p.1.registers.A, p.1.registers.PC, p.1.registers.flags)) =
        some (0x0F, 0x0002, (false, false, false, false)) ∧
      (execute 0xEE { CPU.ofRegs ⟨0xFF, 0, 0, 0, 0, 0, 0, 0, 0xFFFE, 0x0001⟩
          (Bus.withCart [0xEE, 0xF0]) with fetched := 0x3C }).map
        (fun p => (p.1.registers.A, p.1.registers.PC, p.1.registers.flags)) =
        some (0x0F, 0x0002, (false, false, false, false))) :=
  ⟨⟨by decide, by decide⟩, ⟨by decide, by decide⟩⟩

/-- The immediate-operand entries other than 0xE6 (ADD 0xC6, ADC 0xCE, SUB 0xD6, XOR 0xEE,
CP 0xFE) run the address mode `R_N8`: the outcome does not depend on the value `fetched`
held before, and with the byte n stored at PC the operation leaves PC advanced by 1 and A
computed from n. -/
theorem immediate_ALU_spec_of_ne_E6 (op : Nat)
    (hop : op = 0xC6 ∨ op = 0xCE ∨ op = 0xD6 ∨ op = 0xEE ∨ op = 0xFE) (c : CPU) (n f : Nat)
    (hread : c.bus.Read c.registers.PC = some n) (hn : n < 256) :
    execute op { c with fetched := f } = execute op c ∧
    ∃ c', execute op c = some (c', 0) ∧
      c'.registers.PC = (c.registers.PC + 1) % 65536 ∧
      c'.registers.A =
        (if op = 0xC6 then (c.registers.A + n) % 256
         else if op = 0xCE then
          (c.registers.A + n + (if c.registers.GetFlag CARRY_FLAG then 1 else 0)) % 256
         else if op = 0xD6 then (c.registers.A + 256 - n) % 256
         else if op = 0xEE then c.registers.A ^^^ n
         else c.registers.A) := by
  have hmode : R_N8 { c with fetched := f } = R_N8 c := rfl
  have hR : R_N8 c = some { (c.cpuCycles 1).withRegs
      (fun r => { r with PC := add16 r.PC 1 }) with fetched := n } := by
    unfold R_N8; rw [hread]; rfl
  rcases hop with rfl | rfl | rfl | rfl | rfl
  all_goals
    refine ⟨?_, ?_⟩
    · show (R_N8 _).bind _ = (R_N8 _).bind _
      rw [hmode]
    · show ∃ c', (R_N8 c).bind _ = some (c', 0) ∧ _
      rw [hR]
      refine ⟨_, rfl, ?_⟩
      simp [CPU.SetAddFlags, CPU.SetSubFlags, CPU.SetCpFlags, CPU.SetAdcFlags, CPU.SetXorFlags,
        CPU.withRegs, CPU.cpuCycles, add8, sub8, add16, u8, Nat.mod_eq_of_lt hn, GetFlag_eq]
        <;> omega

/-! ## Relative and conditional jumps -/

theorem E8_eq (c : CPU) (e : Nat) (hread : c.bus.Read c.registers.PC = some e) :
    E8 c = some { c with
      relAddr := toInt8 (e &&& 0x00FF), ticks := c.ticks + 4,
      registers := { c.registers with PC := add16 c.registers.PC 1 } } := by
  unfold E8
  rw [hread]
  simp only [Option.some_bind, cpuCycles_one, CPU.withRegs]

theorem R_A16_eq (c : CPU) (lo hi : Nat) (hlo : c.bus.Read c.registers.PC = some lo)
    (hhi : c.bus.Read (add16 c.registers.PC 1) = some hi) :
    R_A16 c = some { c with
      fetched := ((hi <<< 8) % 65536) ||| lo, ticks := c.ticks + 4 + 4,
      registers := { c.registers with PC := add16 c.registers.PC 2 } } := by
  unfold R_A16
  rw [hlo]
  simp only [Option.some_bind, cpuCycles_one]
  rw [hhi]
  simp only [Option.some_bind, cpuCycles_one, CPU.withRegs]

theorem jr_target (p e : Nat) (he : e < 256) :
    ((add16 (add16 ((p + 1) % 65536) 1) (int8ToU16 (toInt8 (e &&& 0x00FF))) : Nat) : Int) =
      ((p : Int) + 2 + (if e < 128 then (e : Int) else (e : Int) - 256)) % 65536 := by
  rw [int8ToU16_toInt8 e he]
  unfold add16
  split <;> omega

/-- C23: for every address p at which the JR opcode (0x18) sits (PC is p+1 after the
opcode fetch) and every operand byte e stored at p+1, the instruction returns 0 and leaves
PC = (p + 2 + sign_extend(e)) mod 2^16, where sign_extend(e) is e for e < 0x80 and e - 256
otherwise; each conditional JR (0x20 NZ, 0x28 Z, 0x30 NC, 0x38 C) does the same when its
condition holds. -/
theorem JR_target_spec (op : Nat) (c : CPU) (p e : Nat)
    (hpc : c.registers.PC = (p + 1) % 65536)
    (hread : c.bus.Read c.registers.PC = some e) (he : e < 256)
    (hcond : op = 0x18 ∨
      (op = 0x20 ∧ c.registers.GetFlag ZERO_FLAG = false) ∨
      (op = 0x28 ∧ c.registers.GetFlag ZERO_FLAG = true) ∨
      (op = 0x30 ∧ c.registers.GetFlag CARRY_FLAG = false) ∨
      (op = 0x38 ∧ c.registers.GetFlag CARRY_FLAG = true)) :
    ∃ c', execute op c = some (c', 0) ∧
      (c'.registers.PC : Int) =
        ((p : Int) + 2 + (if e < 128 then (e : Int) else (e : Int) - 256)) % 65536 := by
  have ht := jr_target p e he
  rw [← hpc] at ht
  simp only [GetFlag_eq] at hcond
  rcases hcond with rfl | ⟨rfl, hf⟩ | ⟨rfl, hf⟩ | ⟨rfl, hf⟩ | ⟨rfl, hf⟩
  · show ∃ c', (E8 c).bind JR_E8 = some (c', 0) ∧ _
    rw [E8_eq c e hread]
    exact ⟨_, rfl, ht⟩
  · show ∃ c', (E8 c).bind JR_NZ_E8 = some (c', 0) ∧ _
    rw [E8_eq c e hread]
    simp only [Option.some_bind, JR_NZ_E8, GetFlag_eq, hf, Bool.not_false, if_true]
    exact ⟨_, rfl, ht⟩
  · show ∃ c', (E8 c).bind JR_Z_E8 = some (c', 0) ∧ _
    rw [E8_eq c e hread]
    simp only [Option.some_bind, JR_Z_E8, GetFlag_eq, hf, if_true]
    exact ⟨_, rfl, ht⟩
  · show ∃ c', (E8 c).bind JR_NC_E8 = some (c', 0) ∧ _
    rw [E8_eq c e hread]
    simp only [Option.some_bind, JR_NC_E8, GetFlag_eq, hf, Bool.not_false, if_true]
    exact ⟨_, rfl, ht⟩
  · show ∃ c', (E8 c).bind JR_C_E8 = some (c', 0) ∧ _
    rw [E8_eq c e hread]
    simp only [Option.some_bind, JR_C_E8, GetFlag_eq, hf, if_true]
    exact ⟨_, rfl, ht⟩

theorem JR_target_spec_witness :
    (CPU.ofRegs ⟨0, 0x80, 0, 0, 0, 0, 0, 0, 0xFFFE, 0x0001⟩
        (Bus.withCart [0x28, 0xFE])).bus.Read 0x0001 = some 0xFE ∧
    ∃ c', execute 0x28 (CPU.ofRegs ⟨0, 0x80, 0, 0, 0, 0, 0, 0, 0xFFFE, 0x0001⟩
        (Bus.withCart [0x28, 0xFE])) = some (c', 0) ∧ (c'.registers.PC : Int) = 0 := by
  refine ⟨by decide, ?_⟩
  obtain ⟨c', h, hpc⟩ := JR_target_spec 0x28
    (CPU.ofRegs ⟨0, 0x80, 0, 0, 0, 0, 0, 0, 0xFFFE, 0x0001⟩ (Bus.withCart [0x28, 0xFE]))
    0 0xFE (by decide) (by decide) (by decide)
    (Or.inr (Or.inr (Or.inl ⟨rfl, by decide⟩)))
  exact ⟨c', h, hpc.trans (by decide)⟩

/-- C24: for each conditional jump (JR NZ 0x20, JR Z 0x28, JR NC 0x30, JR C 0x38, JP NZ,a16
0xC2) sitting at p (PC is p+1 after the opcode fetch) with the operand bytes lo at p+1 and
hi at p+2: when the tested condition holds the operation returns 0 and PC is the branch
target (p + 2 + sign_extend(lo) for JR, lo | (hi << 8) for JP), otherwise it returns 1 and
PC is the next instruction (p+2 for JR, p+3 for JP); the ticks charged by address mode and
operation plus the 4 ticks of the opcode fetch are the entry of `Ticks` indexed by the
returned value, `Ticks[0]` when taken and `Ticks[1]` when not. -/
theorem conditional_jump_spec (op : Nat) (c : CPU) (p lo hi : Nat) (taken : Bool)
    (hop : op = 0x20 ∨ op = 0x28 ∨ op = 0x30 ∨ op = 0x38 ∨ op = 0xC2)
    (hpc : c.registers.PC = (p + 1) % 65536)
    (hlo : c.bus.Read c.registers.PC = some lo)
    (hhi : op = 0xC2 → c.bus.Read ((c.registers.PC + 1) % 65536) = some hi)
    (hlo_lt : lo < 256) (hhi_lt : hi < 256)
    (htaken : taken =
      if op = 0x20 ∨ op = 0xC2 then !c.registers.GetFlag ZERO_FLAG
      else if op = 0x28 then c.registers.GetFlag ZERO_FLAG
      else if op = 0x30 then !c.registers.GetFlag CARRY_FLAG
      else c.registers.GetFlag CARRY_FLAG) :
    ∃ c' r ins, execute op c = some (c', r) ∧ Instructions op = some ins ∧
      r = (if taken then 0 else 1) ∧
      (c'.registers.PC : Int) =
        (if op = 0xC2 then
          (if taken then ((lo ||| (hi <<< 8) : Nat) : Int) else ((p : Int) + 3) % 65536)
         else
          (if taken then
            ((p : Int) + 2 + (if lo < 128 then (lo : Int) else (lo : Int) - 256)) % 65536
           else ((p : Int) + 2) % 65536)) ∧
      ∃ t, ins.Ticks.get? (if taken then 0 else 1) = some t ∧ c'.ticks + 4 = c.ticks + t := by
  have ht := jr_target p lo hlo_lt
  rw [← hpc] at ht
  have hshift : (hi <<< 8) % 65536 = hi <<< 8 := by
    rw [Nat.shiftLeft_eq]; omega
  have hnext1 : ((add16 c.registers.PC 1 : Nat) : Int) = ((p : Int) + 2) % 65536 := by
    rw [hpc]; unfold add16; omega
  have hnext2 : ((add16 c.registers.PC 2 : Nat) : Int) = ((p : Int) + 3) % 65536 := by
    rw [hpc]; unfold add16; omega
  have hE := E8_eq c lo hlo
  simp only [GetFlag_eq] at htaken
  rcases hop with rfl | rfl | rfl | rfl | rfl
  all_goals norm_num at htaken
  · show ∃ c' r ins, (E8 c).bind JR_NZ_E8 = some (c', r) ∧ _
    rw [hE]
    cases hfb : flagBit c.registers.F ZERO_FLAG
    all_goals
      rw [hfb] at htaken
      subst htaken
      simp only [Option.some_bind, JR_NZ_E8, GetFlag_eq, hfb, Bool.not_true, Bool.not_false,
        Bool.false_eq_true, if_true, if_false]
      refine ⟨_, _, _, rfl, rfl, rfl, ?_, _, rfl, ?_⟩
      · first | exact ht | exact hnext1
      · simp only [cpuCycles_one, CPU.withRegs]
  · show ∃ c' r ins, (E8 c).bind JR_Z_E8 = some (c', r) ∧ _
    rw [hE]
    cases hfb : flagBit c.registers.F ZERO_FLAG
    all_goals
      rw [hfb] at htaken
      subst htaken
      simp only [Option.some_bind, JR_Z_E8, GetFlag_eq, hfb, Bool.not_true, Bool.not_false,
        Bool.false_eq_true, if_true, if_false]
      refine ⟨_, _, _, rfl, rfl, rfl, ?_, _, rfl, ?_⟩
      · first | exact ht | exact hnext1
      · simp only [cpuCycles_one, CPU.withRegs]
  · show ∃ c' r ins, (E8 c).bind JR_NC_E8 = some (c', r) ∧ _
    rw [hE]
    cases hfb : flagBit c.registers.F CARRY_FLAG
    all_goals
      rw [hfb] at htaken
      subst htaken
      simp only [Option.some_bind, JR_NC_E8, GetFlag_eq, hfb, Bool.not_true, Bool.not_false,
        Bool.false_eq_true, if_true, if_false]
      refine ⟨_, _, _, rfl, rfl, rfl, ?_, _, rfl, ?_⟩
      · first | exact ht | exact hnext1
      · simp only [cpuCycles_one, CPU.withRegs]
  · show ∃ c' r ins, (E8 c).bind JR_C_E8 = some (c', r) ∧ _
    rw [hE]
    cases hfb : flagBit c.registers.F CARRY_FLAG
    all_goals
      rw [hfb] at htaken
      subst htaken
      simp only [Option.some_bind, JR_C_E8, GetFlag_eq, hfb, Bool.not_true, Bool.not_false,
        Bool.false_eq_true, if_true, if_false]
      refine ⟨_, _, _, rfl, rfl, rfl, ?_, _, rfl, ?_⟩
      · first | exact ht | exact hnext1
      · simp only [cpuCycles_one, CPU.withRegs]
  · show ∃ c' r ins, (R_A16 c).bind JP_NZ_A16 = some (c', r) ∧ _
    rw [R_A16_eq c lo hi hlo (hhi rfl)]
    cases hfb : flagBit c.registers.F ZERO_FLAG
    all_goals
      rw [hfb] at htaken
      subst htaken
      simp only [Option.some_bind, JP_NZ_A16, GetFlag_eq, hfb, Bool.not_true, Bool.not_false,
        Bool.false_eq_true, if_true, if_false]
      refine ⟨_, _, _, rfl, rfl, rfl, ?_, _, rfl, ?_⟩
      · first
          | exact hnext2
          | (show ((((hi <<< 8) % 65536 ||| lo : Nat)) : Int) = ((lo ||| hi <<< 8 : Nat) : Int)
             rw [hshift, Nat.lor_comm])
      · simp only [cpuCycles_one, CPU.withRegs]

theorem conditional_jump_spec_witness :
    (CPU.ofRegs ⟨0, 0, 0, 0, 0, 0, 0, 0, 0xFFFE, 0x0001⟩
        (Bus.withCart [0xC2, 0x34, 0x12])).bus.Read 0x0001 = some 0x34 ∧
    (CPU.ofRegs ⟨0, 0, 0, 0, 0, 0, 0, 0, 0xFFFE, 0x0001⟩
        (Bus.withCart [0xC2, 0x34, 0x12])).bus.Read 0x0002 = some 0x12 ∧
    ∃ c' ins, execute 0xC2 (CPU.ofRegs ⟨0, 0, 0, 0, 0, 0, 0, 0, 0xFFFE, 0x0001⟩
        (Bus.withCart [0xC2, 0x34, 0x12])) = some (c', 0) ∧
      Instructions 0xC2 = some ins ∧ (c'.registers.PC : Int) = 0x1234 ∧
      ins.Ticks.get? 0 = some 16 ∧ c'.ticks + 4 = 16 := by
  refine ⟨by decide, by decide, ?_⟩
  obtain ⟨c', r, ins, h, hins, hr, hpc, t, ht, hticks⟩ := conditional_jump_spec 0xC2
    (CPU.ofRegs ⟨0, 0, 0, 0, 0, 0, 0, 0, 0xFFFE, 0x0001⟩ (Bus.withCart [0xC2, 0x34, 0x12]))
    0 0x34 0x12 true (by decide) (by decide) (by decide) (fun _ => by decide) (by decide)
    (by decide) (by decide)
  have hr0 : r = 0 := hr
  subst hr0
  have hi : ins = ⟨"JP_NZ_A16", 3, [16, 12], R_A16, JP_NZ_A16⟩ :=
    (Option.some.inj hins).symm
  subst hi
  have ht16 : t = 16 := (Option.some.inj ht).symm
  subst ht16
  exact ⟨c', _, h, rfl, hpc.trans (by decide), rfl, by simpa [CPU.ofRegs] using hticks⟩

/-! ## The stack: CALL, RET, RST -/

theorem RAM_Read_Write_same (r : RAM) (a v : Nat)
    (ha : (0xC000 ≤ a ∧ a < 0xE000) ∨ (0xFF80 ≤ a ∧ a < 0xFFFF)) :
    (r.Write a v).Read a = v := by
  unfold RAM.Write
  rcases ha with ha | ha
  · rw [if_pos ha]
    unfold RAM.Read
    rw [if_pos ha]
    dsimp only
    rw [if_pos rfl]
  · have hn : ¬ (0xC000 ≤ a ∧ a < 0xE000) := by omega
    rw [if_neg hn, if_pos ha]
    unfold RAM.Read
    rw [if_neg hn, if_pos ha]
    dsimp only
    rw [if_pos rfl]

theorem RAM_Read_Write_other (r : RAM) (a b v : Nat) (hne : b ≠ a) :
    (r.Write a v).Read b = r.Read b := by
  unfold RAM.Write
  by_cases h1 : 0xC000 ≤ a ∧ a < 0xE000
  · rw [if_pos h1]
    unfold RAM.Read
    by_cases h2 : 0xC000 ≤ b ∧ b < 0xE000
    · rw [if_pos h2, if_pos h2]
      dsimp only
      rw [if_neg (by omega : ¬ b - 0xC000 = a - 0xC000)]
    · rw [if_neg h2, if_neg h2]
  · rw [if_neg h1]
    by_cases h3 : 0xFF80 ≤ a ∧ a < 0xFFFF
    · rw [if_pos h3]
      unfold RAM.Read
      by_cases h2 : 0xC000 ≤ b ∧ b < 0xE000
      · rw [if_pos h2, if_pos h2]
      · rw [if_neg h2, if_neg h2]
        by_cases h4 : 0xFF80 ≤ b ∧ b < 0xFFFF
        · rw [if_pos h4, if_pos h4]
          dsimp only
          rw [if_neg (by omega : ¬ b - 0xFF80 = a - 0xFF80)]
        · rw [if_neg h4, if_neg h4]
    · rw [if_neg h3]

theorem Bus_Write_ram (b : Bus) (a v : Nat)
    (ha : (0xC000 ≤ a ∧ a < 0xE000) ∨ (0xFF80 ≤ a ∧ a < 0xFFFF)) :
    b.Write a v = some { b with ram := b.ram.Write a v } := by
  unfold Bus.Write
  rcases ha with ha | ha
  · rw [if_neg (by omega), if_neg (by omega), if_pos (by omega)]
  · rw [if_neg (by omega), if_neg (by omega), if_neg (by omega), if_neg (by omega),
      if_neg (by omega), if_neg (by omega), if_neg (by omega), if_pos (by omega)]

theorem Bus_Read_ram (b : Bus) (a : Nat)
    (ha : (0xC000 ≤ a ∧ a < 0xE000) ∨ (0xFF80 ≤ a ∧ a < 0xFFFF)) :
    b.Read a = some (b.ram.Read a) := by
  unfold Bus.Read
  rcases ha with ha | ha
  · rw [if_neg (by omega), if_neg (by omega), if_pos (by omega)]
  · rw [if_neg (by omega), if_neg (by omega), if_neg (by omega), if_neg (by omega),
      if_neg (by omega), if_neg (by omega), if_neg (by omega), if_pos (by omega)]

/-- The spec's Push16 with the two stack bytes in writable RAM: the high byte goes to
SP-1, the low byte to SP-2, SP decreases by 2 and two machine cycles are charged. -/
theorem StackPush16_eq (c : CPU) (v : Nat)
    (hsp : (0xC002 ≤ c.registers.SP ∧ c.registers.SP ≤ 0xE000) ∨
      (0xFF82 ≤ c.registers.SP ∧ c.registers.SP ≤ 0xFFFF)) :
    c.StackPush16 v = some { c with
      registers := { c.registers with SP := c.registers.SP - 2 },
      bus := { c.bus with
        ram := RAM.Write (RAM.Write c.bus.ram (c.registers.SP - 1) ((v >>> 8) % 256))
          (c.registers.SP - 2) (v % 256) },
      ticks := c.ticks + 4 + 4 } := by
  have e1 : sub16 c.registers.SP 1 = c.registers.SP - 1 := by unfold sub16; omega
  have e2 : sub16 (c.registers.SP - 1) 1 = c.registers.SP - 2 := by unfold sub16; omega
  unfold CPU.StackPush16
  simp only [CPU.withRegs, e1]
  rw [Bus_Write_ram _ _ _ (by omega)]
  simp only [Option.some_bind, cpuCycles_one, e2]
  rw [Bus_Write_ram _ _ _ (by omega)]
  rfl

/-- The spec's Pop16 with the two stack bytes in writable RAM: the low byte is read at
SP, the high byte at SP+1, SP increases by 2 and two machine cycles are charged. -/
theorem StackPop16_eq (c : CPU)
    (hsp : (0xC000 ≤ c.registers.SP ∧ c.registers.SP ≤ 0xDFFE) ∨
      (0xFF80 ≤ c.registers.SP ∧ c.registers.SP ≤ 0xFFFD)) :
    c.StackPop16 = some ({ c with
      registers := { c.registers with SP := c.registers.SP + 2 },
      ticks := c.ticks + 4 + 4 },
      ((c.bus.ram.Read (c.registers.SP + 1) <<< 8) % 65536) |||
        c.bus.ram.Read c.registers.SP) := by
  have e1 : add16 c.registers.SP 1 = c.registers.SP + 1 := by unfold add16; omega
  have e2 : add16 (c.registers.SP + 1) 1 = c.registers.SP + 2 := by unfold add16; omega
  unfold CPU.StackPop16
  rw [Bus_Read_ram _ _ (by omega)]
  simp only [Option.some_bind, cpuCycles_one, CPU.withRegs, e1]
  rw [Bus_Read_ram _ _ (by omega)]
  simp only [Option.some_bind, cpuCycles_one, CPU.withRegs, e2]

theorem execute_CD_entry (c : CPU) : execute 0xCD c = (A16_R c).bind CALL_A16 := by
  have h : Instructions 0xCD = some ⟨"CALL_A16", 3, [24], A16_R, CALL_A16⟩ := rfl
  unfold execute
  rw [h, Option.some_bind]

theorem execute_C9_entry (c : CPU) : execute 0xC9 c = (NONE c).bind RET := by
  have h : Instructions 0xC9 = some ⟨"RET", 1, [16], NONE, RET⟩ := rfl
  unfold execute
  rw [h, Option.some_bind]

theorem execute_E7_entry (c : CPU) : execute 0xE7 c = (NONE c).bind RST_20 := by
  have h : Instructions 0xE7 = some ⟨"RST_$20", 3, [16], NONE, RST_20⟩ := rfl
  unfold execute
  rw [h, Option.some_bind]

theorem execute_EF_entry (c : CPU) : execute 0xEF c = (NONE c).bind RST_EF := by
  have h : Instructions 0xEF = some ⟨"RST_$EF", 3, [16], NONE, RST_EF⟩ := rfl
  unfold execute
  rw [h, Option.some_bind]

theorem A16_R_eq : A16_R = R_A16 := by
  unfold A16_R
  exact Eq.refl R_A16

theorem NONE_eq (c : CPU) : NONE c = some c := by
  unfold NONE
  exact Eq.refl (some c)

/-- C25: with the stack in writable RAM (SP-1 and SP-2 both in WRAM or both in HRAM) and
the stack helpers as the spec's Push16/Pop16, for every call site p (PC is p+1 after the
opcode fetch) and target t = lo | (hi << 8) read at p+1 and p+2: CALL a16 (0xCD) leaves
the low byte of p+3 at SP-2 and its high byte at SP-1, SP decreased by 2 and PC = t; a RET
(0xC9) run on the resulting stack then leaves PC = p+3 and SP at its value before the
CALL. -/
theorem CALL_RET_spec (c : CPU) (p lo hi : Nat)
    (hpc : c.registers.PC = (p + 1) % 65536)
    (hlo : c.bus.Read c.registers.PC = some lo)
    (hhi : c.bus.Read ((c.registers.PC + 1) % 65536) = some hi)
    (hhi_lt : hi < 256)
    (hsp : (0xC002 ≤ c.registers.SP ∧ c.registers.SP ≤ 0xE000) ∨
      (0xFF82 ≤ c.registers.SP ∧ c.registers.SP ≤ 0xFFFF)) :
    ∃ c1, execute 0xCD c = some (c1, 0) ∧
      c1.registers.SP = c.registers.SP - 2 ∧
      c1.registers.PC = lo ||| (hi <<< 8) ∧
      c1.bus.Read (c.registers.SP - 2) = some ((p + 3) % 65536 % 256) ∧
      c1.bus.Read (c.registers.SP - 1) = some ((p + 3) % 65536 / 256) ∧
      ∀ pc, ∃ c2, execute 0xC9 (c1.withRegs (fun r => { r with PC := pc })) = some (c2, 0) ∧
        c2.registers.PC = (p + 3) % 65536 ∧ c2.registers.SP = c.registers.SP := by
  have hshift : (hi <<< 8) % 65536 = hi <<< 8 := by
    rw [Nat.shiftLeft_eq]; omega
  have hret : add16 c.registers.PC 2 = (p + 3) % 65536 := by
    rw [hpc]; unfold add16; omega
  have hv : (p + 3) % 65536 < 65536 := Nat.mod_lt _ (by decide)
  have hhigh : ((p + 3) % 65536) >>> 8 % 256 = (p + 3) % 65536 / 256 := by
    rw [Nat.shiftRight_eq_div_pow]
    have : (2 : Nat) ^ 8 = 256 := by decide
    rw [this]
    omega
  have hjoin := pair_split ((p + 3) % 65536) hv
  have hw1 : (0xC000 ≤ c.registers.SP - 1 ∧ c.registers.SP - 1 < 0xE000) ∨
      (0xFF80 ≤ c.registers.SP - 1 ∧ c.registers.SP - 1 < 0xFFFF) := by omega
  have hw2 : (0xC000 ≤ c.registers.SP - 2 ∧ c.registers.SP - 2 < 0xE000) ∨
      (0xFF80 ≤ c.registers.SP - 2 ∧ c.registers.SP - 2 < 0xFFFF) := by omega
  have hne : c.registers.SP - 1 ≠ c.registers.SP - 2 := by omega
  rw [execute_CD_entry, A16_R_eq, R_A16_eq c lo hi hlo hhi]
  simp only [Option.some_bind, CALL_A16]
  rw [StackPush16_eq _ _ (by exact hsp)]
  refine ⟨_, rfl, ?_, ?_, ?_, ?_, ?_⟩
  · simp only [CPU.withRegs, CPU.cpuCycles]
  · simp only [CPU.withRegs, CPU.cpuCycles, hshift]
    rw [Nat.lor_comm]
  · rw [Bus_Read_ram _ _ hw2]
    simp only [CPU.withRegs, CPU.cpuCycles, RAM_Read_Write_same _ _ _ hw2, hret]
  · rw [Bus_Read_ram _ _ hw1]
    simp only [CPU.withRegs, CPU.cpuCycles, RAM_Read_Write_other _ _ _ _ hne,
      RAM_Read_Write_same _ _ _ hw1, hret, hhigh]
  · intro pc
    have hpop : (0xC000 ≤ c.registers.SP - 2 ∧ c.registers.SP - 2 ≤ 0xDFFE) ∨
        (0xFF80 ≤ c.registers.SP - 2 ∧ c.registers.SP - 2 ≤ 0xFFFD) := by omega
    have e1 : c.registers.SP - 2 + 1 = c.registers.SP - 1 := by omega
    have e2 : c.registers.SP - 2 + 2 = c.registers.SP := by omega
    have hs : (((p + 3) % 65536) >>> 8 % 256) <<< 8 % 65536 =
        (((p + 3) % 65536) >>> 8 % 256) <<< 8 := by
      rw [Nat.shiftLeft_eq]
      have : ((p + 3) % 65536) >>> 8 % 256 < 256 := Nat.mod_lt _ (by decide)
      omega
    rw [execute_C9_entry, NONE_eq, Option.some_bind]
    unfold RET
    rw [StackPop16_eq _ (by exact hpop)]
    refine ⟨_, rfl, ?_, ?_⟩
    · simp only [CPU.withRegs, CPU.cpuCycles, e1, RAM_Read_Write_other _ _ _ _ hne,
        RAM_Read_Write_same _ _ _ hw1, RAM_Read_Write_same _ _ _ hw2, hret, hs, hjoin]
    · simp only [CPU.withRegs, CPU.cpuCycles, e2]

set_option maxRecDepth 8192 in
theorem CALL_RET_spec_witness :
    (CPU.ofRegs ⟨0, 0, 0, 0, 0, 0, 0, 0, 0xFFFE, 0x0101⟩
        (Bus.withCart (List.replicate 0x100 0 ++ [0xCD, 0x0A, 0x01]))).bus.Read 0x0101 =
      some 0x0A ∧
    (CPU.ofRegs ⟨0, 0, 0, 0, 0, 0, 0, 0, 0xFFFE, 0x0101⟩
        (Bus.withCart (List.replicate 0x100 0 ++ [0xCD, 0x0A, 0x01]))).bus.Read 0x0102 =
      some 0x01 ∧
    ∃ c1, execute 0xCD (CPU.ofRegs ⟨0, 0, 0, 0, 0, 0, 0, 0, 0xFFFE, 0x0101⟩
        (Bus.withCart (List.replicate 0x100 0 ++ [0xCD, 0x0A, 0x01]))) = some (c1, 0) ∧
      c1.registers.SP = 0xFFFC ∧ c1.registers.PC = 0x010A ∧
      c1.bus.Read 0xFFFC = some 0x03 ∧ c1.bus.Read 0xFFFD = some 0x01 ∧
      ∃ c2, execute 0xC9 (c1.withRegs (fun r => { r with PC := 0x010B })) = some (c2, 0) ∧
        c2.registers.PC = 0x0103 ∧ c2.registers.SP = 0xFFFE := by
  refine ⟨by decide, by decide, ?_⟩
  obtain ⟨c1, h, hsp, hpc, hr1, hr2, hret⟩ := CALL_RET_spec
    (CPU.ofRegs ⟨0, 0, 0, 0, 0, 0, 0, 0, 0xFFFE, 0x0101⟩
      (Bus.withCart (List.replicate 0x100 0 ++ [0xCD, 0x0A, 0x01])))
    0x0100 0x0A 0x01 (by decide) (by decide) (by decide) (by decide)
    (Or.inr ⟨by decide, by decide⟩)
  obtain ⟨c2, h2, hp2, hs2⟩ := hret 0x010B
  exact ⟨c1, h, hsp.trans (by decide), hpc.trans (by decide), hr1.trans (by decide),
    hr2.trans (by decide), c2, h2, hp2.trans (by decide), hs2.trans (by decide)⟩

/-- C26 (the code evaluated): with SP = 0xFFFE and PC = 0x0101, entry 0xEF pushes PC
(0x01 at 0xFFFC and 0x01 at 0xFFFD, SP = 0xFFFC) and sets PC = 0x00EF, not the vector
0xEF AND 0x38 = 0x0028; the sibling entry 0xE7 in the same state sets PC = 0x0020, which is
0xE7 AND 0x38. -/
theorem RST_EF_defect :
    (execute 0xEF (CPU.ofRegs ⟨0, 0, 0, 0, 0, 0, 0, 0, 0xFFFE, 0x0101⟩ Bus.blank)).map
        (fun p => (p.1.registers.PC, p.1.registers.SP, p.1.bus.Read 0xFFFC,
          p.1.bus.Read 0xFFFD, p.2)) =
      some (0x00EF, 0xFFFC, some 0x01, some 0x01, 0) ∧
    (execute 0xE7 (CPU.ofRegs ⟨0, 0, 0, 0, 0, 0, 0, 0, 0xFFFE, 0x0101⟩ Bus.blank)).map
        (fun p => (p.1.registers.PC, p.1.registers.SP, p.1.bus.Read 0xFFFC,
          p.1.bus.Read 0xFFFD, p.2)) =
      some (0x0020, 0xFFFC, some 0x01, some 0x01, 0) ∧
    (0xEF &&& 0x38 = 0x0028 ∧ 0xE7 &&& 0x38 = 0x0020) :=
  ⟨by decide, by decide, by decide, by decide⟩

/-- Both RST entries push the current PC with the stack in writable RAM: the low byte of
PC goes to SP-2, the high byte to SP-1 and SP decreases by 2; entry 0xE7 then sets
PC = 0x0020 and entry 0xEF sets PC = 0x00EF. -/
theorem RST_push_spec (op : Nat) (hop : op = 0xE7 ∨ op = 0xEF) (c : CPU)
    (hpc : c.registers.PC < 65536)
    (hsp : (0xC002 ≤ c.registers.SP ∧ c.registers.SP ≤ 0xE000) ∨
      (0xFF82 ≤ c.registers.SP ∧ c.registers.SP ≤ 0xFFFF)) :
    ∃ c1, execute op c = some (c1, 0) ∧
      c1.registers.SP = c.registers.SP - 2 ∧
      c1.bus.Read (c.registers.SP - 2) = some (c.registers.PC % 256) ∧
      c1.bus.Read (c.registers.SP - 1) = some (c.registers.PC / 256) ∧
      c1.registers.PC = (if op = 0xE7 then 0x0020 else 0x00EF) := by
  have hhigh : c.registers.PC >>> 8 % 256 = c.registers.PC / 256 := by
    rw [Nat.shiftRight_eq_div_pow]
    have : (2 : Nat) ^ 8 = 256 := by decide
    rw [this]
    omega
  have hw1 : (0xC000 ≤ c.registers.SP - 1 ∧ c.registers.SP - 1 < 0xE000) ∨
      (0xFF80 ≤ c.registers.SP - 1 ∧ c.registers.SP - 1 < 0xFFFF) := by omega
  have hw2 : (0xC000 ≤ c.registers.SP - 2 ∧ c.registers.SP - 2 < 0xE000) ∨
      (0xFF80 ≤ c.registers.SP - 2 ∧ c.registers.SP - 2 < 0xFFFF) := by omega
  have hne : c.registers.SP - 1 ≠ c.registers.SP - 2 := by omega
  rcases hop with rfl | rfl
  · rw [execute_E7_entry, NONE_eq, Option.some_bind]
    unfold RST_20
    rw [StackPush16_eq _ _ hsp]
    refine ⟨_, rfl, ?_, ?_, ?_, ?_⟩
    · simp only [CPU.withRegs, CPU.cpuCycles]
    · rw [Bus_Read_ram _ _ hw2]
      simp only [CPU.withRegs, CPU.cpuCycles, RAM_Read_Write_same _ _ _ hw2]
    · rw [Bus_Read_ram _ _ hw1]
      simp only [CPU.withRegs, CPU.cpuCycles, RAM_Read_Write_other _ _ _ _ hne,
        RAM_Read_Write_same _ _ _ hw1, hhigh]
    · simp only [CPU.withRegs, CPU.cpuCycles, if_true]
  · rw [execute_EF_entry, NONE_eq, Option.some_bind]
    unfold RST_EF
    rw [StackPush16_eq _ _ hsp]
    refine ⟨_, rfl, ?_, ?_, ?_, ?_⟩
    · simp only [CPU.withRegs, CPU.cpuCycles]
    · rw [Bus_Read_ram _ _ hw2]
      simp only [CPU.withRegs, CPU.cpuCycles, RAM_Read_Write_same _ _ _ hw2]
    · rw [Bus_Read_ram _ _ hw1]
      simp only [CPU.withRegs, CPU.cpuCycles, RAM_Read_Write_other _ _ _ _ hne,
        RAM_Read_Write_same _ _ _ hw1, hhigh]
    · simp only [CPU.withRegs, CPU.cpuCycles]
      decide

/-! ## The cartridge bytes under bus writes -/

theorem writeCallee_cart_lt (b : Bus) (a : Nat) (h : b.writeCallee a = .cart) : a < 0x8000 := by
  by_contra hlt
  unfold Bus.writeCallee at h
  rw [if_neg hlt] at h
  split_ifs at h

/-- C31: for every bus, address and value, when `Bus.Write` returns, the cartridge has the
same length and the same byte at every index other than the address written, and for an
address at or above 0x8000 the cartridge is the same; the write returns for every address at
or above 0x8000, and it fails to return exactly when a cartridge is connected and the
address is below 0x8000 and past the end of the image (the index panic of `Cart.Write`). -/
theorem Bus_Write_cart_frame (b b1 : Bus) (a v : Nat) (hw : b.Write a v = some b1) :
    b1.cart.map List.length = b.cart.map List.length ∧
    (∀ i, i ≠ a → b1.cart.bind (fun c => c.get? i) = b.cart.bind (fun c => c.get? i)) ∧
    (0x8000 ≤ a → b1.cart = b.cart) ∧
    (∀ a2 v2, 0x8000 ≤ a2 → ∃ b2, b.Write a2 v2 = some b2 ∧ b2.cart = b.cart) ∧
    (∀ a2 v2, b.Write a2 v2 = none ↔
      ∃ rom, b.cart = some rom ∧ a2 < 0x8000 ∧ rom.length ≤ a2) := by
  have key : ∀ a2 v2 b2, b.Write a2 v2 = some b2 →
      (b2.cart = b.cart ∧ b.writeCallee a2 ≠ .cart) ∨
      (∃ rom, b.cart = some rom ∧ a2 < rom.length ∧ b2.cart = some (rom.set a2 v2) ∧
        b.writeCallee a2 = .cart) := by
    intro a2 v2 b2 h
    rw [Bus_Write_eq_of_writeCallee] at h
    cases hc : b.writeCallee a2 <;> rw [hc] at h <;> simp only at h
    · right
      cases hrom : b.cart with
      | none => rw [hrom] at h; exact absurd h (by simp)
      | some rom =>
        rw [hrom] at h
        simp only [Option.some_bind, Cart.Write] at h
        by_cases hlt : a2 < rom.length
        · rw [if_pos hlt] at h
          simp only [Option.map_some', Option.some.injEq] at h
          exact ⟨rom, rfl, hlt, by rw [← h], rfl⟩
        · rw [if_neg hlt] at h
          exact absurd h (by simp)
    all_goals
      left
      simp only [Option.some.injEq] at h
      exact ⟨by rw [← h], by simp⟩
  have hnone : ∀ a2 v2, b.Write a2 v2 = none ↔
      ∃ rom, b.cart = some rom ∧ a2 < 0x8000 ∧ rom.length ≤ a2 := by
    intro a2 v2
    constructor
    · intro h
      rw [Bus_Write_eq_of_writeCallee] at h
      cases hc : b.writeCallee a2 <;> rw [hc] at h <;> simp only at h
      · cases hrom : b.cart with
        | none =>
          unfold Bus.writeCallee at hc
          rw [hrom] at hc
          split_ifs at hc
        | some rom =>
          rw [hrom] at h
          simp only [Option.some_bind, Cart.Write] at h
          by_cases hlt : a2 < rom.length
          · rw [if_pos hlt] at h
            exact absurd h (by simp)
          · exact ⟨rom, rfl, writeCallee_cart_lt b a2 hc, by omega⟩
      all_goals exact absurd h (by simp)
    · rintro ⟨rom, hrom, hlt, hlen⟩
      unfold Bus.Write
      rw [if_pos hlt, hrom]
      simp only [Cart.Write]
      rw [if_neg (by omega)]
      rfl
  have hhigh : ∀ a2 v2, 0x8000 ≤ a2 → ∃ b2, b.Write a2 v2 = some b2 ∧ b2.cart = b.cart := by
    intro a2 v2 h2
    cases hres : b.Write a2 v2 with
    | none =>
      obtain ⟨rom, _, hlt, _⟩ := (hnone a2 v2).1 hres
      omega
    | some b2 =>
      rcases key a2 v2 b2 hres with ⟨h, _⟩ | ⟨rom, _, _, _, hc⟩
      · exact ⟨b2, rfl, h⟩
      · have := writeCallee_cart_lt b a2 hc
        omega
  refine ⟨?_, ?_, ?_, hhigh, hnone⟩
  · rcases key a v b1 hw with ⟨h, _⟩ | ⟨rom, hrom, _, h, _⟩
    · rw [h]
    · rw [h, hrom]
      simp
  · intro i hi
    rcases key a v b1 hw with ⟨h, _⟩ | ⟨rom, hrom, _, h, _⟩
    · rw [h]
    · rw [h, hrom]
      simp only [Option.some_bind]
      simp [List.getElem?_set, Ne.symm hi]
  · intro h8
    obtain ⟨b2, h2, hc⟩ := hhigh a v h8
    rw [hw] at h2
    rw [Option.some.inj h2]
    exact hc

theorem Bus_Write_cart_frame_witness :
    (Bus.withCart [0x00, 0xC3, 0x50]).Write 0x0001 0x7F =
      some (Bus.withCart [0x00, 0x7F, 0x50]) ∧
    (Bus.withCart [0x00, 0x7F, 0x50]).cart.map List.length =
      (Bus.withCart [0x00, 0xC3, 0x50]).cart.map List.length ∧
    ∀ i, i ≠ 0x0001 →
      (Bus.withCart [0x00, 0x7F, 0x50]).cart.bind (fun c => c.get? i) =
        (Bus.withCart [0x00, 0xC3, 0x50]).cart.bind (fun c => c.get? i) :=
  have h := Bus_Write_cart_frame (Bus.withCart [0x00, 0xC3, 0x50])
    (Bus.withCart [0x00, 0x7F, 0x50]) 0x0001 0x7F rfl
  ⟨rfl, h.1, h.2.1⟩

/-! ## The logo check -/

theorem Logo_length : Logo.length = 0x30 := by decide

theorem verifyLogoLoop_eq (c : Cart) : ∀ n i, i + n ≤ 0x30 → i + n + 0x0104 ≤ c.length →
    c.verifyLogoLoop n i =
      some (decide (∀ j, j < n → c.get? (0x0104 + (i + j)) = Logo.get? (i + j))) := by
  intro n
  induction n with
  | zero =>
    intro i _ _
    simp [Cart.verifyLogoLoop]
  | succ n ih =>
    intro i h1 h2
    have hc : 0x0104 + i < c.length := by omega
    have hl : i < Logo.length := by rw [Logo_length]; omega
    obtain ⟨b, hb⟩ : ∃ b, c.get? (0x0104 + i) = some b := ⟨_, List.get?_eq_get hc⟩
    obtain ⟨l, hlg⟩ : ∃ l, Logo.get? i = some l := ⟨_, List.get?_eq_get hl⟩
    unfold Cart.verifyLogoLoop
    rw [Nat.add_comm i 0x0104]
    simp only [Cart.Read, hb, hlg, Option.some_bind]
    rw [ih (i + 1) (by omega) (by omega)]
    by_cases hbl : b = l
    · have hne : (b != l) = false := by rw [hbl]; simp
      rw [hne]
      simp only [Bool.false_eq_true, if_false, Option.some.injEq, decide_eq_decide]
      constructor
      · intro h j hj
        rcases Nat.eq_zero_or_pos j with rfl | hpos
        · show c.get? (0x0104 + i) = Logo.get? i
          rw [hb, hlg, hbl]
        · have := h (j - 1) (by omega)
          rwa [show i + 1 + (j - 1) = i + j by omega] at this
      · intro h j hj
        have := h (j + 1) (by omega)
        rwa [show i + (j + 1) = i + 1 + j by omega] at this
    · have hne : (b != l) = true := by simp [hbl]
      rw [hne]
      simp only [if_true, Option.some.injEq]
      symm
      rw [decide_eq_false_iff_not]
      intro h
      have h0 : c.get? (0x0104 + i) = Logo.get? i := h 0 (by omega)
      rw [hb, hlg] at h0
      exact hbl (Option.some.inj h0)

/-- C32: for every cartridge image of at least 0x0134 bytes, `VerifyLogoDump` returns, and
it returns true iff for every i in 0..47 the byte at 0x0104 + i equals `Logo[i]`; two such
images that agree on the bytes 0x0104..0x0133 give the same result. -/
theorem VerifyLogoDump_spec (c : Cart) (hlen : 0x0134 ≤ c.length) :
    ∃ r, c.VerifyLogoDump = some r ∧
      (r = true ↔ ∀ i, i < 48 → c.get? (0x0104 + i) = Logo.get? i) ∧
      ∀ c2 : Cart, 0x0134 ≤ c2.length →
        (∀ i, i < 48 → c2.get? (0x0104 + i) = c.get? (0x0104 + i)) →
        c2.VerifyLogoDump = c.VerifyLogoDump := by
  have h := verifyLogoLoop_eq c 0x30 0 (by omega) (by omega)
  simp only [Nat.zero_add] at h
  refine ⟨_, h, ?_, ?_⟩
  · rw [decide_eq_true_iff]
  · intro c2 hlen2 hagree
    have h2 := verifyLogoLoop_eq c2 0x30 0 (by omega) (by omega)
    simp only [Nat.zero_add] at h2
    unfold Cart.VerifyLogoDump
    rw [h, h2]
    simp only [Option.some.injEq, decide_eq_decide]
    constructor
    · intro hh j hj
      rw [← hagree j hj]
      exact hh j hj
    · intro hh j hj
      rw [hagree j hj]
      exact hh j hj

set_option maxRecDepth 8192 in
theorem VerifyLogoDump_spec_witness :
    0x0134 ≤ (List.replicate 0x0104 0 ++ Logo).length ∧
    Cart.VerifyLogoDump (List.replicate 0x0104 0 ++ Logo) = some true ∧
    ∀ i, i < 48 → (List.replicate 0x0104 0 ++ Logo).get? (0x0104 + i) = Logo.get? i := by
  have hlen : 0x0134 ≤ (List.replicate 0x0104 0 ++ Logo).length := by decide
  obtain ⟨r, hr, hiff, _⟩ := VerifyLogoDump_spec (List.replicate 0x0104 0 ++ Logo) hlen
  have ht : Cart.VerifyLogoDump (List.replicate 0x0104 0 ++ Logo) = some true := by decide
  exact ⟨hlen, ht, hiff.1 (Option.some.inj (hr.symm.trans ht))⟩

/-! ## The header checksum -/

theorem sub8_sub8_int (x b : Nat) :
    ((sub8 (sub8 x b) 1 : Nat) : Int) = ((x : Int) - b - 1) % 256 := by
  unfold sub8
  omega

theorem checksumLoop_eq (cart : Cart) : ∀ n address checksum, address + n ≤ cart.length →
    ∃ r, LoadCart_checksumLoop cart n address checksum = some r ∧
      (r : Int) % 256 =
        ((checksum : Int) - (((cart.drop address).take n).sum : Nat) - n) % 256 ∧
      (0 < n → r < 256) := by
  intro n
  induction n with
  | zero =>
    intro address checksum _
    exact ⟨checksum, rfl, by simp, fun h => absurd h (by omega)⟩
  | succ n ih =>
    intro address checksum hlen
    have hlt : address < cart.length := by omega
    have hd : cart.drop address = cart.get ⟨address, hlt⟩ :: cart.drop (address + 1) :=
      List.drop_eq_getElem_cons hlt
    have hg : cart.get? address = some (cart.get ⟨address, hlt⟩) := List.get?_eq_get hlt
    obtain ⟨r, hr, hmod, hlt256⟩ := ih (address + 1)
      (sub8 (sub8 checksum (cart.get ⟨address, hlt⟩)) 1) (by omega)
    refine ⟨r, ?_, ?_, ?_⟩
    · unfold LoadCart_checksumLoop
      simp only [Cart.Read, hg, Option.some_bind]
      exact hr
    · have hs : ((cart.drop address).take (n + 1)).sum =
          cart.get ⟨address, hlt⟩ + ((cart.drop (address + 1)).take n).sum := by
        rw [hd, List.take_succ_cons, List.sum_cons]
      rw [hs]
      rw [sub8_sub8_int] at hmod
      omega
    · intro _
      rcases Nat.eq_zero_or_pos n with rfl | hpos
      · have : r = sub8 (sub8 checksum (cart.get ⟨address, hlt⟩)) 1 := by
          have h0 : LoadCart_checksumLoop cart 0 (address + 1)
              (sub8 (sub8 checksum (cart.get ⟨address, hlt⟩)) 1) =
              some (sub8 (sub8 checksum (cart.get ⟨address, hlt⟩)) 1) := rfl
          rw [h0] at hr
          exact (Option.some.inj hr).symm
        rw [this]
        exact sub8_lt _ _
      · exact hlt256 hpos

theorem getD_header_slice (cart : Cart) (i : Nat) (hi : i < 0x50) :
    ((cart.drop 0x0100).take 0x50).getD i 0 = cart.getD (0x0100 + i) 0 := by
  simp [List.getD_eq_getElem?_getD, List.getElem?_take, hi, List.getElem?_drop]

/-- C33: for every cartridge image of at least 0x0150 bytes, the checksum loop of `LoadCart`
returns the byte (-(sum of the 25 bytes at 0x0134..0x014C) - 25) mod 256, and the check is
reported "PASSED" iff that byte equals the byte at 0x014D (the parsed `HeaderChecksum`),
"FAILED" otherwise. -/
theorem LoadCart_checksum_spec (cart : Cart) (hlen : 0x0150 ≤ cart.length) :
    ∃ checksum, LoadCart_checksum cart = some checksum ∧
      (checksum : Int) = (-(((cart.drop 0x0134).take 25).sum : Nat) - 25) % 256 ∧
      LoadCart_checksumPassed cart =
        some (if checksum = cart.getD 0x014D 0 then "PASSED" else "FAILED") ∧
      (LoadCart_checksumPassed cart = some "PASSED" ↔ checksum = cart.getD 0x014D 0) := by
  obtain ⟨r, hr, hmod, hlt⟩ := checksumLoop_eq cart 25 0x0134 0 (by omega)
  have hr256 : r < 256 := hlt (by omega)
  have hpassed : LoadCart_checksumPassed cart =
      some (if r = cart.getD 0x014D 0 then "PASSED" else "FAILED") := by
    have hc : LoadCart_checksum cart = some r := hr
    have hslice : ((cart.drop 0x0100).take 0x50).length = 0x50 := by
      rw [List.length_take, List.length_drop]; omega
    unfold LoadCart_checksumPassed LoadCart_cartHeader binaryReadCartHeader
    rw [if_pos hlen, if_neg (by omega), hc]
    simp only [Option.some_bind, utilIf, and_255, Nat.mod_eq_of_lt hr256,
      getD_header_slice cart 0x4D (by omega), beq_eq_decide_nat, decide_eq_true_eq]
    by_cases he : r = cart.getD 0x014D 0
    · rw [if_pos he, if_pos he.symm]
    · rw [if_neg he, if_neg (fun h => he h.symm)]
  refine ⟨r, hr, ?_, hpassed, ?_⟩
  · omega
  · rw [hpassed]
    by_cases he : r = cart.getD 0x014D 0
    · rw [if_pos he]
      exact ⟨fun _ => he, fun _ => rfl⟩
    · rw [if_neg he]
      exact ⟨fun h => absurd (Option.some.inj h) (by decide), fun h => absurd h he⟩

set_option maxRecDepth 8192 in
theorem LoadCart_checksum_spec_witness :
    0x0150 ≤ (List.replicate 0x014D 0 ++ [0xE7, 0x00, 0x00]).length ∧
    LoadCart_checksum (List.replicate 0x014D 0 ++ [0xE7, 0x00, 0x00]) = some 0xE7 ∧
    LoadCart_checksumPassed (List.replicate 0x014D 0 ++ [0xE7, 0x00, 0x00]) =
      some "PASSED" := by
  have hlen : 0x0150 ≤ (List.replicate 0x014D 0 ++ [0xE7, 0x00, 0x00]).length := by decide
  obtain ⟨r, hr, hval, _, hiff⟩ :=
    LoadCart_checksum_spec (List.replicate 0x014D 0 ++ [0xE7, 0x00, 0x00]) hlen
  have hsum : (((List.replicate 0x014D 0 ++ [0xE7, 0x00, 0x00]).drop 0x0134).take 25).sum =
      0 := by decide
  have hbyte : (List.replicate 0x014D 0 ++ [0xE7, 0x00, 0x00]).getD 0x014D 0 = 0xE7 := by
    decide
  rw [hsum] at hval
  have hr231 : r = 0xE7 := by omega
  rw [hr231] at hr hiff
  exact ⟨hlen, hr, hiff.2 hbyte.symm⟩

/-! ## The header parse -/

set_option maxRecDepth 8192 in
/-- C34 (the code evaluated): `CartHeader` occupies 79 bytes, its last field
`GlobalChecksum` being one `uint8`, so `binary.Read` on the 80-byte slice 0x0100..0x014F
leaves the byte at 0x014F unread: two images that differ only in that byte parse to the
same header, and the fields of the parsed header written back in order are 79 bytes, not
the original 80. -/
theorem CartHeader_parse_defect :
    LoadCart_cartHeader (List.replicate 0x014F 0 ++ [0x12]) =
      LoadCart_cartHeader (List.replicate 0x014F 0 ++ [0x34]) ∧
    (LoadCart_cartHeader (List.replicate 0x014F 0 ++ [0x12])).isSome = true ∧
    ((List.replicate 0x014F 0 ++ [0x12]).drop 0x0100).take 0x50 ≠
      ((List.replicate 0x014F 0 ++ [0x34]).drop 0x0100).take 0x50 ∧
    ((LoadCart_cartHeader (List.replicate 0x014F 0 ++ [0x12])).map
        (fun h => h.serialize.length) = some 79 ∧
     (((List.replicate 0x014F 0 ++ [0x12]).drop 0x0100).take 0x50).length = 80) :=
  ⟨by decide, by decide, by decide, by decide, by decide⟩

theorem take_9_eq (l : List Nat) (h : 9 ≤ l.length) :
    l.take 9 =
      [l.getD 0 0, l.getD 1 0, l.getD 2 0, l.getD 3 0, l.getD 4 0, l.getD 5 0, l.getD 6 0,
        l.getD 7 0, l.getD 8 0] := by
  rcases l with _ | ⟨a0, _ | ⟨a1, _ | ⟨a2, _ | ⟨a3, _ | ⟨a4, _ | ⟨a5, _ | ⟨a6, _ | ⟨a7,
    _ | ⟨a8, l⟩⟩⟩⟩⟩⟩⟩⟩⟩
  all_goals first
    | (simp only [List.length_nil, List.length_cons] at h; omega)
    | rfl

theorem getD_drop_nat (d : List Nat) (k i : Nat) : (d.drop k).getD i 0 = d.getD (k + i) 0 := by
  simp [List.getD_eq_getElem?_getD, List.getElem?_drop]

theorem take_79_split (d : List Nat) (h : 79 ≤ d.length) :
    d.take 79 =
      d.take 0x04 ++ (d.drop 0x04).take 0x30 ++ (d.drop 0x34).take 0x10 ++
        (d.drop 0x44).take 0x02 ++
        [d.getD 0x46 0, d.getD 0x47 0, d.getD 0x48 0, d.getD 0x49 0, d.getD 0x4A 0,
          d.getD 0x4B 0, d.getD 0x4C 0, d.getD 0x4D 0, d.getD 0x4E 0] := by
  have e1 : d.take 79 = d.take 0x04 ++ (d.drop 0x04).take 75 := List.take_add d 4 75
  have e2 : (d.drop 0x04).take 75 = (d.drop 0x04).take 0x30 ++ (d.drop 0x34).take 27 := by
    rw [show (75 : Nat) = 0x30 + 27 from rfl, List.take_add, List.drop_drop]
  have e3 : (d.drop 0x34).take 27 = (d.drop 0x34).take 0x10 ++ (d.drop 0x44).take 11 := by
    rw [show (27 : Nat) = 0x10 + 11 from rfl, List.take_add, List.drop_drop]
  have e4 : (d.drop 0x44).take 11 = (d.drop 0x44).take 0x02 ++ (d.drop 0x46).take 9 := by
    rw [show (11 : Nat) = 0x02 + 9 from rfl, List.take_add, List.drop_drop]
  have e5 := take_9_eq (d.drop 0x46) (by rw [List.length_drop]; omega)
  simp only [getD_drop_nat] at e5
  rw [e1, e2, e3, e4, e5]
  simp only [List.append_assoc]

/-- The parse is faithful on the 79 bytes it reads: for every input of at least 79 bytes
the fields of the parsed header written back in order are the first 79 bytes of the input,
so two inputs parse to the same header iff their first 79 bytes agree. -/
theorem binaryReadCartHeader_serialize (d : List Nat) (h : 79 ≤ d.length) :
    ∃ hd, binaryReadCartHeader d = some hd ∧ hd.serialize = d.take 79 := by
  refine ⟨_, by unfold binaryReadCartHeader; rw [if_neg (by omega)], ?_⟩
  rw [take_79_split d h]
  rfl

/-! ## The header name tables -/

theorem table_lookup_eq (l : List String) (t : Nat) (d : String) :
    (if t < l.length then
        (l.get? t).bind fun s => if s != "" then l.get? t else some d
      else some d) =
      some (if t < l.length ∧ l.getD t "" ≠ "" then l.getD t "" else d) := by
  by_cases ht : t < l.length
  · have hg : l.get? t = some (l.getD t "") := by
      rw [List.get?_eq_get ht]
      simp [List.getD_eq_getElem?_getD, List.getElem?_eq_getElem ht]
    rw [if_pos ht, hg]
    simp only [Option.some_bind]
    by_cases he : l.getD t "" = ""
    · rw [he]
      simp
    · have hne : (l.getD t "" != "") = true := bne_iff_ne.mpr he
      rw [hne, if_pos rfl, if_pos ⟨ht, he⟩]
  · rw [if_neg ht, if_neg (fun h => ht h.1)]

/-- C40: for every header, `GetCartTypeName`, `GetRAMSize` and `GetDestCode` return (no
index is out of range): the table entry when the code is below the table length (0x23,
0x06, 0x02) and the entry is not the empty string, and the fallback string otherwise;
cartridge type 0x04 and RAM-size code 0x01 yield the fallbacks. -/
theorem header_names_spec (c : CartHeader) :
    c.GetCartTypeName =
      some (if c.CartType < 0x23 ∧ Types.getD c.CartType "" ≠ "" then Types.getD c.CartType ""
        else "UNKNOWN TYPE") ∧
    c.GetRAMSize =
      some (if c.RAMSize < 0x06 ∧ RAMSizes.getD c.RAMSize "" ≠ "" then
        RAMSizes.getD c.RAMSize "" else "UNKNOWN RAM SIZE") ∧
    c.GetDestCode =
      some (if c.DestCode < 0x02 ∧ DestCodes.getD c.DestCode "" ≠ "" then
        DestCodes.getD c.DestCode "" else "UNKNOWN DEST CODE") ∧
    ({ c with CartType := 0x04 }).GetCartTypeName = some "UNKNOWN TYPE" ∧
    ({ c with RAMSize := 0x01 }).GetRAMSize = some "UNKNOWN RAM SIZE" := by
  have h1 := table_lookup_eq Types c.CartType "UNKNOWN TYPE"
  have h2 := table_lookup_eq RAMSizes c.RAMSize "UNKNOWN RAM SIZE"
  have h3 := table_lookup_eq DestCodes c.DestCode "UNKNOWN DEST CODE"
  have l1 : Types.length = 0x23 := by decide
  have l2 : RAMSizes.length = 0x06 := by decide
  have l3 : DestCodes.length = 0x02 := by decide
  rw [l1] at h1
  rw [l2] at h2
  rw [l3] at h3
  have g1 : c.GetCartTypeName = _ := h1
  have g2 : c.GetRAMSize = _ := h2
  have g3 : c.GetDestCode = _ := h3
  have x1 := table_lookup_eq Types 0x04 "UNKNOWN TYPE"
  have x2 := table_lookup_eq RAMSizes 0x01 "UNKNOWN RAM SIZE"
  rw [l1] at x1
  rw [l2] at x2
  refine ⟨g1, g2, g3, x1.trans (by decide), x2.trans (by decide)⟩

/-! ## The 8-bit register loads -/

theorem and_7 (a : Nat) : a &&& 7 = a % 8 :=
  Nat.and_pow_two_sub_one_eq_mod a 3

theorem slot_setSlot_ne (r : Registers) (d i v : Nat) (hd : d < 8) (hi : i < 8) (hne : i ≠ d) :
    (r.setSlot d v).slot i = r.slot i := by
  interval_cases d <;> interval_cases i <;> first | rfl | exact absurd rfl hne

theorem setSlot_frame (r : Registers) (d v : Nat) :
    (r.setSlot d v).F = r.F ∧ (r.setSlot d v).SP = r.SP ∧ (r.setSlot d v).PC = r.PC := by
  unfold Registers.setSlot
  split <;> exact ⟨rfl, rfl, rfl⟩

theorem LD_r_r_exec (op : Nat) (hop : 0x40 ≤ op ∧ op ≤ 0x7F) (hd : op / 8 % 8 ≠ 6)
    (hs : op % 8 ≠ 6) (c : CPU) :
    execute op c =
      some ({ c with registers := c.registers.setSlot (op / 8 % 8) (c.registers.slot (op % 8)) },
        0) := by
  obtain ⟨h1, h2⟩ := hop
  interval_cases op
  all_goals first
    | exact absurd rfl hd
    | exact absurd rfl hs
    | rfl

/-- C38: for every load opcode op in 0x40..0x7F whose destination index (op >> 3) & 7 and
source index op & 7 are both different from 6 (slot order B, C, D, E, H, L, -, A) and every
state, the operation returns 0, the destination register holds the value the source
register had, every other register, the flag byte, SP and PC are unchanged, and so are the
bus (memory), the fetched operand, the tick counter and the halted latch. -/
theorem LD_r_r_spec (op : Nat) (hop : 0x40 ≤ op ∧ op ≤ 0x7F) (hd : (op >>> 3) &&& 7 ≠ 6)
    (hs : op &&& 7 ≠ 6) (c : CPU) :
    ∃ c', execute op c = some (c', 0) ∧
      c'.registers.slot ((op >>> 3) &&& 7) = c.registers.slot (op &&& 7) ∧
      (∀ i, i < 8 → i ≠ (op >>> 3) &&& 7 → c'.registers.slot i = c.registers.slot i) ∧
      c'.registers.F = c.registers.F ∧ c'.registers.SP = c.registers.SP ∧
      c'.registers.PC = c.registers.PC ∧
      c'.bus = c.bus ∧ c'.fetched = c.fetched ∧ c'.relAddr = c.relAddr ∧
      c'.ticks = c.ticks ∧ c'.halted = c.halted := by
  rw [shr3_and7] at hd ⊢
  rw [and_7] at hs ⊢
  have hd8 : op / 8 % 8 < 8 := Nat.mod_lt _ (by decide)
  obtain ⟨hF, hSP, hPC⟩ := setSlot_frame c.registers (op / 8 % 8) (c.registers.slot (op % 8))
  refine ⟨_, LD_r_r_exec op hop hd hs c, ?_, ?_, hF, hSP, hPC, rfl, rfl, rfl, rfl, rfl⟩
  · exact slot_setSlot _ _ _ hd8 hd
  · intro i hi hne
    exact slot_setSlot_ne _ _ _ _ hd8 hi hne

theorem LD_r_r_spec_witness :
    (0x40 ≤ 0x41 ∧ 0x41 ≤ 0x7F) ∧ (0x41 >>> 3) &&& 7 ≠ 6 ∧ 0x41 &&& 7 ≠ 6 ∧
    ∃ c1, execute 0x41
        (CPU.ofRegs ⟨0x01, 0xB0, 0x00, 0x13, 0x00, 0xD8, 0x01, 0x4D, 0xFFFE, 0x0101⟩ Bus.blank) =
        some (c1, 0) ∧
      c1.registers.B = 0x13 ∧ c1.registers.C = 0x13 ∧ c1.registers.F = 0xB0 ∧
      c1.registers.PC = 0x0101 ∧ c1.ticks = 0 := by
  refine ⟨by decide, by decide, by decide, ?_⟩
  obtain ⟨c1, h, hdst, hother, hF, _, hPC, _, _, _, hticks, _⟩ := LD_r_r_spec 0x41 (by decide)
    (by decide) (by decide)
    (CPU.ofRegs ⟨0x01, 0xB0, 0x00, 0x13, 0x00, 0xD8, 0x01, 0x4D, 0xFFFE, 0x0101⟩ Bus.blank)
  exact ⟨c1, h, hdst, hother 1 (by decide) (by decide), hF, hPC, hticks⟩

/-! ## Ticks of the ALU entries with the operand at HL -/

/-- C36 (the code evaluated): from a state with tick counter 0, entry 0x86 `ADD_A_[HL]`
reads the byte at HL and charges no ticks (its body has no `cpuCycles` call) while its
`Ticks` is `{8}`; entry 0x8E `ADC_A_[HL]` charges 4 ticks for its read while its `Ticks` is
`{4}`, not 8; the sibling entry 0x96 `SUB_A_[HL]` charges 4 ticks with `Ticks` `{8}`. -/
theorem ALU_atHL_ticks_defect :
    ((execute 0x86 (CPU.ofRegs ⟨0x01, 0, 0, 0, 0, 0, 0xC0, 0x00, 0xFFFE, 0x0101⟩ Bus.blank)).map
        (fun p => (p.1.ticks, p.2)) = some (0, 0) ∧
      (Instructions 0x86).map (fun i => i.Ticks) = some [8]) ∧
    ((execute 0x8E (CPU.ofRegs ⟨0x01, 0, 0, 0, 0, 0, 0xC0, 0x00, 0xFFFE, 0x0101⟩ Bus.blank)).map
        (fun p => (p.1.ticks, p.2)) = some (4, 0) ∧
      (Instructions 0x8E).map (fun i => i.Ticks) = some [4]) ∧
    ((execute 0x96 (CPU.ofRegs ⟨0x01, 0, 0, 0, 0, 0, 0xC0, 0x00, 0xFFFE, 0x0101⟩ Bus.blank)).map
        (fun p => (p.1.ticks, p.2)) = some (4, 0) ∧
      (Instructions 0x96).map (fun i => i.Ticks) = some [8]) :=
  ⟨⟨by decide, by decide⟩, ⟨by decide, by decide⟩, ⟨by decide, by decide⟩⟩

/-- The entries SUB 0x96, SBC 0x9E, AND 0xA6, XOR 0xAE and OR 0xB6 with the operand at HL
charge 4 ticks for their one bus read, and with the 4 ticks of the opcode fetch that is
their `Ticks[0]`, 8. -/
theorem ALU_atHL_ticks_spec_of_ok (op : Nat)
    (hop : op = 0x96 ∨ op = 0x9E ∨ op = 0xA6 ∨ op = 0xAE ∨ op = 0xB6) (c : CPU) (val : Nat)
    (hread : c.bus.Read c.registers.GetHL = some val) :
    ∃ c' ins, execute op c = some (c', 0) ∧ c'.ticks = c.ticks + 4 ∧ c'.bus = c.bus ∧
      Instructions op = some ins ∧ ins.Ticks = [8] := by
  rcases hop with rfl | rfl | rfl | rfl | rfl
  · have h : execute 0x96 c = SUB_A_atHL c := rfl
    rw [h]
    unfold SUB_A_atHL
    rw [hread]
    refine ⟨_, _, rfl, ?_, ?_, rfl, rfl⟩
    all_goals simp [CPU.SetSubFlags, CPU.withRegs, cpuCycles_one]
  · have h : execute 0x9E c = SBC_A_atHL c := rfl
    rw [h]
    unfold SBC_A_atHL
    rw [hread]
    refine ⟨_, _, rfl, ?_, ?_, rfl, rfl⟩
    all_goals simp [CPU.SetSbcFlags, CPU.withRegs, cpuCycles_one]
  · have h : execute 0xA6 c = AND_A_atHL c := rfl
    rw [h]
    unfold AND_A_atHL
    rw [hread]
    refine ⟨_, _, rfl, ?_, ?_, rfl, rfl⟩
    all_goals simp [CPU.SetAndFlags, CPU.withRegs, cpuCycles_one]
  · have h : execute 0xAE c = XOR_A_atHL c := rfl
    rw [h]
    unfold XOR_A_atHL
    rw [hread]
    refine ⟨_, _, rfl, ?_, ?_, rfl, rfl⟩
    all_goals simp [CPU.SetXorFlags, CPU.withRegs, cpuCycles_one]
  · have h : execute 0xB6 c = OR_A_atHL c := rfl
    rw [h]
    unfold OR_A_atHL
    rw [hread]
    refine ⟨_, _, rfl, ?_, ?_, rfl, rfl⟩
    all_goals simp [CPU.SetXorFlags, CPU.withRegs, cpuCycles_one]

/-! ## The tick list and the returned discriminant -/

/-- C39 (the code evaluated): entry 0xAF `XOR_A_A` has no `Ticks` field, so its tick list
is empty, while its operation returns 0: the returned value is not an index into the list
(`Ticks[0]` is out of range); the sibling entry 0xA8 `XOR_A_B` returns 0 with `Ticks`
`{4}`. -/
theorem XOR_A_A_ticks_defect :
    (execute 0xAF (CPU.ofRegs ⟨0x5A, 0, 0, 0, 0, 0, 0, 0, 0xFFFE, 0x0101⟩ Bus.blank)).map
        (fun p => p.2) = some 0 ∧
    (Instructions 0xAF).map (fun i => i.Ticks.length) = some 0 ∧
    (Instructions 0xAF).map (fun i => i.Ticks.get? 0) = some none ∧
    ((execute 0xA8 (CPU.ofRegs ⟨0x5A, 0, 0, 0, 0, 0, 0, 0, 0xFFFE, 0x0101⟩ Bus.blank)).map
        (fun p => p.2) = some 0 ∧
      (Instructions 0xA8).map (fun i => i.Ticks) = some [4]) :=
  ⟨by decide, by decide, by decide, by decide, by decide⟩

/-! ## The slots of the primary table -/

set_option maxRecDepth 100000 in
/-- C35 (the code evaluated): the array literal `Instructions` lists 216 of its 256 slots.
The 40 slots it leaves at the zero value include legal opcodes (0x27 DAA, 0x2F CPL, the CP
row 0xB8-0xBF, 0xDE SBC A,n8, 0xF6 OR A,n8, ...) and eight of the eleven illegal opcodes;
only 0xEB, 0xEC and 0xED are the `DASH` stub. Dispatching on an empty slot such as 0xDE
calls a nil function. -/
theorem Instructions_slots_defect :
    (List.range 256).filter (fun op => (InstructionMnemonics op).isNone) =
      [0x27, 0x2F, 0xB8, 0xB9, 0xBA, 0xBB, 0xBC, 0xBD, 0xBE, 0xBF, 0xC0, 0xC7, 0xC8, 0xCA,
        0xCC, 0xCF, 0xD2, 0xD3, 0xD4, 0xD7, 0xD9, 0xDA, 0xDB, 0xDC, 0xDD, 0xDE, 0xDF, 0xE2,
        0xE3, 0xE4, 0xF2, 0xF4, 0xF6, 0xF7, 0xF8, 0xF9, 0xFB, 0xFC, 0xFD, 0xFF] ∧
    [0xD3, 0xDB, 0xDD, 0xE3, 0xE4, 0xEB, 0xEC, 0xED, 0xF4, 0xFC, 0xFD].map
        InstructionMnemonics =
      [none, none, none, none, none, some "-", some "-", some "-", none, none, none] ∧
    (Instructions 0xEB).map (fun i => (i.Mnemonic, i.Ticks)) = some (DASH.Mnemonic, DASH.Ticks) ∧
    (execute 0xDE (CPU.ofRegs ⟨0x5A, 0, 0, 0, 0, 0, 0, 0, 0xFFFE, 0x0101⟩ Bus.blank)).isNone =
      true :=
  ⟨by decide, by decide, by decide, by decide⟩

set_option maxRecDepth 100000 in
/-- A slot the source leaves empty has no embedded entry, so `execute` is undefined
there. -/
theorem Instructions_empty_slots :
    ((List.range 256).filter (fun op => (InstructionMnemonics op).isNone)).all
      (fun op => (Instructions op).isNone) = true := by
  decide

/-! ## The CB prefix by bit fields -/

theorem CB_rot_rows (c : CPU) (k : Nat) (hk : k ≤ 0x3F) :
    CB { c with fetched := k } =
      if k % 8 = 6 then CPU.cbMem { c with fetched := k } (CB_rotateOp (k / 8 % 8))
      else CPU.cbReg { c with fetched := k } (k % 16) (CB_rotateOp (k / 8 % 8)) := by
  have h1 : (k >>> 4) &&& 0x000F = k / 16 := by rw [shr4_and15]; omega
  have h2 : k &&& 0x000F = k % 16 := and_15 k
  have hrow : k / 16 = 0 ∨ k / 16 = 1 ∨ k / 16 = 2 ∨ k / 16 = 3 := by omega
  unfold CB
  simp only [h1, h2]
  rcases hrow with h | h | h | h <;> simp only [h] <;> split_ifs <;>
    first
    | omega
    | (have hb : k / 8 % 8 = 0 := by omega
       rw [hb]
       rfl)
    | (have hb : k / 8 % 8 = 1 := by omega
       rw [hb]
       rfl)
    | (have hb : k / 8 % 8 = 2 := by omega
       rw [hb]
       rfl)
    | (have hb : k / 8 % 8 = 3 := by omega
       rw [hb]
       rfl)
    | (have hb : k / 8 % 8 = 4 := by omega
       rw [hb]
       rfl)
    | (have hb : k / 8 % 8 = 5 := by omega
       rw [hb]
       rfl)
    | (have hb : k / 8 % 8 = 6 := by omega
       rw [hb]
       rfl)
    | (have hb : k / 8 % 8 = 7 := by omega
       rw [hb]
       rfl)

theorem CB_set_rows (c : CPU) (k : Nat) (hk : 0xC0 ≤ k ∧ k ≤ 0xFF) :
    CB { c with fetched := k } =
      if k % 8 = 6 then
        CPU.cbMem { c with fetched := k } (fun c v => (c, c.SetBit v (k / 8 % 8) true))
      else
        CPU.cbReg { c with fetched := k } (k % 16)
          (fun c v => (c, c.SetBit v (k / 8 % 8) true)) := by
  obtain ⟨hk1, hk2⟩ := hk
  have h1 : (k >>> 4) &&& 0x000F = k / 16 := by rw [shr4_and15]; omega
  have h2 : k &&& 0x000F = k % 16 := and_15 k
  have hrow : k / 16 = 12 ∨ k / 16 = 13 ∨ k / 16 = 14 ∨ k / 16 = 15 := by omega
  unfold CB
  simp only [h1, h2]
  rcases hrow with h | h | h | h <;> simp only [h] <;> split_ifs <;>
    first
    | omega
    | (have hb : k / 8 % 8 = 0 := by omega
       rw [hb])
    | (have hb : k / 8 % 8 = 1 := by omega
       rw [hb])
    | (have hb : k / 8 % 8 = 2 := by omega
       rw [hb])
    | (have hb : k / 8 % 8 = 3 := by omega
       rw [hb])
    | (have hb : k / 8 % 8 = 4 := by omega
       rw [hb])
    | (have hb : k / 8 % 8 = 5 := by omega
       rw [hb])
    | (have hb : k / 8 % 8 = 6 := by omega
       rw [hb])
    | (have hb : k / 8 % 8 = 7 := by omega
       rw [hb])

theorem CBLookUp_slotRef (c : CPU) (n : Nat) (hn : n < 16) :
    c.CBLookUp (u8 n) = CB_slotRef (n % 8) := by
  interval_cases n <;> rfl

theorem cbReg_cbSlot (c : CPU) (n : Nat) (f : CPU → Nat → CPU × Nat) (hn : n < 16) :
    c.cbReg n f = c.cbSlot (n % 8) f := by
  unfold CPU.cbReg CPU.cbSlot
  rw [CBLookUp_slotRef c n hn]

theorem cbBitReg_slot (c : CPU) (n bit : Nat) (hn : n < 16) :
    c.cbBitReg n bit = some (c.SetBitFlags (c.registers.load (CB_slotRef (n % 8))) bit, 2) := by
  unfold CPU.cbBitReg
  rw [CBLookUp_slotRef c n hn]

theorem CB_decomposed_eq (c : CPU) (k : Nat) (hk : k < 256) :
    CB_decomposed { c with fetched := k } =
      if k / 64 = 0 then
        if k % 8 = 6 then CPU.cbMem { c with fetched := k } (CB_rotateOp (k / 8 % 8))
        else CPU.cbSlot { c with fetched := k } (k % 8) (CB_rotateOp (k / 8 % 8))
      else if k / 64 = 1 then
        if k % 8 = 6 then CPU.cbBitMem { c with fetched := k } (k / 8 % 8)
        else some (CPU.SetBitFlags { c with fetched := k }
          (c.registers.load (CB_slotRef (k % 8))) (k / 8 % 8), 2)
      else if k / 64 = 2 then
        if k % 8 = 6 then
          CPU.cbMem { c with fetched := k } (fun c v => (c, c.SetBit v (k / 8 % 8) false))
        else
          CPU.cbSlot { c with fetched := k } (k % 8)
            (fun c v => (c, c.SetBit v (k / 8 % 8) false))
      else
        if k % 8 = 6 then
          CPU.cbMem { c with fetched := k } (fun c v => (c, c.SetBit v (k / 8 % 8) true))
        else
          CPU.cbSlot { c with fetched := k } (k % 8)
            (fun c v => (c, c.SetBit v (k / 8 % 8) true)) := by
  have h0 : k &&& 0x00FF = k := by rw [and_255]; exact Nat.mod_eq_of_lt hk
  have h1 : k >>> 6 = k / 64 := by rw [Nat.shiftRight_eq_div_pow]
  have h2 : (k >>> 3) &&& 7 = k / 8 % 8 := shr3_and7 k
  have h3 : k &&& 7 = k % 8 := Nat.and_pow_two_sub_one_eq_mod k 3
  have hfam : k / 64 = 0 ∨ k / 64 = 1 ∨ k / 64 = 2 ∨ k / 64 = 3 := by omega
  unfold CB_decomposed
  simp only [h0, h1, h2, h3]
  rcases hfam with h | h | h | h <;> simp only [h] <;> rfl

theorem setCarryFromBit_frame (c : CPU) (b : Nat) :
    (c.setCarryFromBit b).bus = c.bus ∧
      (c.setCarryFromBit b).registers.GetHL = c.registers.GetHL := by
  unfold CPU.setCarryFromBit
  split_ifs <;> exact ⟨rfl, rfl⟩

theorem CB_rotateOp_frame (n : Nat) (c : CPU) (v : Nat) :
    (CB_rotateOp n c v).1.bus = c.bus ∧
      (CB_rotateOp n c v).1.registers.GetHL = c.registers.GetHL := by
  unfold CB_rotateOp
  split <;>
    simp only [CPU.SetCBRotateFlags, CPU.SetShiftFlags, CPU.SetSwapFlags, CPU.withRegs,
      Bool.false_eq_true, if_false, if_true, SetFlag_GetHL] <;>
    first
    | exact ⟨rfl, rfl⟩
    | exact ⟨trivial, trivial⟩
    | exact setCarryFromBit_frame _ _

theorem cbMem_ret (c c1 : CPU) (f : CPU → Nat → CPU × Nat) (r : Nat)
    (h : c.cbMem f = some (c1, r)) : r = 0 := by
  unfold CPU.cbMem at h
  simp only [Option.bind_eq_some, Option.some.injEq, Prod.mk.injEq] at h
  obtain ⟨_, _, _, _, _, hr⟩ := h
  exact hr.symm

theorem cbBitMem_ret (c c1 : CPU) (bit r : Nat) (h : c.cbBitMem bit = some (c1, r)) :
    r = 1 := by
  unfold CPU.cbBitMem at h
  simp only [Option.bind_eq_some, Option.some.injEq, Prod.mk.injEq] at h
  obtain ⟨_, _, _, hr⟩ := h
  exact hr.symm

theorem cbMem_returns (c : CPU) (f : CPU → Nat → CPU × Nat) (val : Nat)
    (hread : c.bus.Read c.registers.GetHL = some val)
    (hwrite : ∀ v, ∃ b, c.bus.Write c.registers.GetHL v = some b)
    (hframe : ∀ c v, (f c v).1.bus = c.bus ∧ (f c v).1.registers.GetHL = c.registers.GetHL) :
    ∃ c1, c.cbMem f = some (c1, 0) := by
  unfold CPU.cbMem
  rw [hread]
  simp only [Option.some_bind]
  obtain ⟨hb, hhl⟩ := hframe (c.cpuCycles 1) val
  have hb2 : (f (c.cpuCycles 1) val).1.bus = c.bus := hb
  have hhl2 : (f (c.cpuCycles 1) val).1.registers.GetHL = c.registers.GetHL := hhl
  rw [hb2, hhl2]
  obtain ⟨b, hw⟩ := hwrite (f (c.cpuCycles 1) val).2
  rw [hw]
  exact ⟨_, rfl⟩

theorem cbBitMem_returns (c : CPU) (bit val : Nat)
    (hread : c.bus.Read c.registers.GetHL = some val) :
    ∃ c1, c.cbBitMem bit = some (c1, 1) := by
  unfold CPU.cbBitMem
  rw [hread]
  exact ⟨_, rfl⟩

theorem cbSlot_returns (c : CPU) (slot : Nat) (f : CPU → Nat → CPU × Nat) :
    ∃ c1, c.cbSlot slot f = some (c1, 2) :=
  ⟨_, rfl⟩

/-- C37: for every CB sub-opcode byte k in 0..255 and every state, the nested nibble switch
of the CB operation gives the same result as the decomposition by bit fields, family
k >> 6 (0 rotate/shift/swap, 1 BIT, 2 RES, 3 SET), selector (k >> 3) & 7 and operand slot
k & 7 in the order B, C, D, E, H, L, (HL), A; it returns 2 for every register operand, and
for the operand (HL) it returns 1 for BIT and 0 otherwise, whenever it returns, which it
does if the bus read and write of the byte at HL do. -/
theorem CB_decomposition (c : CPU) (k : Nat) (hk : k < 256) (hf : c.fetched = k) :
    CB c = CB_decomposed c ∧
    (k &&& 7 ≠ 6 → ∃ c1, CB c = some (c1, 2)) ∧
    (k &&& 7 = 6 → ∀ c1 r, CB c = some (c1, r) → r = if k >>> 6 = 1 then 1 else 0) ∧
    (k &&& 7 = 6 → ∀ val, c.bus.Read c.registers.GetHL = some val →
      (∀ v, ∃ b, c.bus.Write c.registers.GetHL v = some b) →
      ∃ c1, CB c = some (c1, if k >>> 6 = 1 then 1 else 0)) := by
  subst hf
  have h3 : c.fetched &&& 7 = c.fetched % 8 := Nat.and_pow_two_sub_one_eq_mod _ 3
  have h6 : c.fetched >>> 6 = c.fetched / 64 := by rw [Nat.shiftRight_eq_div_pow]
  rw [h3, h6]
  have hm16 : c.fetched % 16 < 16 := Nat.mod_lt _ (by decide)
  have hm8 : c.fetched % 16 % 8 = c.fetched % 8 := by omega
  have hd : CB_decomposed c = _ := CB_decomposed_eq c c.fetched hk
  have hfam : c.fetched ≤ 0x3F ∨ (0x40 ≤ c.fetched ∧ c.fetched ≤ 0x7F) ∨
      (0x80 ≤ c.fetched ∧ c.fetched ≤ 0xBF) ∨ (0xC0 ≤ c.fetched ∧ c.fetched ≤ 0xFF) := by
    omega
  rcases hfam with h | h | h | h
  · have hcb : CB c = _ := CB_rot_rows c c.fetched h
    have e0 : c.fetched / 64 = 0 := by omega
    rw [hd, hcb, e0]
    simp only [if_true, cbReg_cbSlot _ _ _ hm16, hm8]
    refine ⟨trivial, ?_, ?_, ?_⟩
    · intro hne
      rw [if_neg hne]
      exact cbSlot_returns _ _ _
    · intro he c1 r hr
      rw [if_pos he] at hr
      rw [if_neg (by decide)]
      exact cbMem_ret _ _ _ _ hr
    · intro he val hread hwrite
      rw [if_pos he, if_neg (by decide)]
      exact cbMem_returns c _ val hread hwrite (CB_rotateOp_frame _)
  · have hcb : CB c = _ := CB_bit_rows c c.fetched h
    have e0 : c.fetched / 64 = 1 := by omega
    rw [hd, hcb, e0]
    simp only [if_true, if_neg (show ¬ (1 = 0) by decide), cbBitReg_slot _ _ _ hm16, hm8]
    refine ⟨trivial, ?_, ?_, ?_⟩
    · intro hne
      rw [if_neg hne]
      exact ⟨_, rfl⟩
    · intro he c1 r hr
      rw [if_pos he] at hr
      exact cbBitMem_ret _ _ _ _ hr
    · intro he val hread _
      rw [if_pos he]
      exact cbBitMem_returns c _ val hread
  · have hcb : CB c = _ := CB_res_rows c c.fetched h
    have e0 : c.fetched / 64 = 2 := by omega
    rw [hd, hcb, e0]
    simp only [if_neg (show ¬ (2 = 0) by decide), if_neg (show ¬ (2 = 1) by decide), if_true,
      cbReg_cbSlot _ _ _ hm16, hm8]
    refine ⟨trivial, ?_, ?_, ?_⟩
    · intro hne
      rw [if_neg hne]
      exact cbSlot_returns _ _ _
    · intro he c1 r hr
      rw [if_pos he] at hr
      exact cbMem_ret _ _ _ _ hr
    · intro he val hread hwrite
      rw [if_pos he]
      exact cbMem_returns c _ val hread hwrite (fun _ _ => ⟨rfl, rfl⟩)
  · have hcb : CB c = _ := CB_set_rows c c.fetched h
    have e0 : c.fetched / 64 = 3 := by omega
    rw [hd, hcb, e0]
    simp only [if_neg (show ¬ (3 = 0) by decide), if_neg (show ¬ (3 = 1) by decide),
      if_neg (show ¬ (3 = 2) by decide), cbReg_cbSlot _ _ _ hm16, hm8]
    refine ⟨trivial, ?_, ?_, ?_⟩
    · intro hne
      rw [if_neg hne]
      exact cbSlot_returns _ _ _
    · intro he c1 r hr
      rw [if_pos he] at hr
      exact cbMem_ret _ _ _ _ hr
    · intro he val hread hwrite
      rw [if_pos he]
      exact cbMem_returns c _ val hread hwrite (fun _ _ => ⟨rfl, rfl⟩)

theorem CB_decomposition_witness :
    (0x46 : Nat) < 256 ∧
    CB { CPU.ofRegs ⟨0x01, 0xB0, 0x00, 0x13, 0x00, 0xD8, 0xC0, 0x00, 0xFFFE, 0x0102⟩
        Bus.blank with fetched := 0x46 } =
      CB_decomposed { CPU.ofRegs ⟨0x01, 0xB0, 0x00, 0x13, 0x00, 0xD8, 0xC0, 0x00, 0xFFFE,
        0x0102⟩ Bus.blank with fetched := 0x46 } ∧
    ∃ c1, CB { CPU.ofRegs ⟨0x01, 0xB0, 0x00, 0x13, 0x00, 0xD8, 0xC0, 0x00, 0xFFFE, 0x0102⟩
        Bus.blank with fetched := 0x46 } = some (c1, 1) := by
  have h := CB_decomposition
    { CPU.ofRegs ⟨0x01, 0xB0, 0x00, 0x13, 0x00, 0xD8, 0xC0, 0x00, 0xFFFE, 0x0102⟩
        Bus.blank with fetched := 0x46 } 0x46 (by decide) rfl
  exact ⟨by decide, h.1, h.2.2.2 (by decide) 0 (by decide) (fun v => ⟨_, rfl⟩)⟩

end Goboy
